import Mathlib

/-!
# Tile paint pipeline of OpenRCT2: segment support table, rotation helpers, element dispatch

A shallow embedding of `src/paint/map_element/map_element.c` and of the path painter
`loc_6A37C9` of `src/paint/map_element/path.c` with the functions it calls.  Machine integers are natural numbers or integers; a store
into a narrower C type is written out as a reduction modulo the width.  The process-wide
globals the C code pokes through `RCT2_GLOBAL` are the fields of `PaintState`, passed
explicitly.
-/

namespace OpenRCT2

/-! ## Machine integers -/

/-- Store of an `int` into a `uint16` location. -/
def to_uint16 (v : Int) : Int := v % 65536

/-- Store of an `int` into a `sint16` location (two's complement wrap). -/
def to_sint16 (v : Int) : Int := (v + 32768) % 65536 - 32768

/-- Modelled from the spec: the `rol8` macro is declared in a header that is not among the
source files.  The spec describes it as rotating the full byte left; this is the usual
`(x << shift) | (x >> (8 - shift))` on a `uint8`, with the result stored back into a `uint8`.
It is only ever used with `shift` at most 8. -/
def rol8 (x shift : Nat) : Nat :=
  (((x % 256) <<< shift) ||| ((x % 256) >>> (8 - shift))) % 256

/-! ## Segment masks -/

/-- Modelled from the spec: the `SEGMENT_` enumeration lives in `map_element.h`, which is not
among the source files.  The eight perimeter segments occupy the low byte in ring order
(B4, CC, BC, D4, C0, D0, B8, C8), as `path.c` relies on when it turns edge bit 0 into
`SEGMENT_CC`, bit 1 into `SEGMENT_D4`, bit 2 into `SEGMENT_D0` and bit 3 into `SEGMENT_C8`;
the centre segment C4 is bit 8. -/
def SEGMENT_B4 : Nat := 1 <<< 0

/-- Modelled from the spec: see `SEGMENT_B4`. -/
def SEGMENT_CC : Nat := 1 <<< 1

/-- Modelled from the spec: see `SEGMENT_B4`. -/
def SEGMENT_BC : Nat := 1 <<< 2

/-- Modelled from the spec: see `SEGMENT_B4`. -/
def SEGMENT_D4 : Nat := 1 <<< 3

/-- Modelled from the spec: see `SEGMENT_B4`. -/
def SEGMENT_C0 : Nat := 1 <<< 4

/-- Modelled from the spec: see `SEGMENT_B4`. -/
def SEGMENT_D0 : Nat := 1 <<< 5

/-- Modelled from the spec: see `SEGMENT_B4`. -/
def SEGMENT_B8 : Nat := 1 <<< 6

/-- Modelled from the spec: see `SEGMENT_B4`. -/
def SEGMENT_C8 : Nat := 1 <<< 7

/-- Modelled from the spec: see `SEGMENT_B4`. -/
def SEGMENT_C4 : Nat := 1 <<< 8

/-- The constant `SEGMENTS_ALL` of `map_element.c`. -/
def SEGMENTS_ALL : Nat :=
  SEGMENT_B4 ||| SEGMENT_B8 ||| SEGMENT_BC ||| SEGMENT_C0 ||| SEGMENT_C4 ||| SEGMENT_C8 |||
    SEGMENT_CC ||| SEGMENT_D0 ||| SEGMENT_D4

/-- The table `segment_offsets[9]` of `map_element.c`: the mask bit of the segment stored in
slot `s` of the segment table. -/
def segment_offsets (s : Fin 9) : Nat :=
  match s with
  | 0 => SEGMENT_B4
  | 1 => SEGMENT_B8
  | 2 => SEGMENT_BC
  | 3 => SEGMENT_C0
  | 4 => SEGMENT_C4
  | 5 => SEGMENT_C8
  | 6 => SEGMENT_CC
  | 7 => SEGMENT_D0
  | 8 => SEGMENT_D4

/-! ## Rotation helpers -/

/-- The function `paint_util_rotate_segments(uint16 segments, uint8 rotation)`. -/
def paint_util_rotate_segments (segments rotation : Nat) : Nat :=
  let temp := segments &&& 0xFF
  let temp := rol8 temp (rotation * 2)
  (segments &&& 0xFF00) ||| temp

/-- The function `path_rotate_perimeter(uint8 perimeter, uint8 rotation)` of `path.c`.
The complement `~m2` stored into the `uint8` `m1` is `0xFF xor m2`. -/
def path_rotate_perimeter (perimeter rotation : Nat) : Nat :=
  let m2 := (0x77331100 >>> (rotation <<< 3)) &&& 0xFF
  let m1 := 0xFF ^^^ m2
  let x1 := rol8 perimeter rotation
  let x2 := x1
  let x2 := rol8 x2 4
  let x1 := x1 &&& m1
  let x2 := x2 &&& m2
  x1 ||| x2

/-! ## Path style descriptors -/

/-- Modelled from the spec: `rct_footpath_entry` is declared in `world/footpath.h`, which is
not among the source files.  The footpath style descriptor, with the fields `path.c` reads:
the base image ids (`uint32`), the railing style `var_0A`, the flags and the scrolling
mode. -/
structure rct_footpath_entry where
  image : Nat := 0
  bridge_image : Nat := 0
  var_0A : Nat := 0
  flags : Nat := 0
  scrolling_mode : Nat := 0
  deriving DecidableEq, Repr

/-- Modelled from the spec: `rct_scenery_entry` is declared in `world/scenery.h`, which is
not among the source files.  A path addition's style, with the fields `path.c` reads: the
base image id and `path_bit.draw_type`. -/
structure rct_scenery_entry where
  image : Nat := 0
  path_bit_draw_type : Nat := 0
  deriving DecidableEq, Repr

/-! ## Paint state -/

/-- The value of `gPaintInteractionType`; only the items the embedded code assigns. -/
inductive InteractionItem where
  | NONE
  | FOOTPATH
  | FOOTPATH_ITEM
  | RIDE
  | OTHER (n : Nat)
  deriving DecidableEq, Repr

/-- The paint globals written by `map_element.c`.

* `segments`: the nine `uint32` words at `0x0141E9B4 + 4 * s` (height in the low 16 bits,
  slope in the next byte, one padding byte);
* `max_height`, `slope`: `RCT2_ADDRESS_CURRENT_PAINT_TILE_MAX_HEIGHT` (`sint16`) and the
  byte at `0x141E9DA`, the general support height and its slope;
* `tunnel_left_count`, `tunnel_right_count`: the bytes at `0x141F56A` and `0x141F56B`;
* `bytes_9E30B6`: the bytes from `0x9E30B6` on, by offset: the right tunnel queue starts
  at offset 0, the left tunnel queue (`0x9E3138`) at offset 130, and the byte at `0x9E323C`
  is offset 390; a store past the end of one queue lands in what follows it;
* `dword_F3EF78`, `ptr_F3EF6C`: the base image and the style pointer the path painter
  leaves at `0xF3EF78` and `0xF3EF6C`;
* the remaining fields are named after their addresses. -/
structure PaintState where
  segments : Fin 9 → Nat
  max_height : Int
  slope : Nat
  byte_141E9DB : Nat
  dword_141E9DC : Nat
  tunnel_left_count : Nat
  tunnel_right_count : Nat
  bytes_9E30B6 : Nat → Nat
  word_9DE568 : Int
  word_9DE56A : Int
  word_9DE56C : Int
  word_9DE56E : Int
  word_9DE574 : Int
  word_9DE576 : Int
  ptr_9DE578 : Nat
  word_9DE57C : Nat
  gPaintInteractionType : InteractionItem
  dword_F3EF78 : Nat := 0
  ptr_F3EF6C : Option rct_footpath_entry := none

/-- The bytes from `0x9E30B6` on: the right tunnel queue. -/
def PaintState.tunnels_right (g : PaintState) : Nat → Nat :=
  fun a => g.bytes_9E30B6 a

/-- The bytes from `0x9E3138` on: the left tunnel queue, 130 bytes above the right one. -/
def PaintState.tunnels_left (g : PaintState) : Nat → Nat :=
  fun a => g.bytes_9E30B6 (130 + a)

/-- The byte at `0x9E323C`. -/
def PaintState.byte_9E323C (g : PaintState) : Nat :=
  g.bytes_9E30B6 390

/-- The height half of a segment word (`uint16` at the word's address). -/
def segment_height (w : Nat) : Nat := w % 65536

/-- The slope byte of a segment word (the byte after the height). -/
def segment_slope (w : Nat) : Nat := (w >>> 16) % 256

/-- The function `paint_util_force_set_general_support_height(sint16 height, uint8 slope)`. -/
def paint_util_force_set_general_support_height (height : Int) (slope : Nat)
    (g : PaintState) : PaintState :=
  { g with max_height := height, slope := slope }

/-- The function `paint_util_set_general_support_height(sint16 height, uint8 slope)`. -/
def paint_util_set_general_support_height (height : Int) (slope : Nat)
    (g : PaintState) : PaintState :=
  if g.max_height ≥ height then g
  else paint_util_force_set_general_support_height height slope g

/-- The loop shared by the two segment setters: for `s = 0 .. 8`, when
`segments & segment_offsets[s]` is non-zero, store `word` into slot `s`.  The `int` mask
`segments` is given by its bit pattern. -/
def store_named_segments (segments word : Nat) (table : Fin 9 → Nat) : Fin 9 → Nat :=
  (List.finRange 9).foldl
    (fun t s => if segments &&& segment_offsets s ≠ 0 then Function.update t s word else t)
    table

/-- The function `paint_util_set_segment_support_invalid_height(int segments)`. -/
def paint_util_set_segment_support_invalid_height (segments : Nat)
    (g : PaintState) : PaintState :=
  { g with segments := store_named_segments segments 0xFFFFFFFF g.segments }

/-- The function `paint_util_set_segment_support_height(int segments, uint16 height,
uint8 slope)`. -/
def paint_util_set_segment_support_height (segments height slope : Nat)
    (g : PaintState) : PaintState :=
  if height ≠ 0xFFFF then
    let tmp := height ||| (slope <<< 16)
    { g with segments := store_named_segments segments tmp g.segments }
  else
    paint_util_set_segment_support_invalid_height segments g

/-- The function `paint_util_set_all_segments_support_invalid_height()`: a `memset` of the
36 bytes of the table to `0xFF`. -/
def paint_util_set_all_segments_support_invalid_height (g : PaintState) : PaintState :=
  { g with segments := fun _ => 0xFFFFFFFF }

/-! ## Map elements -/

/-- Modelled from the spec: `rct_map_element` is declared in `world/map.h`, which is not among
the source files.  One stacked element of a tile: the common bytes `type`, `flags`,
`base_height`, `clearance_height`, and those bytes of the type-specific `properties` union
that the embedded code reads (kept as separate fields, so the model allows at least every
element the union allows). -/
structure rct_map_element where
  type : Nat := 0
  flags : Nat := 0
  base_height : Nat := 0
  clearance_height : Nat := 0
  surface_terrain : Nat := 0
  path_type : Nat := 0
  path_additions : Nat := 0
  path_edges : Nat := 0
  path_addition_status : Nat := 0
  deriving DecidableEq, Repr

/-- Modelled from the spec: `MAP_ELEMENT_DIRECTION_MASK` of `world/map.h` (not among the
source files); the direction is the low two bits of the type byte. -/
def MAP_ELEMENT_DIRECTION_MASK : Nat := 0x03

/-- Modelled from the spec: `MAP_ELEMENT_TYPE_MASK` of `world/map.h` (not among the source
files); the type tag is bits 2..5 of the type byte. -/
def MAP_ELEMENT_TYPE_MASK : Nat := 0x3C

/-- Modelled from the spec: type tag of a Surface element (`world/map.h`, not among the
source files); the nine tags are numbered in the order the spec lists the variants. -/
def MAP_ELEMENT_TYPE_SURFACE : Nat := 0 <<< 2

/-- Modelled from the spec: type tag of a Path element, see `MAP_ELEMENT_TYPE_SURFACE`. -/
def MAP_ELEMENT_TYPE_PATH : Nat := 1 <<< 2

/-- Modelled from the spec: type tag of a Track element, see `MAP_ELEMENT_TYPE_SURFACE`. -/
def MAP_ELEMENT_TYPE_TRACK : Nat := 2 <<< 2

/-- Modelled from the spec: type tag of a Scenery element, see `MAP_ELEMENT_TYPE_SURFACE`. -/
def MAP_ELEMENT_TYPE_SCENERY : Nat := 3 <<< 2

/-- Modelled from the spec: type tag of an Entrance element, see
`MAP_ELEMENT_TYPE_SURFACE`. -/
def MAP_ELEMENT_TYPE_ENTRANCE : Nat := 4 <<< 2

/-- Modelled from the spec: type tag of a Fence element, see `MAP_ELEMENT_TYPE_SURFACE`. -/
def MAP_ELEMENT_TYPE_FENCE : Nat := 5 <<< 2

/-- Modelled from the spec: type tag of a multi-tile scenery element, see
`MAP_ELEMENT_TYPE_SURFACE`. -/
def MAP_ELEMENT_TYPE_SCENERY_MULTIPLE : Nat := 6 <<< 2

/-- Modelled from the spec: type tag of a Banner element, see `MAP_ELEMENT_TYPE_SURFACE`. -/
def MAP_ELEMENT_TYPE_BANNER : Nat := 7 <<< 2

/-- Modelled from the spec: type tag of a Corrupt element, see `MAP_ELEMENT_TYPE_SURFACE`. -/
def MAP_ELEMENT_TYPE_CORRUPT : Nat := 8 <<< 2

/-- Modelled from the spec: the "last for tile" bit of the flags byte (`world/map.h`, not
among the source files). -/
def MAP_ELEMENT_FLAG_LAST_TILE : Nat := 1 <<< 7

/-- Modelled from the spec: `MAP_ELEMENT_WATER_HEIGHT_MASK` of `world/map.h` (not among the
source files). -/
def MAP_ELEMENT_WATER_HEIGHT_MASK : Nat := 0x1F

/-- Modelled from the spec: `map_element_get_type` of `world/map.c` (not among the source
files), the element's type tag. -/
def map_element_get_type (e : rct_map_element) : Nat :=
  e.type &&& MAP_ELEMENT_TYPE_MASK

/-- Modelled from the spec: `map_element_is_last_for_tile` of `world/map.c` (not among the
source files), whether the element is the terminator of its tile's stack. -/
def map_element_is_last_for_tile (e : rct_map_element) : Bool :=
  e.flags &&& MAP_ELEMENT_FLAG_LAST_TILE ≠ 0

/-! ## Draw commands and painters -/

/-- The three entry points of the draw command sink that the embedded code calls. -/
inductive DrawSink where
  | sub_98196C
  | sub_98197C
  | sub_98199C
  deriving DecidableEq, Repr

/-- One call of the draw command sink, with its arguments.  `marker_adjusted` records the
adjustment `sub_68B3FB` applies to the returned handle of a support-height marker
(`flags &= PAINT_STRUCT_FLAG_IS_MASKED`, `colour_image_id = COLOUR_BORDEAUX_RED`). -/
structure DrawCommand where
  sink : DrawSink
  image_id : Nat
  x_offset : Int
  y_offset : Int
  bound_box_length_x : Int
  bound_box_length_y : Int
  bound_box_length_z : Int
  z_offset : Int
  bound_box_offset : Option (Int × Int × Int) := none
  rotation : Nat
  marker_adjusted : Bool := false
  deriving DecidableEq, Repr

/-- The eight type-specific painters `sub_68B3FB` dispatches to. -/
inductive PainterKind where
  | surface_paint
  | path_paint
  | track_paint
  | scenery_paint
  | entrance_paint
  | fence_paint
  | scenery_multiple_paint
  | banner_paint
  deriving DecidableEq, Repr

/-- What a run of the paint code does towards its collaborators, in order: a call of a
type-specific painter `painter(direction, height, map_element)` (the element given by its
index in the tile's stack), or a call of the draw command sink. -/
inductive Event where
  | painter (k : PainterKind) (direction height element : Nat)
  | draw (d : DrawCommand)
  deriving DecidableEq, Repr

/-- The type-specific painters are collaborators: each is an arbitrary function of its
arguments `(direction, height, element)` and of the paint globals, returning the new paint
globals and the draw commands it emitted. -/
abbrev Painters := PainterKind → Nat → Nat → Nat → PaintState → PaintState × List DrawCommand

/-- The painter invocations of a trace, in order. -/
def painter_calls (trace : List Event) : List (PainterKind × Nat × Nat × Nat) :=
  trace.filterMap fun ev =>
    match ev with
    | .painter k d h i => some (k, d, h, i)
    | .draw _ => none

/-- The draw commands of a trace, in order. -/
def draw_commands (trace : List Event) : List DrawCommand :=
  trace.filterMap fun ev =>
    match ev with
    | .painter _ _ _ _ => none
    | .draw d => some d

/-! ## Element painter dispatch: `sub_68B3FB` -/

/-- What `sub_68B3FB` reads but does not write. `arrow_enabled` is the test
`gMapSelectFlags & MAP_SELECT_FLAG_ENABLE_ARROW`; `map_get_first_element_at` returns the
element memory from the tile's first element on. -/
structure PaintEnv where
  rotation : Nat
  dpi_y : Int
  dpi_height : Int
  arrow_enabled : Bool
  gMapSelectArrowPosition_x : Int
  gMapSelectArrowPosition_y : Int
  gMapSelectArrowPosition_z : Int
  gMapSelectArrowDirection : Nat
  gShowSupportSegmentHeights : Bool
  gMapSizeUnits : Int
  map_get_first_element_at : Int → Int → List rct_map_element

/-- The place where `sub_68B3FB` or `blank_tiles_paint` stopped. `fault` is a read past the
end of the element memory or of a variable that was never assigned; `out_of_fuel` cannot
occur (the loop is run with enough fuel). -/
inductive Exit where
  | culled_above
  | culled_below
  | corrupt_terminator
  | undefined_element
  | heights_hidden
  | surface_on_top
  | markers_drawn
  | fault
  | out_of_fuel
  | blank_above
  | blank_below
  | blank_drawn
  deriving DecidableEq, Repr

/-- The outcome of a run: final paint globals, the events in order, and the exit taken. -/
structure PaintResult where
  g : PaintState
  trace : List Event
  exit : Exit

/-- The state of the dispatch loop: `i` is the index of `map_element` in the tile's stack. -/
structure LoopState where
  i : Nat
  g : PaintState
  trace : List Event

/-- The outcome of the part of `sub_68B3FB` before the dispatch loop. -/
inductive Entry where
  | returned (r : PaintResult)
  | loop (s : LoopState)

/-- The first loop of `sub_68B3FB`: the maximum clearance height over the stack, and the
element carrying the last-for-tile flag (`element--` after the loop). -/
def max_clearance_scan : List rct_map_element → Int → Option (Int × rct_map_element)
  | [], _ => none
  | e :: rest, max_height =>
    let max_height := max max_height (e.clearance_height : Int)
    if map_element_is_last_for_tile e then some (max_height, e)
    else max_clearance_scan rest max_height

/-- The rotation switch at the head of `sub_68B3FB`: the adjusted `x`, `y`, and `dx`. -/
def sub_68B3FB_project (rotation : Nat) (x y : Int) : Int × Int × Int :=
  match rotation with
  | 0 => (x, y, x + y)
  | 1 => (x + 32, y, y - (x + 32))
  | 2 => (x + 32, y + 32, -((x + 32) + (y + 32)))
  | 3 => (x, y + 32, x - (y + 32))
  | _ => (x, y, 0)

/-- The head of `sub_68B3FB`: the tunnel counters and queues are reset, the tile position is
stored, and the selection arrow is drawn when it is enabled for this tile.  Returns the
paint globals and the events so far. -/
def sub_68B3FB_begin (env : PaintEnv) (x y : Int) (g : PaintState) :
    PaintState × List Event :=
  let g := { g with
    tunnel_left_count := 0, tunnel_right_count := 0,
    bytes_9E30B6 :=
      Function.update (Function.update (Function.update g.bytes_9E30B6 130 0xFF) 0 0xFF)
        390 0xFF,
    word_9DE56A := to_uint16 x, word_9DE56E := to_uint16 y,
    word_9DE574 := to_uint16 x, word_9DE576 := to_uint16 y }
  let rotation := env.rotation
  let x1 := (sub_68B3FB_project rotation x y).1
  let y1 := (sub_68B3FB_project rotation x y).2.1
  if env.arrow_enabled ∧ g.word_9DE56A = env.gMapSelectArrowPosition_x ∧
      g.word_9DE56E = env.gMapSelectArrowPosition_y then
    let arrowRotation := (rotation + (env.gMapSelectArrowDirection &&& 3)) &&& 3
    let imageId := arrowRotation + (env.gMapSelectArrowDirection &&& 0xFC) + 0x20900C27
    let arrowZ := env.gMapSelectArrowPosition_z
    ({ g with word_9DE568 := to_sint16 x1, word_9DE56C := to_sint16 y1,
              gPaintInteractionType := InteractionItem.NONE },
     [Event.draw { sink := .sub_98197C, image_id := imageId, x_offset := 0, y_offset := 0,
                   bound_box_length_x := 32, bound_box_length_y := 32,
                   bound_box_length_z := 0xFF, z_offset := arrowZ,
                   bound_box_offset := some (0, 0, arrowZ + 18), rotation := rotation }])
  else (g, [])

/-- The value of `max_height` that `sub_68B3FB` subtracts in its second viewport test, from
the result of the clearance scan: the water height replaces the maximum clearance when the
terminator is a Surface element with water, and the result is multiplied by 8. -/
def sub_68B3FB_max_height (scan : Int × rct_map_element) : Int :=
  let max_height := scan.1
  let element := scan.2
  let max_height :=
    if map_element_get_type element = MAP_ELEMENT_TYPE_SURFACE ∧
        element.surface_terrain &&& MAP_ELEMENT_WATER_HEIGHT_MASK ≠ 0 then
      (((element.surface_terrain &&& MAP_ELEMENT_WATER_HEIGHT_MASK) <<< 1 : Nat) : Int)
    else max_height
  max_height * 8

/-- The body of `sub_68B3FB` up to the dispatch loop: the head, then the two viewport tests
around the clearance scan. -/
def sub_68B3FB_entry (env : PaintEnv) (x y : Int) (g : PaintState) : Entry :=
  let begun := sub_68B3FB_begin env x y g
  let map_element := env.map_get_first_element_at (x >>> 5) (y >>> 5)
  let x1 := (sub_68B3FB_project env.rotation x y).1
  let y1 := (sub_68B3FB_project env.rotation x y).2.1
  let dx := (sub_68B3FB_project env.rotation x y).2.2
  let dx := dx >>> 1
  let bx := dx + 52
  if bx ≤ env.dpi_y then .returned ⟨begun.1, begun.2, .culled_above⟩
  else
    match max_clearance_scan map_element 0 with
    | none => .returned ⟨begun.1, begun.2, .fault⟩
    | some scan =>
      let dx := dx - (sub_68B3FB_max_height scan + 32)
      let dx := dx - env.dpi_height
      if dx ≥ env.dpi_y then .returned ⟨begun.1, begun.2, .culled_below⟩
      else
        .loop ⟨0, { begun.1 with word_9DE568 := to_sint16 x1, word_9DE56C := to_sint16 y1,
                                 word_9DE57C := 0 }, begun.2⟩

/-- The branch the `switch` of the dispatch loop takes for a type tag. -/
inductive Dispatch where
  | painter (k : PainterKind)
  | corrupt
  | undefined
  deriving DecidableEq, Repr

/-- The `switch (map_element_get_type(map_element))` of the dispatch loop. -/
def sub_68B3FB_switch (tag : Nat) : Dispatch :=
  if tag = MAP_ELEMENT_TYPE_SURFACE then .painter .surface_paint
  else if tag = MAP_ELEMENT_TYPE_PATH then .painter .path_paint
  else if tag = MAP_ELEMENT_TYPE_TRACK then .painter .track_paint
  else if tag = MAP_ELEMENT_TYPE_SCENERY then .painter .scenery_paint
  else if tag = MAP_ELEMENT_TYPE_ENTRANCE then .painter .entrance_paint
  else if tag = MAP_ELEMENT_TYPE_FENCE then .painter .fence_paint
  else if tag = MAP_ELEMENT_TYPE_SCENERY_MULTIPLE then .painter .scenery_multiple_paint
  else if tag = MAP_ELEMENT_TYPE_BANNER then .painter .banner_paint
  else if tag = MAP_ELEMENT_TYPE_CORRUPT then .corrupt
  else .undefined

/-- The outcome of one iteration of the dispatch loop. -/
inductive StepResult where
  | next (s : LoopState)
  | finished (s : LoopState)
  | returned (r : PaintResult)

/-- The loop body for an element whose tag selects painter `k`: the rotated direction and
the absolute height are computed, `0x9DE578` is pointed at the element, the painter runs,
the dword at `0x9DE574` is restored, and `map_element` is advanced by the loop test. -/
def paint_element (P : Painters) (rotation : Nat) (s : LoopState) (e : rct_map_element)
    (k : PainterKind) : LoopState :=
  let direction := (e.type + rotation) &&& MAP_ELEMENT_DIRECTION_MASK
  let height := e.base_height * 8
  let saved_9DE574 := s.g.word_9DE574
  let saved_9DE576 := s.g.word_9DE576
  let g := { s.g with ptr_9DE578 := s.i }
  let painted := P k direction height s.i g
  let g := { painted.1 with word_9DE574 := saved_9DE574, word_9DE576 := saved_9DE576 }
  ⟨s.i + 1, g, s.trace ++ Event.painter k direction height s.i :: painted.2.map Event.draw⟩

/-- The loop body for a Corrupt element that is not last for its tile: `0x9DE578` is pointed
at the Corrupt element, `map_element` is advanced once by the `case` and once more by the
loop test; nothing is painted. -/
def skip_element (s : LoopState) : LoopState :=
  let saved_9DE574 := s.g.word_9DE574
  let saved_9DE576 := s.g.word_9DE576
  let g := { s.g with ptr_9DE578 := s.i }
  let g := { g with word_9DE574 := saved_9DE574, word_9DE576 := saved_9DE576 }
  ⟨s.i + 2, g, s.trace⟩

/-- One iteration of the `do ... while` dispatch loop of `sub_68B3FB`, body and loop test,
with `map_element` at index `s.i` of `stack`. -/
def dispatch_step (P : Painters) (rotation : Nat) (stack : List rct_map_element)
    (s : LoopState) : StepResult :=
  match stack[s.i]? with
  | none => .returned ⟨s.g, s.trace, .fault⟩
  | some e =>
    match sub_68B3FB_switch (map_element_get_type e) with
    | .painter k =>
      if map_element_is_last_for_tile e then .finished (paint_element P rotation s e k)
      else .next (paint_element P rotation s e k)
    | .corrupt =>
      if map_element_is_last_for_tile e then
        .returned ⟨{ s.g with ptr_9DE578 := s.i }, s.trace, .corrupt_terminator⟩
      else
        match stack[s.i + 1]? with
        | none => .returned ⟨{ s.g with ptr_9DE578 := s.i }, s.trace, .fault⟩
        | some skipped =>
          if map_element_is_last_for_tile skipped then .finished (skip_element s)
          else .next (skip_element s)
    | .undefined => .returned ⟨{ s.g with ptr_9DE578 := s.i }, s.trace, .undefined_element⟩

/-- The outcome of the dispatch loop. -/
inductive LoopExit where
  | finished (s : LoopState)
  | returned (r : PaintResult)
  | stalled (s : LoopState)

/-- The dispatch loop: iterations of `dispatch_step` until one leaves the loop. Every
iteration advances `map_element`, so `fuel` beyond the length of the stack is never used up. -/
def dispatch_loop (P : Painters) (rotation : Nat) (stack : List rct_map_element) :
    Nat → LoopState → LoopExit
  | 0, s => .stalled s
  | fuel + 1, s =>
    match dispatch_step P rotation stack s with
    | .next s1 => dispatch_loop P rotation stack fuel s1
    | .finished s1 => .finished s1
    | .returned r => .returned r

/-- The loop state after `n` complete iterations that stayed in the loop, if the loop runs
that long: the states the dispatch loop reaches. -/
def dispatch_after (P : Painters) (rotation : Nat) (stack : List rct_map_element) :
    Nat → LoopState → Option LoopState
  | 0, s => some s
  | n + 1, s =>
    match dispatch_step P rotation stack s with
    | .next s1 => dispatch_after P rotation stack n s1
    | _ => none

/-- The table `segmentOffsets` local to `sub_68B3FB`. -/
def segmentOffsets : List (List Nat) :=
  [[0xB4, 0xCC, 0xBC],
   [0xC8, 0xC4, 0xD4],
   [0xB8, 0xD0, 0xC0]]

/-- The read `RCT2_GLOBAL(0x0141E900 + offset, uint16)` for an offset inside the segment
table, which starts at `0x0141E9B4`. -/
def read_segment_height_at (g : PaintState) (offset : Nat) : Nat :=
  if h : (offset - 0xB4) / 4 < 9 then segment_height (g.segments ⟨(offset - 0xB4) / 4, h⟩)
  else 0

/-- The body of the marker loops of `sub_68B3FB` for one `(y, x)`. -/
def support_height_marker (env : PaintEnv) (g : PaintState) (y x : Nat) : DrawCommand :=
  let segmentHeight := read_segment_height_at g ((segmentOffsets.getD y []).getD x 0)
  let fallback := segmentHeight = 0xFFFF
  let segmentHeight : Int := if fallback then to_uint16 g.max_height else segmentHeight
  let imageColourFlats : Nat :=
    if fallback then (0b111011 <<< 19) ||| 0x40000000 else (0b101111 <<< 19) ||| 0x40000000
  let xOffset : Int := y * 10
  let yOffset : Int := -22 + x * 10
  { sink := .sub_98197C, image_id := 5504 ||| imageColourFlats,
    x_offset := xOffset, y_offset := yOffset,
    bound_box_length_x := 10, bound_box_length_y := 10, bound_box_length_z := 1,
    z_offset := segmentHeight,
    bound_box_offset := some (xOffset + 1, yOffset + 16, segmentHeight),
    rotation := env.rotation, marker_adjusted := true }

/-- The two nested marker loops of `sub_68B3FB`. -/
def support_height_markers (env : PaintEnv) (g : PaintState) : List DrawCommand :=
  (List.range 3).flatMap fun y => (List.range 3).map fun x => support_height_marker env g y x

/-- The part of `sub_68B3FB` after the dispatch loop, with `map_element` at index `s.i`. -/
def sub_68B3FB_finish (env : PaintEnv) (stack : List rct_map_element)
    (s : LoopState) : PaintResult :=
  if ¬ env.gShowSupportSegmentHeights then ⟨s.g, s.trace, .heights_hidden⟩
  else
    match stack[s.i - 1]? with
    | none => ⟨s.g, s.trace, .fault⟩
    | some e =>
      if map_element_get_type e = MAP_ELEMENT_TYPE_SURFACE then ⟨s.g, s.trace, .surface_on_top⟩
      else ⟨s.g, s.trace ++ (support_height_markers env s.g).map Event.draw, .markers_drawn⟩

/-- What `sub_68B3FB` does once the dispatch loop is left: a `return` inside the loop ends the
function, a loop that ran to its end is followed by the marker block. -/
def sub_68B3FB_exit (env : PaintEnv) (stack : List rct_map_element) : LoopExit → PaintResult
  | .finished s => sub_68B3FB_finish env stack s
  | .returned r => r
  | .stalled s => ⟨s.g, s.trace, .out_of_fuel⟩

/-- The function `sub_68B3FB(int x, int y)`. -/
def sub_68B3FB (P : Painters) (env : PaintEnv) (x y : Int) (g : PaintState) : PaintResult :=
  let stack := env.map_get_first_element_at (x >>> 5) (y >>> 5)
  match sub_68B3FB_entry env x y g with
  | .returned r => r
  | .loop s0 =>
    sub_68B3FB_exit env stack (dispatch_loop P env.rotation stack (stack.length + 1) s0)

/-! ## Tile entry points: `map_element_paint_setup`, `sub_68B2B7`, `blank_tiles_paint` -/

/-- The rotation switch at the head of `blank_tiles_paint`: the adjusted `x`, `y`, and `dx`.
The switch has no default and `dx` no initial value, so there is no result for a rotation
outside 0..3. -/
def blank_tiles_project (rotation : Nat) (x y : Int) : Option (Int × Int × Int) :=
  match rotation with
  | 0 => some (x, y, x + y)
  | 1 => some (x + 32, y, y - (x + 32))
  | 2 => some (x + 32, y + 32, -((x + 32) + (y + 32)))
  | 3 => some (x, y + 32, x - (y + 32))
  | _ => none

/-- The one draw command of `blank_tiles_paint`:
`sub_98196C(3123, 0, 0, 32, 32, -1, 16, get_current_rotation())`. -/
def blank_tile_command (rotation : Nat) : DrawCommand :=
  { sink := .sub_98196C, image_id := 3123, x_offset := 0, y_offset := 0,
    bound_box_length_x := 32, bound_box_length_y := 32, bound_box_length_z := -1,
    z_offset := 16, rotation := rotation }

/-- The function `blank_tiles_paint(int x, int y)`.  `dx /= 2` is the truncating division
of C. -/
def blank_tiles_paint (env : PaintEnv) (x y : Int) (g : PaintState) : PaintResult :=
  match blank_tiles_project env.rotation x y with
  | none => ⟨g, [], .fault⟩
  | some (x1, y1, dx) =>
    let dx := Int.tdiv dx 2
    let dx := dx - 16
    let bx := dx + 32
    if bx ≤ env.dpi_y then ⟨g, [], .blank_above⟩
    else
      let dx := dx - 20
      let dx := dx - env.dpi_height
      if dx ≥ env.dpi_y then ⟨g, [], .blank_below⟩
      else
        ⟨{ g with word_9DE568 := to_sint16 x1, word_9DE56C := to_sint16 y1,
                  gPaintInteractionType := InteractionItem.NONE },
         [Event.draw (blank_tile_command env.rotation)], .blank_drawn⟩

/-- The writes of `map_element_paint_setup` before it calls `sub_68B3FB`. -/
def map_element_paint_setup_reset (g : PaintState) : PaintState :=
  let g := paint_util_set_all_segments_support_invalid_height g
  let g := paint_util_force_set_general_support_height (-1) 0 g
  let g := { g with byte_141E9DB := 0 }
  { g with dword_141E9DC := 0xFFFF }

/-- The function `map_element_paint_setup(int x, int y)`. -/
def map_element_paint_setup (P : Painters) (env : PaintEnv) (x y : Int)
    (g : PaintState) : PaintResult :=
  if x < env.gMapSizeUnits ∧ y < env.gMapSizeUnits ∧ x ≥ 32 ∧ y ≥ 32 then
    sub_68B3FB P env x y (map_element_paint_setup_reset g)
  else
    blank_tiles_paint env x y g

/-- The writes of `sub_68B2B7` before it calls `sub_68B3FB`. -/
def sub_68B2B7_reset (g : PaintState) : PaintState :=
  let g := paint_util_set_all_segments_support_invalid_height g
  let g := paint_util_force_set_general_support_height (-1) 0 g
  let g := { g with dword_141E9DC := 0xFFFF }
  { g with byte_141E9DB := 2 }

/-- The function `sub_68B2B7(int x, int y)`. -/
def sub_68B2B7 (P : Painters) (env : PaintEnv) (x y : Int) (g : PaintState) : PaintResult :=
  if x < env.gMapSizeUnits ∧ y < env.gMapSizeUnits ∧ x ≥ 32 ∧ y ≥ 32 then
    sub_68B3FB P env x y (sub_68B2B7_reset g)
  else
    blank_tiles_paint env x y g

/-! ## Path painter tables -/

/-- The table `byte_98D800` of `path.c`. -/
def byte_98D800 : List Nat := [12, 9, 3, 6]

/-- The table `byte_98D6E0` of `path.c`: 256 entries, indexed by the rotated perimeter. -/
def byte_98D6E0 : List Nat :=
  [0, 1, 2, 3, 4, 5, 6, 7, 8, 9, 10, 11, 12, 13, 14, 15,
   0, 1, 2, 20, 4, 5, 6, 22, 8, 9, 10, 26, 12, 13, 14, 36,
   0, 1, 2, 3, 4, 5, 21, 23, 8, 9, 10, 11, 12, 13, 33, 37,
   0, 1, 2, 3, 4, 5, 6, 24, 8, 9, 10, 11, 12, 13, 14, 38,
   0, 1, 2, 3, 4, 5, 6, 7, 8, 9, 10, 11, 29, 30, 34, 39,
   0, 1, 2, 3, 4, 5, 6, 7, 8, 9, 10, 11, 12, 13, 14, 40,
   0, 1, 2, 3, 4, 5, 6, 7, 8, 9, 10, 11, 12, 13, 35, 41,
   0, 1, 2, 3, 4, 5, 6, 7, 8, 9, 10, 11, 12, 13, 14, 42,
   0, 1, 2, 3, 4, 5, 6, 7, 8, 25, 10, 27, 12, 31, 14, 43,
   0, 1, 2, 3, 4, 5, 6, 7, 8, 9, 10, 28, 12, 13, 14, 44,
   0, 1, 2, 3, 4, 5, 6, 7, 8, 9, 10, 11, 12, 13, 14, 45,
   0, 1, 2, 3, 4, 5, 6, 7, 8, 9, 10, 11, 12, 13, 14, 46,
   0, 1, 2, 3, 4, 5, 6, 7, 8, 9, 10, 11, 12, 32, 14, 47,
   0, 1, 2, 3, 4, 5, 6, 7, 8, 9, 10, 11, 12, 13, 14, 48,
   0, 1, 2, 3, 4, 5, 6, 7, 8, 9, 10, 11, 12, 13, 14, 49,
   0, 1, 2, 3, 4, 5, 6, 7, 8, 9, 10, 11, 12, 13, 14, 50]

/-- The table `stru_98D804` of `path.c`: bounding box offset and size by rotated edges. -/
def stru_98D804 : List (List Int) :=
  [[3, 3, 26, 26],
   [0, 3, 29, 26],
   [3, 3, 26, 29],
   [0, 3, 29, 29],
   [3, 3, 29, 26],
   [0, 3, 32, 26],
   [3, 3, 29, 29],
   [0, 3, 32, 29],
   [3, 0, 26, 29],
   [0, 0, 29, 29],
   [3, 0, 26, 32],
   [0, 0, 29, 32],
   [3, 0, 29, 29],
   [0, 0, 32, 29],
   [3, 0, 29, 32],
   [0, 0, 32, 32]]

/-- The table `byte_98D8A4` of `path.c`. -/
def byte_98D8A4 : List Nat :=
  [0, 0, 1, 0, 0, 0, 1, 0, 1, 1, 1, 1, 0, 0, 1, 0]

/-- Rotation of a 4-bit value left by `r` bits within its four bits, as the comment of
`path_rotate_perimeter` words it ("rotate upper and lower 4 bits"); the reference for what
the mask shuffle of the code computes. -/
def rotl4 (n r : Nat) : Nat :=
  (((n % 16) <<< r) ||| ((n % 16) >>> (4 - r))) % 16

/-! ## Path painter: `loc_6A37C9` and the functions it calls -/

/-- Store of an `int` or `uint32` sum into a `uint32` location. -/
def to_uint32 (n : Nat) : Nat := n % 4294967296

/-- Modelled from the spec: `footpath_element_is_sloped` of `world/footpath.c` (not among
the source files); the slope flag is bit 2 of the path type byte, the bit `sub_6A3F61`
itself tests as `properties.path.type & 0x04`. -/
def footpath_element_is_sloped (e : rct_map_element) : Bool :=
  e.path_type &&& 4 ≠ 0

/-- Modelled from the spec: `footpath_element_get_slope_direction` of `world/footpath.c` (not
among the source files); the low two bits of the path type byte. -/
def footpath_element_get_slope_direction (e : rct_map_element) : Nat :=
  e.path_type &&& 3

/-- Modelled from the spec: `footpath_element_is_queue` of `world/footpath.c` (not among the
source files); bit 0 of the element's type byte, the bit `loc_6A37C9` itself tests as
`mapElement->type & 1` when it selects the queue sprites. -/
def footpath_element_is_queue (e : rct_map_element) : Bool :=
  e.type &&& 1 ≠ 0

/-- Modelled from the spec: `MAP_ELEMENT_FLAG_BROKEN` of `world/map.h` (not among the
source files). -/
def MAP_ELEMENT_FLAG_BROKEN : Nat := 1 <<< 5

/-- Modelled from the spec: the `PATH_BIT_DRAW_TYPE_` enumeration of `world/scenery.h` (not
among the source files), numbered in the order the spec lists the additions: lamps, bins,
benches, jumping fountains. -/
def PATH_BIT_DRAW_TYPE_LIGHTS : Nat := 0

/-- Modelled from the spec: see `PATH_BIT_DRAW_TYPE_LIGHTS`. -/
def PATH_BIT_DRAW_TYPE_BINS : Nat := 1

/-- Modelled from the spec: see `PATH_BIT_DRAW_TYPE_LIGHTS`. -/
def PATH_BIT_DRAW_TYPE_BENCHES : Nat := 2

/-- Modelled from the spec: see `PATH_BIT_DRAW_TYPE_LIGHTS`. -/
def PATH_BIT_DRAW_TYPE_JUMPING_FOUNTAINS : Nat := 3

/-- Modelled from the spec: the tunnel type code `TUNNEL_10` of `paint.h` (not among the
source files). -/
def TUNNEL_10 : Nat := 10

/-- Modelled from the spec: the tunnel type code `TUNNEL_11` of `paint.h` (not among the
source files). -/
def TUNNEL_11 : Nat := 11

/-- What the path painter reads but does not write, and its collaborators.

* `rotation`, `zoom_level`: `get_current_rotation()` and `unk_140E9A8->zoom_level`;
* `byte_9DEA6F`: the byte at `0x9DEA6F`;
* `get_footpath_item_entry`: the style registry for path additions, given the element (the
  index comes from `footpath_element_get_path_scenery_index`);
* `path_a_supports_paint_setup`, `path_b_supports_paint_setup`: the support post painters,
  arbitrary functions of their arguments and of the paint globals;
* `word_98D884`: the `sint16` table at `0x0098D884`, by word index;
* `ride_open`: for a ride index, whether the ride is open and not broken down;
* `sign_string_width`: for a ride index, the pixel width of the formatted sign text;
* `scrolling_text_setup`: the scrolling text renderer, returning an image id;
* the two string ids of the sign texts. -/
structure PathEnv where
  rotation : Nat
  zoom_level : Nat
  byte_9DEA6F : Nat
  get_footpath_item_entry : rct_map_element → rct_scenery_entry
  path_a_supports_paint_setup :
    Nat → Nat → Int → Nat → rct_footpath_entry → PaintState → PaintState × List DrawCommand
  path_b_supports_paint_setup :
    Nat → Nat → Int → Nat → PaintState → PaintState × List DrawCommand
  word_98D884 : Nat → Int
  ride_open : Nat → Bool
  sign_string_width : Nat → Nat
  gCurrentTicks : Nat
  scrolling_text_setup : Nat → Nat → Nat → Nat
  STR_RIDE_ENTRANCE_CLOSED : Nat
  STR_RIDE_ENTRANCE_NAME : Nat

/-- A store of the `uint32` value `v` at byte offset `offset` of a byte memory
(little endian). -/
def write_uint32 (mem : Nat → Nat) (offset v : Nat) : Nat → Nat :=
  fun a =>
    if a = offset then v % 256
    else if a = offset + 1 then (v >>> 8) % 256
    else if a = offset + 2 then (v >>> 16) % 256
    else if a = offset + 3 then (v >>> 24) % 256
    else mem a

/-- The function `paint_util_push_tunnel_left(uint16 height, uint8 type)`: the `uint32`
slot at index `count / 2` of the array at `0x9E3138` (offset 130 of the bytes from
`0x9E30B6`) is written, and the `uint8` counter incremented. -/
def paint_util_push_tunnel_left (height type : Nat) (g : PaintState) : PaintState :=
  let eax := 0xFFFF0000 ||| ((height / 16) &&& 0xFF) ||| (type <<< 8)
  { g with
    bytes_9E30B6 := write_uint32 g.bytes_9E30B6 (130 + 4 * (g.tunnel_left_count / 2)) eax,
    tunnel_left_count := (g.tunnel_left_count + 1) % 256 }

/-- The function `paint_util_push_tunnel_right(uint16 height, uint8 type)`: as
`paint_util_push_tunnel_left`, on the array at `0x9E30B6` and the counter at `0x141F56B`. -/
def paint_util_push_tunnel_right (height type : Nat) (g : PaintState) : PaintState :=
  let eax := 0xFFFF0000 ||| ((height / 16) &&& 0xFF) ||| (type <<< 8)
  { g with
    bytes_9E30B6 := write_uint32 g.bytes_9E30B6 (4 * (g.tunnel_right_count / 2)) eax,
    tunnel_right_count := (g.tunnel_right_count + 1) % 256 }

/-- The function `path_bit_lights_paint`. -/
def path_bit_lights_paint (env : PathEnv) (pathBitEntry : rct_scenery_entry)
    (mapElement : rct_map_element) (height : Int) (edges pathBitImageFlags : Nat) :
    List DrawCommand :=
  let height := if footpath_element_is_sloped mapElement then height + 8 else height
  let offset : List (Int × Int) := [(2, 16), (16, 30), (30, 16), (16, 2)]
  let bound_box_len : List (Int × Int) := [(1, 1), (1, 0), (0, 1), (1, 1)]
  let bound_box_offset : List (Int × Int) := [(3, 16), (16, 29), (29, 16), (16, 3)]
  let base_imageId := to_uint32 (pathBitEntry.image + 1)
  let rotation := env.rotation
  let base_imageId :=
    if mapElement.flags &&& MAP_ELEMENT_FLAG_BROKEN ≠ 0 then to_uint32 (base_imageId + 4)
    else base_imageId
  (List.range 4).filterMap fun i =>
    if edges &&& (1 <<< i) ≠ 0 then none
    else
      let imageId := to_uint32 (base_imageId + i) ||| pathBitImageFlags
      some { sink := .sub_98197C, image_id := imageId,
             x_offset := (offset.getD i (0, 0)).1, y_offset := (offset.getD i (0, 0)).2,
             bound_box_length_x := (bound_box_len.getD i (0, 0)).1,
             bound_box_length_y := (bound_box_len.getD i (0, 0)).2,
             bound_box_length_z := 23, z_offset := height,
             bound_box_offset := some ((bound_box_offset.getD i (0, 0)).1,
               (bound_box_offset.getD i (0, 0)).2, height + 2),
             rotation := rotation }

/-- The function `path_bit_bins_paint`.  The sprite of a bin is moved back by 4 when the
addition is broken, by 8 when its two status bits, rotated, are set in `addition_status`;
the subtraction is that of a `uint32`. -/
def path_bit_bins_paint (env : PathEnv) (pathBitEntry : rct_scenery_entry)
    (mapElement : rct_map_element) (height : Int) (edges pathBitImageFlags : Nat) :
    List DrawCommand :=
  let height := if footpath_element_is_sloped mapElement then height + 8 else height
  let offset : List (Int × Int) := [(7, 16), (16, 25), (25, 16), (16, 7)]
  let bound_box_offset : List (Int × Int) := [(7, 16), (16, 25), (25, 16), (16, 7)]
  let base_imageId := to_uint32 (pathBitEntry.image + 9)
  let rotation := env.rotation
  (List.range 4).filterMap fun i =>
    if edges &&& (1 <<< i) ≠ 0 then none
    else
      let imageId := to_uint32 (base_imageId + i)
      let imageId :=
        if mapElement.flags &&& MAP_ELEMENT_FLAG_BROKEN ≠ 0 then
          to_uint32 (imageId + 4294967296 - 4)
        else if mapElement.path_addition_status % 256 &&& rol8 (0x3 <<< (i * 2)) rotation ≠ 0
        then to_uint32 (imageId + 4294967296 - 8)
        else imageId
      let imageId := imageId ||| pathBitImageFlags
      some { sink := .sub_98197C, image_id := imageId,
             x_offset := (offset.getD i (0, 0)).1, y_offset := (offset.getD i (0, 0)).2,
             bound_box_length_x := 1, bound_box_length_y := 1, bound_box_length_z := 7,
             z_offset := height,
             bound_box_offset := some ((bound_box_offset.getD i (0, 0)).1,
               (bound_box_offset.getD i (0, 0)).2, height + 2),
             rotation := rotation }

/-- The function `path_bit_benches_paint`. -/
def path_bit_benches_paint (env : PathEnv) (pathBitEntry : rct_scenery_entry)
    (mapElement : rct_map_element) (height : Int) (edges pathBitImageFlags : Nat) :
    List DrawCommand :=
  let offset : List (Int × Int) := [(7, 16), (16, 25), (25, 16), (16, 7)]
  let bound_box_len : List (Int × Int × Int) := [(0, 16, 7), (16, 0, 7), (0, 16, 7), (16, 0, 7)]
  let bound_box_offset : List (Int × Int) := [(6, 8), (8, 23), (23, 8), (8, 6)]
  let base_imageId := to_uint32 (pathBitEntry.image + 1)
  let rotation := env.rotation
  let base_imageId :=
    if mapElement.flags &&& MAP_ELEMENT_FLAG_BROKEN ≠ 0 then to_uint32 (base_imageId + 4)
    else base_imageId
  (List.range 4).filterMap fun i =>
    if edges &&& (1 <<< i) ≠ 0 then none
    else
      let imageId := to_uint32 (base_imageId + i) ||| pathBitImageFlags
      some { sink := .sub_98197C, image_id := imageId,
             x_offset := (offset.getD i (0, 0)).1, y_offset := (offset.getD i (0, 0)).2,
             bound_box_length_x := (bound_box_len.getD i (0, 0, 0)).1,
             bound_box_length_y := (bound_box_len.getD i (0, 0, 0)).2.1,
             bound_box_length_z := (bound_box_len.getD i (0, 0, 0)).2.2,
             z_offset := height,
             bound_box_offset := some ((bound_box_offset.getD i (0, 0)).1,
               (bound_box_offset.getD i (0, 0)).2, height + 2),
             rotation := rotation }

/-- The function `path_bit_jumping_fountains_paint`. -/
def path_bit_jumping_fountains_paint (env : PathEnv) (pathBitEntry : rct_scenery_entry)
    (height : Int) (pathBitImageFlags : Nat) : List DrawCommand :=
  if env.zoom_level ≠ 0 then []
  else
    let imageId := pathBitEntry.image ||| pathBitImageFlags
    let fountain (n : Nat) (x y : Int) : DrawCommand :=
      { sink := .sub_98197C, image_id := to_uint32 (imageId + n), x_offset := 0, y_offset := 0,
        bound_box_length_x := 1, bound_box_length_y := 1, bound_box_length_z := 2,
        z_offset := height, bound_box_offset := some (x, y, height + 2),
        rotation := env.rotation }
    [fountain 1 3 3, fountain 2 3 29, fountain 3 29 29, fountain 4 29 3]

/-- One railing draw of `sub_6A4101`:
`sub_98197C(n + base_image_id, x, y, lx, ly, lz, height, bx, by, height + 2, rotation)`. -/
def fence_draw (rotation base_image_id height n : Nat) (x y lx ly lz bx byy : Int) :
    DrawCommand :=
  { sink := .sub_98197C, image_id := to_uint32 (n + base_image_id), x_offset := x,
    y_offset := y, bound_box_length_x := lx, bound_box_length_y := ly,
    bound_box_length_z := lz, z_offset := height,
    bound_box_offset := some (bx, byy, (height : Int) + 2), rotation := rotation }

/-- The `switch` of `sub_6A4101` for a sloped queue path, on the rotated slope direction. -/
def sub_6A4101_queue_sloped (rotation base_image_id height direction : Nat) :
    List DrawCommand :=
  match direction with
  | 0 =>
    [fence_draw rotation base_image_id height 95 0 4 32 1 23 0 4] ++
    [fence_draw rotation base_image_id height 95 0 28 32 1 23 0 28]
  | 1 =>
    [fence_draw rotation base_image_id height 94 4 0 1 32 23 4 0] ++
    [fence_draw rotation base_image_id height 94 28 0 1 32 23 28 0]
  | 2 =>
    [fence_draw rotation base_image_id height 96 0 4 32 1 23 0 4] ++
    [fence_draw rotation base_image_id height 96 0 28 32 1 23 0 28]
  | 3 =>
    [fence_draw rotation base_image_id height 93 4 0 1 32 23 4 0] ++
    [fence_draw rotation base_image_id height 93 28 0 1 32 23 28 0]
  | _ => []

/-- The `switch (local_ebp)` of `sub_6A4101` for a flat queue path. -/
def sub_6A4101_queue_flat (rotation base_image_id height local_ebp : Nat) :
    List DrawCommand :=
  match local_ebp with
  | 1 =>
    [fence_draw rotation base_image_id height 90 0 4 28 1 7 0 4] ++
    [fence_draw rotation base_image_id height 90 0 28 28 1 7 0 28]
  | 2 =>
    [fence_draw rotation base_image_id height 91 4 0 1 28 7 4 0] ++
    [fence_draw rotation base_image_id height 91 28 0 1 28 7 28 0]
  | 3 =>
    [fence_draw rotation base_image_id height 90 0 4 28 1 7 0 4] ++
    [fence_draw rotation base_image_id height 91 28 0 1 28 7 28 4] ++
    [fence_draw rotation base_image_id height 98 0 0 4 4 7 0 28]
  | 4 =>
    [fence_draw rotation base_image_id height 92 0 4 28 1 7 0 4] ++
    [fence_draw rotation base_image_id height 92 0 28 28 1 7 0 28]
  | 5 =>
    [fence_draw rotation base_image_id height 88 0 4 32 1 7 0 4] ++
    [fence_draw rotation base_image_id height 88 0 28 32 1 7 0 28]
  | 6 =>
    [fence_draw rotation base_image_id height 91 4 0 1 28 7 4 0] ++
    [fence_draw rotation base_image_id height 92 0 4 28 1 7 0 4] ++
    [fence_draw rotation base_image_id height 99 0 0 4 4 7 28 28]
  | 8 =>
    [fence_draw rotation base_image_id height 89 4 0 1 28 7 4 0] ++
    [fence_draw rotation base_image_id height 89 28 0 1 28 7 28 0]
  | 9 =>
    [fence_draw rotation base_image_id height 89 28 0 1 28 7 28 0] ++
    [fence_draw rotation base_image_id height 90 0 28 28 1 7 0 28] ++
    [fence_draw rotation base_image_id height 97 0 0 4 4 7 0 0]
  | 10 =>
    [fence_draw rotation base_image_id height 87 4 0 1 32 7 4 0] ++
    [fence_draw rotation base_image_id height 87 28 0 1 32 7 28 0]
  | 12 =>
    [fence_draw rotation base_image_id height 89 4 0 1 28 7 4 0] ++
    [fence_draw rotation base_image_id height 92 0 28 28 1 7 4 28] ++
    [fence_draw rotation base_image_id height 100 0 0 4 4 7 28 0]
  | _ => []

/-- The `switch` of `sub_6A4101` for a sloped path that is not a queue, on the rotated slope
direction. -/
def sub_6A4101_path_sloped (rotation base_image_id height direction : Nat) :
    List DrawCommand :=
  match direction with
  | 0 =>
    [fence_draw rotation base_image_id height 81 0 4 32 1 23 0 4] ++
    [fence_draw rotation base_image_id height 81 0 28 32 1 23 0 28]
  | 1 =>
    [fence_draw rotation base_image_id height 80 4 0 1 32 23 4 0] ++
    [fence_draw rotation base_image_id height 80 28 0 1 32 23 28 0]
  | 2 =>
    [fence_draw rotation base_image_id height 82 0 4 32 1 23 0 4] ++
    [fence_draw rotation base_image_id height 82 0 28 32 1 23 0 28]
  | 3 =>
    [fence_draw rotation base_image_id height 79 4 0 1 32 23 4 0] ++
    [fence_draw rotation base_image_id height 79 28 0 1 32 23 28 0]
  | _ => []

/-- The `switch (local_ebp)` of `sub_6A4101` for a flat path that is not a queue; the corner
posts are left out where `dword_F3EF80` has the corner bit. -/
def sub_6A4101_path_flat (rotation base_image_id height local_ebp dword_F3EF80 : Nat) :
    List DrawCommand :=
  match local_ebp with
  | 0 => []
  | 1 =>
    [fence_draw rotation base_image_id height 76 0 4 28 1 7 0 4] ++
    [fence_draw rotation base_image_id height 76 0 28 28 1 7 0 28]
  | 2 =>
    [fence_draw rotation base_image_id height 77 4 0 1 28 7 4 0] ++
    [fence_draw rotation base_image_id height 77 28 0 1 28 7 28 0]
  | 4 =>
    [fence_draw rotation base_image_id height 78 0 4 28 1 7 0 4] ++
    [fence_draw rotation base_image_id height 78 0 28 28 1 7 0 28]
  | 5 =>
    [fence_draw rotation base_image_id height 74 0 4 32 1 7 0 4] ++
    [fence_draw rotation base_image_id height 74 0 28 32 1 7 0 28]
  | 8 =>
    [fence_draw rotation base_image_id height 75 4 0 1 28 7 4 0] ++
    [fence_draw rotation base_image_id height 75 28 0 1 28 7 28 0]
  | 10 =>
    [fence_draw rotation base_image_id height 73 4 0 1 32 7 4 0] ++
    [fence_draw rotation base_image_id height 73 28 0 1 32 7 28 0]
  | 3 =>
    [fence_draw rotation base_image_id height 76 0 4 28 1 7 0 4] ++
    [fence_draw rotation base_image_id height 77 28 0 1 28 7 28 4] ++
    (if dword_F3EF80 &&& 0x10 = 0 then [fence_draw rotation base_image_id height 84 0 0 4 4 7 0 28] else [])
  | 6 =>
    [fence_draw rotation base_image_id height 77 4 0 1 28 7 4 0] ++
    [fence_draw rotation base_image_id height 78 0 4 28 1 7 0 4] ++
    (if dword_F3EF80 &&& 0x20 = 0 then [fence_draw rotation base_image_id height 85 0 0 4 4 7 28 28] else [])
  | 9 =>
    [fence_draw rotation base_image_id height 75 28 0 1 28 7 28 0] ++
    [fence_draw rotation base_image_id height 76 0 28 28 1 7 0 28] ++
    (if dword_F3EF80 &&& 0x80 = 0 then [fence_draw rotation base_image_id height 83 0 0 4 4 7 0 0] else [])
  | 12 =>
    [fence_draw rotation base_image_id height 75 4 0 1 28 7 4 0] ++
    [fence_draw rotation base_image_id height 78 0 28 28 1 7 4 28] ++
    (if dword_F3EF80 &&& 0x40 = 0 then [fence_draw rotation base_image_id height 86 0 0 4 4 7 28 0] else [])
  | 7 =>
    [fence_draw rotation base_image_id height 74 0 4 32 1 7 0 4] ++
    (if dword_F3EF80 &&& 0x10 = 0 then [fence_draw rotation base_image_id height 84 0 0 4 4 7 0 28] else []) ++
    (if dword_F3EF80 &&& 0x20 = 0 then [fence_draw rotation base_image_id height 85 0 0 4 4 7 28 28] else [])
  | 13 =>
    [fence_draw rotation base_image_id height 74 0 28 32 1 7 0 28] ++
    (if dword_F3EF80 &&& 0x40 = 0 then [fence_draw rotation base_image_id height 86 0 0 4 4 7 28 0] else []) ++
    (if dword_F3EF80 &&& 0x80 = 0 then [fence_draw rotation base_image_id height 83 0 0 4 4 7 0 0] else [])
  | 14 =>
    [fence_draw rotation base_image_id height 73 4 0 1 32 7 4 0] ++
    (if dword_F3EF80 &&& 0x20 = 0 then [fence_draw rotation base_image_id height 85 0 0 4 4 7 28 28] else []) ++
    (if dword_F3EF80 &&& 0x40 = 0 then [fence_draw rotation base_image_id height 86 0 0 4 4 7 28 0] else [])
  | 11 =>
    [fence_draw rotation base_image_id height 73 28 0 1 32 7 28 0] ++
    (if dword_F3EF80 &&& 0x10 = 0 then [fence_draw rotation base_image_id height 84 0 0 4 4 7 0 28] else []) ++
    (if dword_F3EF80 &&& 0x80 = 0 then [fence_draw rotation base_image_id height 83 0 0 4 4 7 0 0] else [])
  | 15 =>
    (if dword_F3EF80 &&& 0x10 = 0 then [fence_draw rotation base_image_id height 84 0 0 4 4 7 0 28] else []) ++
    (if dword_F3EF80 &&& 0x20 = 0 then [fence_draw rotation base_image_id height 85 0 0 4 4 7 28 28] else []) ++
    (if dword_F3EF80 &&& 0x40 = 0 then [fence_draw rotation base_image_id height 86 0 0 4 4 7 28 0] else []) ++
    (if dword_F3EF80 &&& 0x80 = 0 then [fence_draw rotation base_image_id height 83 0 0 4 4 7 0 0] else [])
  | _ => []

/-- The ride sign part of `sub_6A4101`, for a queue path whose type byte has bit 3: the two
sign posts, and the scrolling text when the sign faces one of the two label-bearing
directions, the path has a ride and `imageFlags` is zero.  Returns the draw commands; the
string formatting globals the code writes on the way are not part of the model, and the
scroll position is taken with a zero width leaving it as it is. -/
def sub_6A4101_ride_sign (env : PathEnv) (map_element : rct_map_element) (height : Nat)
    (footpathEntry : rct_footpath_entry) (base_image_id imageFlags : Nat) :
    List DrawCommand :=
  let direction := (map_element.type &&& 0xC0) >>> 6
  let height :=
    if footpath_element_is_sloped map_element ∧
        footpath_element_get_slope_direction map_element = direction then
      (height + 16) % 65536
    else height
  let direction := (direction + env.rotation) % 256
  let direction := direction &&& 3
  let boundBoxOffsets_z := to_sint16 ((height : Int) + 2)
  let imageId := to_uint32 ((direction <<< 1) + base_image_id + 101)
  let post1 : DrawCommand :=
    { sink := .sub_98197C, image_id := imageId, x_offset := 0, y_offset := 0,
      bound_box_length_x := 1, bound_box_length_y := 1, bound_box_length_z := 21,
      z_offset := height,
      bound_box_offset := some (env.word_98D884 (direction * 4),
        env.word_98D884 (direction * 4 + 1), boundBoxOffsets_z),
      rotation := env.rotation }
  let boundBoxOffsets_x := env.word_98D884 (direction * 4 + 2)
  let boundBoxOffsets_y := env.word_98D884 (direction * 4 + 3)
  let imageId := to_uint32 (imageId + 1)
  let post2 : DrawCommand :=
    { sink := .sub_98197C, image_id := imageId, x_offset := 0, y_offset := 0,
      bound_box_length_x := 1, bound_box_length_y := 1, bound_box_length_z := 21,
      z_offset := height,
      bound_box_offset := some (boundBoxOffsets_x, boundBoxOffsets_y, boundBoxOffsets_z),
      rotation := env.rotation }
  let direction := (direction + 255) % 256
  if direction < 2 ∧ map_element.path_addition_status ≠ 255 ∧ imageFlags = 0 then
    let scrollingMode := (footpathEntry.scrolling_mode + direction) % 65536
    let ride_index := map_element.path_addition_status
    let string_id :=
      if env.ride_open ride_index then env.STR_RIDE_ENTRANCE_NAME
      else env.STR_RIDE_ENTRANCE_CLOSED
    let string_width := env.sign_string_width ride_index % 65536
    let scroll := ((env.gCurrentTicks / 2) % string_width) % 65536
    [post1, post2,
     { sink := .sub_98199C, image_id := env.scrolling_text_setup string_id scroll scrollingMode,
       x_offset := 0, y_offset := 0,
       bound_box_length_x := 1, bound_box_length_y := 1, bound_box_length_z := 21,
       z_offset := (height : Int) + 7,
       bound_box_offset := some (boundBoxOffsets_x, boundBoxOffsets_y, boundBoxOffsets_z),
       rotation := env.rotation }]
  else [post1, post2]

/-- The function `sub_6A4101`: the railings of a path and the ride sign of a queue.  The
ride index shares its byte of the element with `addition_status`. -/
def sub_6A4101 (env : PathEnv) (map_element : rct_map_element) (height ebp : Nat)
    (word_F3F038 : Bool) (footpathEntry : rct_footpath_entry)
    (base_image_id imageFlags : Nat) (g : PaintState) : PaintState × List DrawCommand :=
  let rotation := env.rotation
  if map_element.type &&& 1 ≠ 0 then
    let local_ebp := ebp &&& 0x0F
    let fences :=
      if footpath_element_is_sloped map_element then
        sub_6A4101_queue_sloped rotation base_image_id height
          ((map_element.path_type + rotation) &&& 0x03)
      else sub_6A4101_queue_flat rotation base_image_id height local_ebp
    if map_element.path_type &&& 0x08 = 0 then (g, fences)
    else
      let sign := sub_6A4101_ride_sign env map_element height footpathEntry base_image_id
        imageFlags
      ({ g with gPaintInteractionType :=
            if imageFlags ≠ 0 then InteractionItem.NONE else InteractionItem.FOOTPATH },
       fences ++ sign)
  else
    let dword_F3EF80 := ebp
    let dword_F3EF80 :=
      if footpathEntry.flags &&& 2 = 0 then dword_F3EF80 &&& 0x0F else dword_F3EF80
    if footpath_element_is_sloped map_element then
      (g, sub_6A4101_path_sloped rotation base_image_id height
        ((map_element.path_type + rotation) &&& 0x03))
    else if ¬ word_F3F038 then (g, [])
    else
      let local_ebp := ebp &&& 0x0F
      (g, sub_6A4101_path_flat rotation base_image_id height local_ebp dword_F3EF80)

/-- The additions part of `sub_6A3F61`: the draw commands of the path addition, by its draw
type. -/
def sub_6A3F61_additions (env : PathEnv) (map_element : rct_map_element) (height : Nat)
    (bp sceneryImageFlags : Nat) : List DrawCommand :=
  let sceneryEntry := env.get_footpath_item_entry map_element
  if sceneryEntry.path_bit_draw_type = PATH_BIT_DRAW_TYPE_LIGHTS then
    path_bit_lights_paint env sceneryEntry map_element height (bp % 256) sceneryImageFlags
  else if sceneryEntry.path_bit_draw_type = PATH_BIT_DRAW_TYPE_BINS then
    path_bit_bins_paint env sceneryEntry map_element height (bp % 256) sceneryImageFlags
  else if sceneryEntry.path_bit_draw_type = PATH_BIT_DRAW_TYPE_BENCHES then
    path_bit_benches_paint env sceneryEntry map_element height (bp % 256) sceneryImageFlags
  else if sceneryEntry.path_bit_draw_type = PATH_BIT_DRAW_TYPE_JUMPING_FOUNTAINS then
    path_bit_jumping_fountains_paint env sceneryEntry height sceneryImageFlags
  else []

/-- The tunnel part of `sub_6A3F61`: the pushes onto the right and the left tunnel queue. -/
def sub_6A3F61_tunnels (env : PathEnv) (map_element : rct_map_element) (bp height : Nat)
    (g : PaintState) : PaintState :=
  let direction := (map_element.path_type + env.rotation) &&& 0x03
  let diagonal := map_element.path_type &&& 0x04
  let bl := direction ||| diagonal
  let g :=
    if bp &&& 2 ≠ 0 then
      if bl = 5 then paint_util_push_tunnel_right ((height + 16) % 65536) TUNNEL_10 g
      else if bp &&& 1 ≠ 0 then paint_util_push_tunnel_right height TUNNEL_11 g
      else paint_util_push_tunnel_right height TUNNEL_10 g
    else g
  if bp &&& 4 = 0 then g
  else if bl = 6 then paint_util_push_tunnel_left ((height + 16) % 65536) TUNNEL_10 g
  else if bp &&& 8 ≠ 0 then paint_util_push_tunnel_left height TUNNEL_11 g
  else paint_util_push_tunnel_left height TUNNEL_10 g

/-- The function `sub_6A3F61`, with `height` the `uint16` it receives. -/
def sub_6A3F61 (env : PathEnv) (map_element : rct_map_element) (bp height : Nat)
    (footpathEntry : rct_footpath_entry) (imageFlags sceneryImageFlags : Nat)
    (word_F3F038 : Bool) (g : PaintState) : PaintState × List DrawCommand :=
  let near :=
    if env.zoom_level ≤ 1 then
      let added :=
        if env.byte_9DEA6F &&& 1 = 0 ∧ map_element.path_additions &&& 0xF ≠ 0 then
          ({ g with gPaintInteractionType :=
               if sceneryImageFlags ≠ 0 then InteractionItem.NONE
               else InteractionItem.FOOTPATH },
           sub_6A3F61_additions env map_element height bp sceneryImageFlags)
        else (g, [])
      let g := { added.1 with dword_F3EF78 := footpathEntry.image ||| imageFlags }
      let fenced := sub_6A4101 env map_element height bp word_F3F038 footpathEntry
        (footpathEntry.image ||| imageFlags) imageFlags g
      (fenced.1, added.2 ++ fenced.2)
    else (g, [])
  (sub_6A3F61_tunnels env map_element bp height near.1, near.2)

/-- The sprite `loc_6A37C9` selects for the path surface: by rotated slope direction for a
sloped path, by the table `byte_98D6E0` at the rotated perimeter for a flat one, offset by
the style's base image, and by 51 for a queue. -/
def loc_6A37C9_imageId (rotation : Nat) (mapElement : rct_map_element)
    (footpathEntry : rct_footpath_entry) : Nat :=
  let worldspace_path_rotation := (mapElement.path_type + rotation) &&& 3
  let perimeter := path_rotate_perimeter mapElement.path_edges rotation
  let imageId :=
    if footpath_element_is_sloped mapElement then worldspace_path_rotation + 16
    else byte_98D6E0.getD perimeter 0
  let imageId := to_uint32 (imageId + footpathEntry.image)
  if mapElement.type &&& 1 ≠ 0 then to_uint32 (imageId + 51) else imageId

/-- The surface draws of `loc_6A37C9`: the path sprite, or for a path with railings above
the surface the bridge sprite, followed by the path sprite as an overlay for a queue or a
style with flag 2. -/
def loc_6A37C9_surface (env : PathEnv) (mapElement : rct_map_element) (height : Int)
    (footpathEntry : rct_footpath_entry) (hasFences : Bool) (imageFlags : Nat)
    (g : PaintState) : List DrawCommand :=
  let rotation := env.rotation
  let worldspace_path_rotation := (mapElement.path_type + rotation) &&& 3
  let perimeter := path_rotate_perimeter mapElement.path_edges rotation
  let edges := perimeter &&& 0xF
  let imageId := loc_6A37C9_imageId rotation mapElement footpathEntry
  let above : Bool := g.word_9DE57C % 256 ≠ 0
  let row := stru_98D804.getD edges []
  let boundBoxOffset : Int × Int := if above then (row.getD 0 0, row.getD 1 0) else (3, 3)
  let boundBoxSize : Int × Int := if above then (row.getD 2 0, row.getD 3 0) else (26, 26)
  let draw (sink : DrawSink) (image : Nat) : DrawCommand :=
    { sink := sink, image_id := image, x_offset := 0, y_offset := 0,
      bound_box_length_x := boundBoxSize.1, bound_box_length_y := boundBoxSize.2,
      bound_box_length_z := 0, z_offset := height,
      bound_box_offset := some (boundBoxOffset.1, boundBoxOffset.2, height + 1),
      rotation := rotation }
  if ¬ hasFences ∨ ¬ above then [draw .sub_98197C (imageId ||| imageFlags)]
  else
    let bridgeImage :=
      if footpath_element_is_sloped mapElement then
        let bridgeImage := to_uint32 (worldspace_path_rotation + footpathEntry.bridge_image + 16)
        if footpathEntry.var_0A = 0 then to_uint32 (bridgeImage + 35) else bridgeImage
      else
        if footpathEntry.var_0A ≠ 0 then to_uint32 (footpathEntry.bridge_image + edges)
        else to_uint32 (footpathEntry.bridge_image + (byte_98D8A4.getD edges 0 + 49))
    if footpath_element_is_queue mapElement ∨ footpathEntry.flags &&& 2 ≠ 0 then
      [draw .sub_98197C (bridgeImage ||| imageFlags), draw .sub_98199C (imageId ||| imageFlags)]
    else [draw .sub_98197C (bridgeImage ||| imageFlags)]

/-- The candidate `support_height` that `loc_6A37C9` passes to
`paint_util_set_general_support_height`, a `sint16`. -/
def loc_6A37C9_support_height (mapElement : rct_map_element) (height : Int) : Int :=
  let support_height := to_sint16 (height + 32)
  if footpath_element_is_sloped mapElement then to_sint16 (support_height + 16)
  else support_height

/-- The support posts of `loc_6A37C9`: one call of `path_a_supports_paint_setup` followed by
a first raise of the general support height for a style with `var_0A` zero, otherwise one
call of `path_b_supports_paint_setup` for each open edge, from edge 3 down to edge 0. -/
def loc_6A37C9_supports (env : PathEnv) (mapElement : rct_map_element) (height : Int)
    (footpathEntry : rct_footpath_entry) (imageFlags : Nat) (g : PaintState) :
    PaintState × List DrawCommand :=
  let worldspace_path_rotation := (mapElement.path_type + env.rotation) &&& 3
  let edges := path_rotate_perimeter mapElement.path_edges env.rotation &&& 0xF
  let path_special_flag :=
    if footpath_element_is_sloped mapElement then
      (if footpathEntry.var_0A = 0 then worldspace_path_rotation + 1 else 8)
    else 0
  let support_height := loc_6A37C9_support_height mapElement height
  if footpathEntry.var_0A = 0 then
    let posts := env.path_a_supports_paint_setup (byte_98D8A4.getD edges 0) path_special_flag
      height imageFlags footpathEntry g
    (paint_util_set_general_support_height support_height 0x20 posts.1, posts.2)
  else
    let supports : List Nat := [6, 8, 7, 5]
    [3, 2, 1, 0].foldl
      (fun (acc : PaintState × List DrawCommand) i =>
        if edges &&& (1 <<< i) = 0 then
          let posts := env.path_b_supports_paint_setup (supports.getD i 0) path_special_flag
            height imageFlags acc.1
          (posts.1, acc.2 ++ posts.2)
        else acc)
      (g, [])

/-- The part of `loc_6A37C9` up to its last call of `paint_util_set_general_support_height`:
surface draws, `sub_6A3F61`, the store of the style pointer and the support posts. -/
def loc_6A37C9_posts (env : PathEnv) (mapElement : rct_map_element) (height : Int)
    (footpathEntry : rct_footpath_entry) (hasFences : Bool)
    (imageFlags sceneryImageFlags : Nat) (g : PaintState) : PaintState × List DrawCommand :=
  let perimeter := path_rotate_perimeter mapElement.path_edges env.rotation
  let surface := loc_6A37C9_surface env mapElement height footpathEntry hasFences imageFlags g
  let added := sub_6A3F61 env mapElement perimeter (to_uint16 height).toNat footpathEntry
    imageFlags sceneryImageFlags hasFences g
  let g := added.1
  let g := if footpathEntry.var_0A ≠ 0 then { g with ptr_F3EF6C := some footpathEntry } else g
  let posts := loc_6A37C9_supports env mapElement height footpathEntry imageFlags g
  (posts.1, surface ++ added.2 ++ posts.2)

/-- The part of `loc_6A37C9` before the segment invalidation: `loc_6A37C9_posts`, then the
last call `paint_util_set_general_support_height(support_height, 0x20)`. -/
def loc_6A37C9_supported (env : PathEnv) (mapElement : rct_map_element) (height : Int)
    (footpathEntry : rct_footpath_entry) (hasFences : Bool)
    (imageFlags sceneryImageFlags : Nat) (g : PaintState) : PaintState × List DrawCommand :=
  let posts := loc_6A37C9_posts env mapElement height footpathEntry hasFences imageFlags
    sceneryImageFlags g
  let support_height := loc_6A37C9_support_height mapElement height
  (paint_util_set_general_support_height support_height 0x20 posts.1, posts.2)

/-- The segment invalidation at the end of `loc_6A37C9`. -/
def loc_6A37C9_segments (env : PathEnv) (mapElement : rct_map_element) (hasFences : Bool)
    (g : PaintState) : PaintState :=
  let perimeter := path_rotate_perimeter mapElement.path_edges env.rotation
  let edges := perimeter &&& 0xF
  if footpath_element_is_queue mapElement ∨ (hasFences ∧ perimeter ≠ 0xFF) then
    paint_util_set_all_segments_support_invalid_height g
  else if perimeter = 0xFF then
    paint_util_set_segment_support_invalid_height
      (SEGMENT_C8 ||| SEGMENT_CC ||| SEGMENT_D0 ||| SEGMENT_D4) g
  else
    let segments := (((edges &&& 0x1) <<< 1) ||| ((edges &&& 0x2) <<< 2) |||
      ((edges &&& 0x4) <<< 3) ||| ((edges &&& 0x8) <<< 4)) % 256
    paint_util_set_segment_support_invalid_height (segments ||| SEGMENT_C4) g

/-- The function `loc_6A37C9`. -/
def loc_6A37C9 (env : PathEnv) (mapElement : rct_map_element) (height : Int)
    (footpathEntry : rct_footpath_entry) (hasFences : Bool)
    (imageFlags sceneryImageFlags : Nat) (g : PaintState) : PaintState × List DrawCommand :=
  let supported := loc_6A37C9_supported env mapElement height footpathEntry hasFences
    imageFlags sceneryImageFlags g
  (loc_6A37C9_segments env mapElement hasFences supported.1, supported.2)

/-! ## Reference definitions for the path painter and tunnel statements -/

/-- The cardinal edges 0..3 whose bit is clear in `edges`, in increasing order: the edges a
path addition is drawn on. -/
def clear_edges (edges : Nat) : List Nat :=
  (List.range 4).filter (fun i => edges &&& (1 <<< i) = 0)

/-- The number of set bits among bits 0..3 of `n`. -/
def popcount4 (n : Nat) : Nat :=
  ((List.range 4).filter (fun i => n &&& (1 <<< i) ≠ 0)).length

/-- The segment mask bits that correspond to a perimeter byte: edge bit `i` is segment bit
`2 * i + 1` (`SEGMENT_CC`, `SEGMENT_D4`, `SEGMENT_D0`, `SEGMENT_C8`), corner bit `i`, the
corner between edges `i` and `i + 1`, is segment bit `(2 * i + 2) mod 8`. -/
def perimeter_to_segments (p : Nat) : Nat :=
  (List.range 4).foldl
    (fun acc i =>
      acc ||| (if p &&& (1 <<< i) ≠ 0 then 1 <<< (2 * i + 1) else 0) |||
        (if p &&& (1 <<< (4 + i)) ≠ 0 then 1 <<< ((2 * i + 2) % 8) else 0))
    0

/-- The slot of the segment table that the marker at row `y`, column `x` of `sub_68B3FB`
shows: the offsets of `segmentOffsets` less `0xB4`, in words. -/
def marker_slot (y x : Nat) : Nat :=
  ([[0, 6, 2], [5, 4, 8], [1, 7, 3]].getD y []).getD x 0

/-- A run of pushes onto the left tunnel queue, in order, each marker a pair
`(height, type)`. -/
def push_tunnels_left (markers : List (Nat × Nat)) (g : PaintState) : PaintState :=
  markers.foldl (fun g m => paint_util_push_tunnel_left m.1 m.2 g) g

/-- A run of pushes onto the right tunnel queue, in order. -/
def push_tunnels_right (markers : List (Nat × Nat)) (g : PaintState) : PaintState :=
  markers.foldl (fun g m => paint_util_push_tunnel_right m.1 m.2 g) g

/-- The bytes a tunnel queue should hold for `markers` according to the spec: the byte pair
`((height / 16) & 0xFF, type)` of each marker in push order, then the terminator `0xFFFF`. -/
def tunnel_queue_bytes (markers : List (Nat × Nat)) : List Nat :=
  markers.flatMap (fun m => [(m.1 / 16) &&& 0xFF, m.2]) ++ [0xFF, 0xFF]

/-- The four bytes a push stores for the marker `m = (height, type)`: the byte pair
`((height / 16) & 0xFF, type)` followed by the terminator `0xFFFF`. -/
def tunnel_entry_bytes (m : Nat × Nat) : List Nat :=
  [(m.1 / 16) % 256, m.2, 0xFF, 0xFF]

/-- The pairing of type tags and painters as the spec's dispatch contract names them:
surface, path, track, scenery, entrance, fence, multi-tile scenery, banner. -/
def painter_table : List (Nat × PainterKind) :=
  [(MAP_ELEMENT_TYPE_SURFACE, .surface_paint),
   (MAP_ELEMENT_TYPE_PATH, .path_paint),
   (MAP_ELEMENT_TYPE_TRACK, .track_paint),
   (MAP_ELEMENT_TYPE_SCENERY, .scenery_paint),
   (MAP_ELEMENT_TYPE_ENTRANCE, .entrance_paint),
   (MAP_ELEMENT_TYPE_FENCE, .fence_paint),
   (MAP_ELEMENT_TYPE_SCENERY_MULTIPLE, .scenery_multiple_paint),
   (MAP_ELEMENT_TYPE_BANNER, .banner_paint)]

/-- The nine defined type tags: the eight drawable ones and Corrupt. -/
def defined_type_tags : List Nat :=
  painter_table.map Prod.fst ++ [MAP_ELEMENT_TYPE_CORRUPT]

/-- The painter the dispatch `switch` selects for a tag (`surface_paint` where it selects
none; only used on drawable tags). -/
def painter_of_tag (tag : Nat) : PainterKind :=
  match sub_68B3FB_switch tag with
  | .painter k => k
  | _ => .surface_paint

/-- The painter invocations the dispatch contract asks for on the elements `es`, the first
of which has index `start`: one per element, in order, with the rotated direction and the
absolute height. -/
def expected_calls (rotation : Nat) : Nat → List rct_map_element →
    List (PainterKind × Nat × Nat × Nat)
  | _, [] => []
  | start, e :: es =>
    (painter_of_tag (map_element_get_type e), (e.type + rotation) &&& 3, e.base_height * 8,
      start) :: expected_calls rotation (start + 1) es

/-- A paint state with every global zero, for concrete runs. -/
def zero_state : PaintState :=
  { segments := fun _ => 0, max_height := 0, slope := 0, byte_141E9DB := 0,
    dword_141E9DC := 0, tunnel_left_count := 0, tunnel_right_count := 0,
    bytes_9E30B6 := fun _ => 0,
    word_9DE568 := 0, word_9DE56A := 0, word_9DE56C := 0, word_9DE56E := 0,
    word_9DE574 := 0, word_9DE576 := 0, ptr_9DE578 := 0, word_9DE57C := 0,
    gPaintInteractionType := InteractionItem.NONE }

/-- Painters that leave the paint globals alone and emit one draw command each, whose image
id is the height they were given; for concrete runs. -/
def sample_painters : Painters := fun _ direction height _ g =>
  (g, [{ sink := .sub_98196C, image_id := height, x_offset := 0, y_offset := 0,
         bound_box_length_x := 32, bound_box_length_y := 32, bound_box_length_z := 0,
         z_offset := height, rotation := direction }])

/-- A viewport and map for concrete runs: rotation 0, a viewport tall enough to show the
tile at (64, 64), support-height markers enabled, every tile holding `stack`. -/
def sample_env (stack : List rct_map_element) : PaintEnv :=
  { rotation := 0, dpi_y := 0, dpi_height := 4096, arrow_enabled := false,
    gMapSelectArrowPosition_x := 0, gMapSelectArrowPosition_y := 0,
    gMapSelectArrowPosition_z := 0, gMapSelectArrowDirection := 0,
    gShowSupportSegmentHeights := true, gMapSizeUnits := 8192,
    map_get_first_element_at := fun _ _ => stack }

/-- A viewport that lies wholly below the projection of the tile at (64, 64), so that the
tile fails the first viewport test; for concrete runs. -/
def sample_env_offscreen (stack : List rct_map_element) : PaintEnv :=
  { sample_env stack with dpi_y := 1000 }

/-- The loop state with which the concrete run on `stack` enters the dispatch loop. -/
def sample_entry (stack : List rct_map_element) : LoopState :=
  match sub_68B3FB_entry (sample_env stack) 64 64 zero_state with
  | .loop s => s
  | .returned r => ⟨0, r.g, r.trace⟩

/-- A stack element with type byte `t`, base height `h`, and the last-for-tile flag when
`last` is set; for concrete runs. -/
def sample_element (t h : Nat) (last : Bool) : rct_map_element :=
  { type := t, flags := if last then MAP_ELEMENT_FLAG_LAST_TILE else 0, base_height := h,
    clearance_height := h + 4 }

/-- A path painter environment for concrete runs: rotation 0, closest zoom, collaborators
that draw nothing and leave the paint globals alone. -/
def sample_path_env : PathEnv :=
  { rotation := 0, zoom_level := 0, byte_9DEA6F := 0,
    get_footpath_item_entry := fun _ => {},
    path_a_supports_paint_setup := fun _ _ _ _ _ g => (g, []),
    path_b_supports_paint_setup := fun _ _ _ _ g => (g, []),
    word_98D884 := fun _ => 0, ride_open := fun _ => true,
    sign_string_width := fun _ => 100, gCurrentTicks := 0,
    scrolling_text_setup := fun _ _ _ => 0,
    STR_RIDE_ENTRANCE_CLOSED := 0, STR_RIDE_ENTRANCE_NAME := 1 }

/-- A flat path element that is not a queue, with the given edges byte; for concrete
runs. -/
def sample_path (edges : Nat) : rct_map_element :=
  { type := MAP_ELEMENT_TYPE_PATH, base_height := 2, clearance_height := 6,
    path_edges := edges }

/-- A path element sloped towards direction 2 that is not a queue, with the given edges
byte; for concrete runs. -/
def sample_sloped_path (edges : Nat) : rct_map_element :=
  { type := MAP_ELEMENT_TYPE_PATH, base_height := 2, clearance_height := 6,
    path_type := 6, path_edges := edges }

/-- The paint globals as the head of `sub_68B3FB` leaves them on the zero state: both
tunnel counters zero, the first byte of each queue `0xFF`. -/
def tile_reset_state : PaintState :=
  (sub_68B3FB_begin (sample_env []) 64 64 zero_state).1

/-- A tile whose only element is a Surface with water: clearance height 20, water height
field 1; for concrete runs. -/
def sample_water_surface : rct_map_element :=
  { type := MAP_ELEMENT_TYPE_SURFACE, flags := MAP_ELEMENT_FLAG_LAST_TILE, base_height := 2,
    clearance_height := 20, surface_terrain := 1 }

/-- A viewport one pixel row high at the top of the screen; for concrete runs. -/
def sample_env_low (stack : List rct_map_element) : PaintEnv :=
  { sample_env stack with dpi_height := 0 }

/-! ## Bit-level lemmas -/

theorem rol8_lt (x shift : Nat) : rol8 x shift < 256 := by
  unfold rol8
  omega

theorem and_low_byte (m : Nat) : m &&& 0xFF = m % 256 := by
  have h := Nat.and_pow_two_sub_one_eq_mod m 8
  simpa using h

theorem and_high_byte (m : Nat) : m &&& 0xFF00 = (m / 256 % 256) * 256 := by
  apply Nat.eq_of_testBit_eq
  intro i
  have h1 : (0xFF00 : Nat) = (2 ^ 8 - 1) <<< 8 := by decide
  have h2 : m / 256 % 256 * 256 = ((m >>> 8) % 2 ^ 8) <<< 8 := by
    simp [Nat.shiftLeft_eq, Nat.shiftRight_eq_div_pow]
  rw [h2, Nat.testBit_and, h1]
  simp only [Nat.testBit_shiftLeft, Nat.testBit_two_pow_sub_one, Nat.testBit_mod_two_pow,
    Nat.testBit_shiftRight]
  by_cases h : 8 ≤ i
  · by_cases h8 : i - 8 < 8
    · simp [h, h8]
    · simp [h, h8]
  · simp [h]

theorem high_or_low (h t : Nat) (ht : t < 256) : (h * 256) ||| t = h * 256 + t := by
  have e := Nat.mul_add_lt_is_or (show t < 2 ^ 8 by simpa using ht) h
  rw [Nat.mul_comm h 256]
  exact e.symm

/-- The rotation of a segment mask in arithmetic form: the second byte is kept, the low byte
is rotated. -/
theorem paint_util_rotate_segments_eq (m r : Nat) :
    paint_util_rotate_segments m r = (m / 256 % 256) * 256 + rol8 (m % 256) (r * 2) := by
  unfold paint_util_rotate_segments
  simp only [and_low_byte, and_high_byte]
  exact high_or_low _ _ (rol8_lt _ _)

set_option maxRecDepth 100000 in
theorem rol8_zero_byte : ∀ b < 256, rol8 b (0 * 2) = b := by
  decide

set_option maxRecDepth 100000 in
theorem rol8_two_four_times :
    ∀ b < 256, rol8 (rol8 (rol8 (rol8 b (1 * 2)) (1 * 2)) (1 * 2)) (1 * 2) = b := by
  decide

theorem rotate_segments_once (h t : Nat) (ht : t < 256) :
    paint_util_rotate_segments (h * 256 + t) 1 = (h % 256) * 256 + rol8 t (1 * 2) := by
  rw [paint_util_rotate_segments_eq]
  have e1 : (h * 256 + t) / 256 = h := by omega
  have e2 : (h * 256 + t) % 256 = t := by omega
  rw [e1, e2]

set_option maxRecDepth 100000 in
theorem perimeter_round_trip_table :
    ∀ p < 256, ∀ r < 4,
      path_rotate_perimeter (path_rotate_perimeter p r) ((4 - r) % 4) = p := by
  decide

/-! ## Segment table lemmas -/

theorem foldl_store_apply (segments word : Nat) (l : List (Fin 9)) (table : Fin 9 → Nat)
    (s : Fin 9) :
    l.foldl
        (fun t s => if segments &&& segment_offsets s ≠ 0 then Function.update t s word else t)
        table s
      = if s ∈ l ∧ segments &&& segment_offsets s ≠ 0 then word else table s := by
  induction l generalizing table with
  | nil => simp
  | cons a l ih =>
    rw [List.foldl_cons, ih]
    by_cases hn : segments &&& segment_offsets a ≠ 0
    · by_cases hsa : s = a
      · subst hsa
        by_cases hm : s ∈ l <;> simp [hn, hm]
      · by_cases hm : s ∈ l <;> simp [hn, hm, hsa, Function.update_noteq hsa]
    · by_cases hsa : s = a
      · subst hsa
        by_cases hm : s ∈ l <;> simp [hn, hm]
      · by_cases hm : s ∈ l <;> simp [hn, hm, hsa]

/-- Slot `s` of the table after the store loop: the new word when the mask names the
segment, the old word otherwise. -/
theorem store_named_segments_apply (segments word : Nat) (table : Fin 9 → Nat) (s : Fin 9) :
    store_named_segments segments word table s
      = if segments &&& segment_offsets s ≠ 0 then word else table s := by
  unfold store_named_segments
  rw [foldl_store_apply]
  simp [List.mem_finRange]

theorem segments_all_names_every_segment :
    ∀ s : Fin 9, SEGMENTS_ALL &&& segment_offsets s ≠ 0 := by
  decide

theorem segment_word_height (height slope : Nat) (hh : height < 65536) :
    segment_height (height ||| (slope <<< 16)) = height := by
  unfold segment_height
  have e := Nat.mul_add_lt_is_or (show height < 2 ^ 16 by simpa using hh) slope
  rw [Nat.lor_comm, Nat.shiftLeft_eq, Nat.mul_comm slope, ← e]
  omega

theorem segment_word_slope (height slope : Nat) (hh : height < 65536) (hs : slope < 256) :
    segment_slope (height ||| (slope <<< 16)) = slope := by
  unfold segment_slope
  have e := Nat.mul_add_lt_is_or (show height < 2 ^ 16 by simpa using hh) slope
  rw [Nat.lor_comm, Nat.shiftLeft_eq, Nat.mul_comm slope, ← e, Nat.shiftRight_eq_div_pow]
  omega

/-! ## Lemmas on the dispatch loop -/

theorem painter_calls_append (a b : List Event) :
    painter_calls (a ++ b) = painter_calls a ++ painter_calls b := by
  unfold painter_calls
  rw [List.filterMap_append]

theorem painter_calls_draws (ds : List DrawCommand) :
    painter_calls (ds.map Event.draw) = [] := by
  induction ds with
  | nil => rfl
  | cons d ds ih =>
    unfold painter_calls at ih ⊢
    simp only [List.map_cons, List.filterMap_cons]
    exact ih

theorem painter_calls_call (tr : List Event) (k : PainterKind) (d h i : Nat)
    (ds : List DrawCommand) :
    painter_calls (tr ++ Event.painter k d h i :: ds.map Event.draw)
      = painter_calls tr ++ [(k, d, h, i)] := by
  rw [painter_calls_append]
  congr 1
  have e := painter_calls_draws ds
  unfold painter_calls at e ⊢
  simp only [List.filterMap_cons]
  rw [e]

theorem index_lt_of_get {stack : List rct_map_element} {i : Nat} {e : rct_map_element}
    (h : stack[i]? = some e) : i < stack.length := by
  by_contra hn
  rw [List.getElem?_eq_none (by omega)] at h
  exact Option.noConfusion h

theorem paint_element_index (P : Painters) (rotation : Nat) (s : LoopState)
    (e : rct_map_element) (k : PainterKind) :
    (paint_element P rotation s e k).i = s.i + 1 := rfl

theorem paint_element_calls (P : Painters) (rotation : Nat) (s : LoopState)
    (e : rct_map_element) (k : PainterKind) :
    painter_calls (paint_element P rotation s e k).trace
      = painter_calls s.trace ++
          [(k, (e.type + rotation) &&& 3, e.base_height * 8, s.i)] := by
  unfold paint_element
  exact painter_calls_call _ _ _ _ _ _

theorem skip_element_index (s : LoopState) : (skip_element s).i = s.i + 2 := rfl

theorem skip_element_trace (s : LoopState) : (skip_element s).trace = s.trace := rfl

theorem skip_element_state (s : LoopState) :
    (skip_element s).g = { s.g with ptr_9DE578 := s.i } := rfl

/-- A painter iteration: the element's painter is called, then the loop test reads the
element's last-for-tile flag. -/
theorem dispatch_step_painter (P : Painters) (rotation : Nat) (stack : List rct_map_element)
    (s : LoopState) (e : rct_map_element) (k : PainterKind)
    (he : stack[s.i]? = some e)
    (hk : sub_68B3FB_switch (map_element_get_type e) = .painter k) :
    dispatch_step P rotation stack s =
      (if map_element_is_last_for_tile e then
        StepResult.finished (paint_element P rotation s e k)
      else StepResult.next (paint_element P rotation s e k)) := by
  unfold dispatch_step
  simp only [he, hk]

/-- A Corrupt element carrying the last-for-tile flag: `return`. -/
theorem dispatch_step_corrupt_last (P : Painters) (rotation : Nat)
    (stack : List rct_map_element) (s : LoopState) (e : rct_map_element)
    (he : stack[s.i]? = some e)
    (hk : sub_68B3FB_switch (map_element_get_type e) = .corrupt)
    (hl : map_element_is_last_for_tile e = true) :
    dispatch_step P rotation stack s =
      .returned ⟨{ s.g with ptr_9DE578 := s.i }, s.trace, .corrupt_terminator⟩ := by
  unfold dispatch_step
  simp only [he, hk, hl, if_true]

/-- A Corrupt element without the last-for-tile flag: the next element is stepped over, and
only its last-for-tile flag is read. -/
theorem dispatch_step_corrupt_skip (P : Painters) (rotation : Nat)
    (stack : List rct_map_element) (s : LoopState) (e e1 : rct_map_element)
    (he : stack[s.i]? = some e)
    (hk : sub_68B3FB_switch (map_element_get_type e) = .corrupt)
    (hl : map_element_is_last_for_tile e = false)
    (he1 : stack[s.i + 1]? = some e1) :
    dispatch_step P rotation stack s =
      (if map_element_is_last_for_tile e1 then StepResult.finished (skip_element s)
      else StepResult.next (skip_element s)) := by
  unfold dispatch_step
  simp only [he, hk, hl, he1]
  rfl

/-- An element of undefined type: `return`. -/
theorem dispatch_step_undefined (P : Painters) (rotation : Nat)
    (stack : List rct_map_element) (s : LoopState) (e : rct_map_element)
    (he : stack[s.i]? = some e)
    (hk : sub_68B3FB_switch (map_element_get_type e) = .undefined) :
    dispatch_step P rotation stack s =
      .returned ⟨{ s.g with ptr_9DE578 := s.i }, s.trace, .undefined_element⟩ := by
  unfold dispatch_step
  simp only [he, hk]

/-- Every iteration of the dispatch loop advances `map_element` within the stack and adds
at most one painter invocation, for the element it started at; a `return` adds nothing. -/
theorem dispatch_step_shape (P : Painters) (rotation : Nat) (stack : List rct_map_element)
    (s : LoopState) :
    (∀ s1, dispatch_step P rotation stack s = .next s1 ∨
          dispatch_step P rotation stack s = .finished s1 →
        s.i < s1.i ∧ s1.i ≤ stack.length ∧
        (painter_calls s1.trace = painter_calls s.trace ∨
          ∃ k d h, painter_calls s1.trace = painter_calls s.trace ++ [(k, d, h, s.i)])) ∧
    (∀ r, dispatch_step P rotation stack s = .returned r → r.trace = s.trace) := by
  cases he : stack[s.i]? with
  | none =>
    have hs : dispatch_step P rotation stack s = .returned ⟨s.g, s.trace, .fault⟩ := by
      unfold dispatch_step
      simp only [he]
    rw [hs]
    refine ⟨?_, ?_⟩
    · intro s1 h
      rcases h with h | h <;> exact StepResult.noConfusion h
    · intro r h
      injection h with h
      rw [← h]
  | some e =>
    have hlt := index_lt_of_get he
    cases hk : sub_68B3FB_switch (map_element_get_type e) with
    | painter k =>
      rw [dispatch_step_painter P rotation stack s e k he hk]
      refine ⟨?_, ?_⟩
      · intro s1 h
        have hs1 : s1 = paint_element P rotation s e k := by
          by_cases hl : map_element_is_last_for_tile e = true
          · simp only [hl, if_true] at h
            rcases h with h | h
            · exact StepResult.noConfusion h
            · injection h with h
              exact h.symm
          · simp only [hl] at h
            rcases h with h | h
            · injection h with h
              exact h.symm
            · exact StepResult.noConfusion h
        subst hs1
        exact ⟨Nat.lt_succ_self _, hlt,
          Or.inr ⟨k, (e.type + rotation) &&& 3, e.base_height * 8,
            paint_element_calls P rotation s e k⟩⟩
      · intro r h
        by_cases hl : map_element_is_last_for_tile e = true
        · simp only [hl, if_true] at h
          exact StepResult.noConfusion h
        · simp only [hl] at h
          exact StepResult.noConfusion h
    | corrupt =>
      by_cases hl : map_element_is_last_for_tile e = true
      · rw [dispatch_step_corrupt_last P rotation stack s e he hk hl]
        refine ⟨?_, ?_⟩
        · intro s1 h
          rcases h with h | h <;> exact StepResult.noConfusion h
        · intro r h
          injection h with h
          rw [← h]
      · have hl0 : map_element_is_last_for_tile e = false := by simpa using hl
        cases he1 : stack[s.i + 1]? with
        | none =>
          have hs : dispatch_step P rotation stack s
              = .returned ⟨{ s.g with ptr_9DE578 := s.i }, s.trace, .fault⟩ := by
            unfold dispatch_step
            simp only [he, hk, hl0, he1]
            rfl
          rw [hs]
          refine ⟨?_, ?_⟩
          · intro s1 h
            rcases h with h | h <;> exact StepResult.noConfusion h
          · intro r h
            injection h with h
            rw [← h]
        | some e1 =>
          have hlt1 := index_lt_of_get he1
          rw [dispatch_step_corrupt_skip P rotation stack s e e1 he hk hl0 he1]
          refine ⟨?_, ?_⟩
          · intro s1 h
            have hs1 : s1 = skip_element s := by
              by_cases hl1 : map_element_is_last_for_tile e1 = true
              · simp only [hl1, if_true] at h
                rcases h with h | h
                · exact StepResult.noConfusion h
                · injection h with h
                  exact h.symm
              · simp only [hl1] at h
                rcases h with h | h
                · injection h with h
                  exact h.symm
                · exact StepResult.noConfusion h
            subst hs1
            exact ⟨by simp [skip_element_index], hlt1, Or.inl rfl⟩
          · intro r h
            by_cases hl1 : map_element_is_last_for_tile e1 = true
            · simp only [hl1, if_true] at h
              exact StepResult.noConfusion h
            · simp only [hl1] at h
              exact StepResult.noConfusion h
    | undefined =>
      rw [dispatch_step_undefined P rotation stack s e he hk]
      refine ⟨?_, ?_⟩
      · intro s1 h
        rcases h with h | h <;> exact StepResult.noConfusion h
      · intro r h
        injection h with h
        rw [← h]

theorem dispatch_loop_succ (P : Painters) (rotation : Nat) (stack : List rct_map_element)
    (fuel : Nat) (s : LoopState) :
    dispatch_loop P rotation stack (fuel + 1) s =
      match dispatch_step P rotation stack s with
      | .next s1 => dispatch_loop P rotation stack fuel s1
      | .finished s1 => .finished s1
      | .returned r => .returned r := rfl

/-- Running the loop from the start equals running it from any state it reaches. -/
theorem dispatch_after_loop (P : Painters) (rotation : Nat) (stack : List rct_map_element)
    (n k : Nat) (s s1 : LoopState)
    (h : dispatch_after P rotation stack n s = some s1) :
    dispatch_loop P rotation stack (n + k) s = dispatch_loop P rotation stack k s1 := by
  induction n generalizing s with
  | zero =>
    simp only [dispatch_after, Option.some.injEq] at h
    subst h
    simp
  | succ n ih =>
    have e : n + 1 + k = (n + k) + 1 := by omega
    rw [e, dispatch_loop_succ]
    unfold dispatch_after at h
    cases hs : dispatch_step P rotation stack s with
    | next s2 =>
      rw [hs] at h
      exact ih s2 h
    | finished s2 =>
      rw [hs] at h
      exact Option.noConfusion h
    | returned r =>
      rw [hs] at h
      exact Option.noConfusion h

/-- Along the loop, every painter invocation made so far is for an element below
`map_element`, and each iteration advances `map_element`. -/
theorem dispatch_after_calls_below (P : Painters) (rotation : Nat)
    (stack : List rct_map_element) (n : Nat) (s s1 : LoopState)
    (hc : ∀ c ∈ painter_calls s.trace, c.2.2.2 < s.i)
    (h : dispatch_after P rotation stack n s = some s1) :
    (∀ c ∈ painter_calls s1.trace, c.2.2.2 < s1.i) ∧ s.i + n ≤ s1.i := by
  induction n generalizing s with
  | zero =>
    simp only [dispatch_after, Option.some.injEq] at h
    subst h
    exact ⟨hc, by omega⟩
  | succ n ih =>
    unfold dispatch_after at h
    cases hs : dispatch_step P rotation stack s with
    | next s2 =>
      rw [hs] at h
      obtain ⟨hi, _, hcalls⟩ := (dispatch_step_shape P rotation stack s).1 s2 (Or.inl hs)
      have hc2 : ∀ c ∈ painter_calls s2.trace, c.2.2.2 < s2.i := by
        intro c hmem
        rcases hcalls with e | ⟨k, d, hh, e⟩
        · rw [e] at hmem
          exact Nat.lt_trans (hc c hmem) hi
        · rw [e, List.mem_append] at hmem
          rcases hmem with hmem | hmem
          · exact Nat.lt_trans (hc c hmem) hi
          · rw [List.mem_singleton] at hmem
            subst hmem
            exact hi
      obtain ⟨r1, r2⟩ := ih s2 hc2 h
      exact ⟨r1, by omega⟩
    | finished s2 =>
      rw [hs] at h
      exact Option.noConfusion h
    | returned r =>
      rw [hs] at h
      exact Option.noConfusion h

/-! ## Lemmas on entry and exit of `sub_68B3FB` -/

theorem sub_68B3FB_begin_calls (env : PaintEnv) (x y : Int) (g : PaintState) :
    painter_calls (sub_68B3FB_begin env x y g).2 = [] := by
  unfold sub_68B3FB_begin
  simp only []
  split <;> rfl

/-- The dispatch loop is entered at the first element, with no painter invoked yet. -/
theorem sub_68B3FB_entry_loop (env : PaintEnv) (x y : Int) (g : PaintState) (s0 : LoopState)
    (h : sub_68B3FB_entry env x y g = .loop s0) :
    s0.i = 0 ∧ painter_calls s0.trace = [] := by
  unfold sub_68B3FB_entry at h
  simp only [] at h
  split at h
  · exact Entry.noConfusion h
  · split at h
    · exact Entry.noConfusion h
    · split at h
      · exact Entry.noConfusion h
      · injection h with h
        subst h
        exact ⟨rfl, sub_68B3FB_begin_calls env x y g⟩

/-- When the clearance scan finds the terminator, `sub_68B3FB` either stops at one of the
two viewport tests or enters the dispatch loop. -/
theorem sub_68B3FB_entry_cases (env : PaintEnv) (x y : Int) (g : PaintState)
    (m : Int × rct_map_element)
    (hscan : max_clearance_scan (env.map_get_first_element_at (x >>> 5) (y >>> 5)) 0 = some m) :
    (∃ r, sub_68B3FB_entry env x y g = .returned r ∧
        (r.exit = .culled_above ∨ r.exit = .culled_below)) ∨
    ∃ s0, sub_68B3FB_entry env x y g = .loop s0 := by
  unfold sub_68B3FB_entry
  simp only [hscan]
  split
  · exact Or.inl ⟨_, rfl, Or.inl rfl⟩
  · split
    · exact Or.inl ⟨_, rfl, Or.inr rfl⟩
    · exact Or.inr ⟨_, rfl⟩

theorem max_clearance_scan_finds (pre : List rct_map_element) (l : rct_map_element)
    (post : List rct_map_element) (m : Int)
    (hpre : ∀ e ∈ pre, map_element_is_last_for_tile e = false)
    (hl : map_element_is_last_for_tile l = true) :
    ∃ r, max_clearance_scan (pre ++ l :: post) m = some r := by
  induction pre generalizing m with
  | nil =>
    simp only [List.nil_append, max_clearance_scan, hl, if_true]
    exact ⟨_, rfl⟩
  | cons e pre ih =>
    have he : map_element_is_last_for_tile e = false := hpre e (List.mem_cons_self _ _)
    simp only [List.cons_append, max_clearance_scan, he]
    exact ih _ (fun a ha => hpre a (List.mem_cons_of_mem _ ha))

/-- The marker block invokes no painter. -/
theorem sub_68B3FB_finish_calls (env : PaintEnv) (stack : List rct_map_element)
    (s : LoopState) :
    painter_calls (sub_68B3FB_finish env stack s).trace = painter_calls s.trace := by
  unfold sub_68B3FB_finish
  split
  · rfl
  · split
    · rfl
    · split
      · rfl
      · simp only [painter_calls_append, painter_calls_draws, List.append_nil]

/-- From a state the loop reaches at an element inside the stack, the whole run is the
iteration at that state followed by the rest of the loop. -/
theorem sub_68B3FB_of_reached (P : Painters) (env : PaintEnv) (x y : Int) (g : PaintState)
    (s0 s : LoopState) (n : Nat) (e : rct_map_element)
    (h0 : sub_68B3FB_entry env x y g = .loop s0)
    (hn : dispatch_after P env.rotation (env.map_get_first_element_at (x >>> 5) (y >>> 5))
      n s0 = some s)
    (he : (env.map_get_first_element_at (x >>> 5) (y >>> 5))[s.i]? = some e) :
    (∀ c ∈ painter_calls s.trace, c.2.2.2 < s.i) ∧
    ∃ k, sub_68B3FB P env x y g =
      sub_68B3FB_exit env (env.map_get_first_element_at (x >>> 5) (y >>> 5))
        (dispatch_loop P env.rotation (env.map_get_first_element_at (x >>> 5) (y >>> 5))
          (k + 1) s) := by
  obtain ⟨hi0, hc0⟩ := sub_68B3FB_entry_loop env x y g s0 h0
  have hbelow0 : ∀ c ∈ painter_calls s0.trace, c.2.2.2 < s0.i := by
    intro c hc
    rw [hc0] at hc
    exact absurd hc (List.not_mem_nil c)
  obtain ⟨hbelow, hidx⟩ := dispatch_after_calls_below P env.rotation _ n s0 s hbelow0 hn
  have hlt := index_lt_of_get he
  refine ⟨hbelow, ⟨(env.map_get_first_element_at (x >>> 5) (y >>> 5)).length - n, ?_⟩⟩
  unfold sub_68B3FB
  simp only [h0]
  have hfuel : (env.map_get_first_element_at (x >>> 5) (y >>> 5)).length + 1
      = n + ((env.map_get_first_element_at (x >>> 5) (y >>> 5)).length - n + 1) := by omega
  rw [hfuel, dispatch_after_loop P env.rotation _ n _ s0 s hn]

/-- Once `map_element` is past index `j` and no painter was invoked for `j`, none will be. -/
theorem dispatch_loop_calls_avoid (P : Painters) (env : PaintEnv)
    (stack : List rct_map_element) (j fuel : Nat) (s : LoopState)
    (hc : ∀ c ∈ painter_calls s.trace, c.2.2.2 ≠ j) (hj : j < s.i) :
    ∀ c ∈ painter_calls
        (sub_68B3FB_exit env stack (dispatch_loop P env.rotation stack fuel s)).trace,
      c.2.2.2 ≠ j := by
  induction fuel generalizing s with
  | zero => exact hc
  | succ fuel ih =>
    rw [dispatch_loop_succ]
    have hshape := dispatch_step_shape P env.rotation stack s
    cases hs : dispatch_step P env.rotation stack s with
    | next s1 =>
      obtain ⟨hi, _, hcalls⟩ := hshape.1 s1 (Or.inl hs)
      apply ih s1 _ (by omega)
      intro c hmem
      rcases hcalls with e | ⟨k, d, hh, e⟩
      · rw [e] at hmem
        exact hc c hmem
      · rw [e, List.mem_append] at hmem
        rcases hmem with hmem | hmem
        · exact hc c hmem
        · rw [List.mem_singleton] at hmem
          subst hmem
          exact Nat.ne_of_gt hj
    | finished s1 =>
      obtain ⟨hi, _, hcalls⟩ := hshape.1 s1 (Or.inr hs)
      intro c hmem
      simp only [sub_68B3FB_exit, sub_68B3FB_finish_calls] at hmem
      rcases hcalls with e | ⟨k, d, hh, e⟩
      · rw [e] at hmem
        exact hc c hmem
      · rw [e, List.mem_append] at hmem
        rcases hmem with hmem | hmem
        · exact hc c hmem
        · rw [List.mem_singleton] at hmem
          subst hmem
          exact Nat.ne_of_gt hj
    | returned r =>
      have e := hshape.2 r hs
      intro c hmem
      simp only [sub_68B3FB_exit, e] at hmem
      exact hc c hmem

theorem dispatch_after_succ (P : Painters) (rotation : Nat) (stack : List rct_map_element)
    (n : Nat) (s s1 s2 : LoopState)
    (h : dispatch_after P rotation stack n s = some s1)
    (hs : dispatch_step P rotation stack s1 = .next s2) :
    dispatch_after P rotation stack (n + 1) s = some s2 := by
  induction n generalizing s with
  | zero =>
    simp only [dispatch_after, Option.some.injEq] at h
    subst h
    simp only [dispatch_after, hs]
  | succ n ih =>
    unfold dispatch_after at h ⊢
    cases hstep : dispatch_step P rotation stack s with
    | next s3 =>
      rw [hstep] at h
      exact ih s3 h
    | finished s3 =>
      rw [hstep] at h
      exact Option.noConfusion h
    | returned r =>
      rw [hstep] at h
      exact Option.noConfusion h

theorem switch_of_drawable (tag : Nat) (h : tag ∈ painter_table.map Prod.fst) :
    (tag, painter_of_tag tag) ∈ painter_table ∧
      sub_68B3FB_switch tag = .painter (painter_of_tag tag) := by
  simp only [painter_table, List.map_cons, List.map_nil, List.mem_cons, List.mem_singleton,
    List.not_mem_nil, or_false] at h
  rcases h with h | h | h | h | h | h | h | h <;> subst h <;> exact ⟨by decide, by decide⟩

theorem switch_of_corrupt (tag : Nat) (h : tag = MAP_ELEMENT_TYPE_CORRUPT) :
    sub_68B3FB_switch tag = .corrupt := by
  subst h
  decide

theorem switch_of_undefined (tag : Nat) (h : tag ∉ defined_type_tags) :
    sub_68B3FB_switch tag = .undefined := by
  simp only [defined_type_tags, painter_table, List.map_cons, List.map_nil, List.cons_append,
    List.nil_append, List.mem_cons, List.mem_singleton, List.not_mem_nil, or_false,
    not_or] at h
  obtain ⟨h1, h2, h3, h4, h5, h6, h7, h8, h9⟩ := h
  unfold sub_68B3FB_switch
  simp only [h1, h2, h3, h4, h5, h6, h7, h8, h9, if_false]

theorem expected_calls_length (rotation start : Nat) (es : List rct_map_element) :
    (expected_calls rotation start es).length = es.length := by
  induction es generalizing start with
  | nil => rfl
  | cons e es ih => simp only [expected_calls, List.length_cons, ih]

theorem expected_calls_get (rotation start : Nat) (es : List rct_map_element) (i : Nat)
    (e : rct_map_element) (h : es[i]? = some e) :
    (expected_calls rotation start es)[i]?
      = some (painter_of_tag (map_element_get_type e), (e.type + rotation) &&& 3,
          e.base_height * 8, start + i) := by
  induction es generalizing start i with
  | nil => simp at h
  | cons a es ih =>
    cases i with
    | zero =>
      simp only [List.getElem?_cons_zero, Option.some.injEq] at h
      subst h
      simp [expected_calls]
    | succ i =>
      simp only [List.getElem?_cons_succ] at h
      simp only [expected_calls, List.getElem?_cons_succ]
      rw [ih (start + 1) i h]
      congr 4
      omega

theorem get_append_cons (front : List rct_map_element) (e : rct_map_element)
    (rest : List rct_map_element) : (front ++ e :: rest)[front.length]? = some e := by
  induction front with
  | nil => simp
  | cons a front ih => simpa using ih

/-- On a stack of drawable elements the loop runs to the terminator and invokes the
expected painter for each element, in order. -/
theorem dispatch_loop_paints (P : Painters) (rotation : Nat) (l : rct_map_element)
    (post : List rct_map_element) (hl : map_element_is_last_for_tile l = true)
    (hdl : map_element_get_type l ∈ painter_table.map Prod.fst) :
    ∀ (pre front : List rct_map_element) (s : LoopState) (fuel : Nat),
      s.i = front.length →
      (∀ e ∈ pre, map_element_is_last_for_tile e = false) →
      (∀ e ∈ pre, map_element_get_type e ∈ painter_table.map Prod.fst) →
      pre.length + 1 ≤ fuel →
      ∃ sf, dispatch_loop P rotation (front ++ pre ++ l :: post) fuel s = .finished sf ∧
        sf.i = front.length + pre.length + 1 ∧
        painter_calls sf.trace
          = painter_calls s.trace ++ expected_calls rotation front.length (pre ++ [l]) := by
  intro pre
  induction pre with
  | nil =>
    intro front s fuel hi _ _ hfuel
    obtain ⟨f, rfl⟩ : ∃ f, fuel = f + 1 := ⟨fuel - 1, by simp at hfuel; omega⟩
    have he : (front ++ [] ++ l :: post)[s.i]? = some l := by
      rw [hi, List.append_nil]
      exact get_append_cons front l post
    rw [dispatch_loop_succ,
      dispatch_step_painter P rotation _ s l _ he (switch_of_drawable _ hdl).2]
    simp only [hl, if_true]
    refine ⟨_, rfl, ?_, ?_⟩
    · simp [paint_element_index, hi]
    · rw [paint_element_calls, hi]
      simp [expected_calls, (switch_of_drawable _ hdl).2, MAP_ELEMENT_DIRECTION_MASK]
  | cons e pre ih =>
    intro front s fuel hi hpre hdef hfuel
    obtain ⟨f, rfl⟩ : ∃ f, fuel = f + 1 := ⟨fuel - 1, by simp at hfuel; omega⟩
    have he : (front ++ (e :: pre) ++ l :: post)[s.i]? = some e := by
      rw [hi, List.append_assoc, List.cons_append]
      exact get_append_cons front e (pre ++ l :: post)
    have hle : map_element_is_last_for_tile e = false := hpre e (List.mem_cons_self _ _)
    have hde := switch_of_drawable _ (hdef e (List.mem_cons_self _ _))
    rw [dispatch_loop_succ, dispatch_step_painter P rotation _ s e _ he hde.2]
    simp only [hle]
    have hstack : front ++ (e :: pre) ++ l :: post = (front ++ [e]) ++ pre ++ l :: post := by
      simp
    rw [hstack]
    obtain ⟨sf, h1, h2, h3⟩ := ih (front ++ [e])
      (paint_element P rotation s e (painter_of_tag (map_element_get_type e))) f
      (by rw [paint_element_index, hi]; simp)
      (fun a ha => hpre a (List.mem_cons_of_mem _ ha))
      (fun a ha => hdef a (List.mem_cons_of_mem _ ha))
      (by simp at hfuel; omega)
    refine ⟨sf, h1, ?_, ?_⟩
    · rw [h2]
      simp
      omega
    · rw [h3, paint_element_calls, hi]
      simp [expected_calls]


/-! ## Claims on the rotation helpers and the segment support table -/

/-- C1: for every 16-bit segment mask `m`, `paint_util_rotate_segments(m, 0)` is `m`. -/
theorem rotate_segments_zero (m : Nat) (hm : m < 65536) :
    paint_util_rotate_segments m 0 = m := by
  rw [paint_util_rotate_segments_eq, rol8_zero_byte _ (Nat.mod_lt _ (by decide))]
  omega

theorem rotate_segments_zero_witness :
    (0x1A5 : Nat) < 65536 ∧ paint_util_rotate_segments 0x1A5 0 = 0x1A5 :=
  ⟨by decide, rotate_segments_zero 0x1A5 (by decide)⟩

/-- C2: for every 16-bit segment mask `m`, rotating by one step four times in succession
gives `m` back. -/
theorem rotate_segments_four_times (m : Nat) (hm : m < 65536) :
    paint_util_rotate_segments
      (paint_util_rotate_segments
        (paint_util_rotate_segments (paint_util_rotate_segments m 1) 1) 1) 1 = m := by
  rw [paint_util_rotate_segments_eq m 1, rotate_segments_once _ _ (rol8_lt _ _),
    rotate_segments_once _ _ (rol8_lt _ _), rotate_segments_once _ _ (rol8_lt _ _),
    rol8_two_four_times _ (Nat.mod_lt _ (by decide))]
  omega

theorem rotate_segments_four_times_witness :
    (0x1A5 : Nat) < 65536 ∧
      paint_util_rotate_segments
        (paint_util_rotate_segments
          (paint_util_rotate_segments (paint_util_rotate_segments 0x1A5 1) 1) 1) 1 = 0x1A5 :=
  ⟨by decide, rotate_segments_four_times 0x1A5 (by decide)⟩

/-- C3: for every perimeter byte `p` and rotation `r` in 0..3, rotating by `r` and then by
`(4 - r) mod 4` gives `p` back. -/
theorem path_rotate_perimeter_round_trip (p r : Nat) (hp : p < 256) (hr : r < 4) :
    path_rotate_perimeter (path_rotate_perimeter p r) ((4 - r) % 4) = p :=
  perimeter_round_trip_table p hp r hr

theorem path_rotate_perimeter_round_trip_witness :
    (0x81 : Nat) < 256 ∧ (1 : Nat) < 4 ∧
      path_rotate_perimeter (path_rotate_perimeter 0x81 1) ((4 - 1) % 4) = 0x81 :=
  ⟨by decide, by decide, path_rotate_perimeter_round_trip 0x81 1 (by decide) (by decide)⟩

/-- C4: after `paint_util_set_general_support_height(h, s1)` the general support height is
the maximum of the old height and `h` (so it is never lowered), the slope is `s1` when
`h` exceeds the old height and the old slope otherwise, and nothing else changes. -/
theorem set_general_support_height_raises (g : PaintState) (h : Int) (s1 : Nat) :
    (paint_util_set_general_support_height h s1 g).max_height = max g.max_height h ∧
    g.max_height ≤ (paint_util_set_general_support_height h s1 g).max_height ∧
    (paint_util_set_general_support_height h s1 g).slope
      = (if h > g.max_height then s1 else g.slope) ∧
    paint_util_set_general_support_height h s1 g
      = { g with max_height := max g.max_height h,
                 slope := if h > g.max_height then s1 else g.slope } := by
  unfold paint_util_set_general_support_height paint_util_force_set_general_support_height
  by_cases hc : g.max_height ≥ h
  · have hn : ¬ h > g.max_height := by omega
    have hmax : max g.max_height h = g.max_height := max_eq_left hc
    simp [hc, hn, hmax]
  · have hn : h > g.max_height := by omega
    have hmax : max g.max_height h = h := max_eq_right (by omega)
    simp [hc, hn, hmax]
    omega

/-- C5: after `paint_util_set_segment_support_height(mask, height, slope)` every segment
named in the mask holds the word made of `height` and `slope` when `height` is not `0xFFFF`
(its height half is `height`, its slope byte is `slope`) and the all-ones invalid word when
`height` is `0xFFFF`; every other segment is unchanged; and with `height = 0xFFFF` the call
leaves the state exactly as `paint_util_set_segment_support_invalid_height(mask)` does. -/
theorem set_segment_support_height_spec (g : PaintState) (mask height slope : Nat)
    (hh : height < 65536) (hs : slope < 256) (s : Fin 9) :
    (paint_util_set_segment_support_height mask height slope g).segments s
      = (if mask &&& segment_offsets s ≠ 0 then
          (if height ≠ 0xFFFF then height ||| (slope <<< 16) else 0xFFFFFFFF)
        else g.segments s) ∧
    segment_height (height ||| (slope <<< 16)) = height ∧
    segment_slope (height ||| (slope <<< 16)) = slope ∧
    segment_height 0xFFFFFFFF = 0xFFFF ∧
    (paint_util_set_segment_support_invalid_height mask g).segments s
      = (if mask &&& segment_offsets s ≠ 0 then 0xFFFFFFFF else g.segments s) ∧
    paint_util_set_segment_support_height mask 0xFFFF slope g
      = paint_util_set_segment_support_invalid_height mask g := by
  refine ⟨?_, segment_word_height height slope hh, segment_word_slope height slope hh hs,
    by decide, ?_, ?_⟩
  · unfold paint_util_set_segment_support_height paint_util_set_segment_support_invalid_height
    by_cases hv : height = 0xFFFF
    · simp [hv, store_named_segments_apply]
    · simp [hv, store_named_segments_apply]
  · unfold paint_util_set_segment_support_invalid_height
    simp [store_named_segments_apply]
  · unfold paint_util_set_segment_support_height
    simp

theorem set_segment_support_height_spec_witness :
    (34 : Nat) < 65536 ∧ (0x20 : Nat) < 256 ∧
      (paint_util_set_segment_support_height (SEGMENT_B4 ||| SEGMENT_CC) 34 0x20
        zero_state).segments 0 = 34 ||| (0x20 <<< 16) :=
  ⟨by decide, by decide,
    (set_segment_support_height_spec zero_state (SEGMENT_B4 ||| SEGMENT_CC) 34 0x20
      (by decide) (by decide) 0).1.trans (by decide)⟩

/-- C6: `paint_util_set_all_segments_support_invalid_height` leaves all nine segments with
the invalid height `0xFFFF`, and its result is that of
`paint_util_set_segment_support_invalid_height(SEGMENTS_ALL)`. -/
theorem set_all_segments_invalid_spec (g : PaintState) :
    (∀ s : Fin 9,
      segment_height ((paint_util_set_all_segments_support_invalid_height g).segments s)
        = 0xFFFF) ∧
    paint_util_set_all_segments_support_invalid_height g
      = paint_util_set_segment_support_invalid_height SEGMENTS_ALL g := by
  refine ⟨fun s => (by decide : segment_height 0xFFFFFFFF = 0xFFFF), ?_⟩
  unfold paint_util_set_all_segments_support_invalid_height
    paint_util_set_segment_support_invalid_height
  congr 1
  funext s
  rw [store_named_segments_apply]
  simp [segments_all_names_every_segment s]

/-! ## Claims on the element painter dispatch -/

/-- C7: for a tile that passes both viewport tests and whose stack, up to the last-for-tile
element, holds only elements of the eight drawable types, `sub_68B3FB` runs to the marker
block and invokes exactly one painter per element, in stack order; the painter is the one
the spec pairs with the element's type tag, the direction is `(type + rotation) & 3` and the
height is `base_height * 8`. -/
theorem dispatch_paints_each_element (P : Painters) (env : PaintEnv) (x y : Int)
    (g : PaintState) (pre : List rct_map_element) (l : rct_map_element)
    (post : List rct_map_element)
    (hstack : env.map_get_first_element_at (x >>> 5) (y >>> 5) = pre ++ l :: post)
    (hpre : ∀ e ∈ pre, map_element_is_last_for_tile e = false)
    (hl : map_element_is_last_for_tile l = true)
    (hdef : ∀ e ∈ pre ++ [l], map_element_get_type e ∈ painter_table.map Prod.fst)
    (habove : (sub_68B3FB P env x y g).exit ≠ .culled_above)
    (hbelow : (sub_68B3FB P env x y g).exit ≠ .culled_below) :
    ((sub_68B3FB P env x y g).exit = .heights_hidden ∨
      (sub_68B3FB P env x y g).exit = .surface_on_top ∨
      (sub_68B3FB P env x y g).exit = .markers_drawn) ∧
    (painter_calls (sub_68B3FB P env x y g).trace).length = pre.length + 1 ∧
    ∀ (i : Nat) (e : rct_map_element), (pre ++ [l])[i]? = some e →
      ∃ k, (map_element_get_type e, k) ∈ painter_table ∧
        (painter_calls (sub_68B3FB P env x y g).trace)[i]?
          = some (k, (e.type + env.rotation) &&& 3, e.base_height * 8, i) := by
  obtain ⟨m, hscan⟩ := max_clearance_scan_finds pre l post 0 hpre hl
  rw [← hstack] at hscan
  have hdl : map_element_get_type l ∈ painter_table.map Prod.fst :=
    hdef l (List.mem_append_right _ (List.mem_singleton_self l))
  have hdpre : ∀ e ∈ pre, map_element_get_type e ∈ painter_table.map Prod.fst :=
    fun e he => hdef e (List.mem_append_left _ he)
  rcases sub_68B3FB_entry_cases env x y g m hscan with ⟨r, hr, hex⟩ | ⟨s0, h0⟩
  · have hres : sub_68B3FB P env x y g = r := by
      unfold sub_68B3FB
      simp only [hr]
    rw [hres] at habove hbelow
    rcases hex with hex | hex
    · exact absurd hex habove
    · exact absurd hex hbelow
  · obtain ⟨hi0, hc0⟩ := sub_68B3FB_entry_loop env x y g s0 h0
    obtain ⟨sf, hrun, hsfi, hcalls⟩ := dispatch_loop_paints P env.rotation l post hl hdl pre []
      s0 ((pre ++ l :: post).length + 1) (by simpa using hi0) hpre hdpre (by simp)
    have hres : sub_68B3FB P env x y g = sub_68B3FB_finish env (pre ++ l :: post) sf := by
      unfold sub_68B3FB
      simp only [h0, hstack]
      rw [List.nil_append] at hrun
      rw [hrun]
      rfl
    have hlast : (pre ++ l :: post)[sf.i - 1]? = some l := by
      have e1 : sf.i - 1 = pre.length := by simp at hsfi; omega
      rw [e1]
      exact get_append_cons pre l post
    have hcalls2 : painter_calls (sub_68B3FB P env x y g).trace
        = expected_calls env.rotation 0 (pre ++ [l]) := by
      rw [hres, sub_68B3FB_finish_calls, hcalls, hc0]
      rfl
    refine ⟨?_, ?_, ?_⟩
    · rw [hres]
      unfold sub_68B3FB_finish
      simp only [hlast]
      split
      · exact Or.inl rfl
      · split
        · exact Or.inr (Or.inl rfl)
        · exact Or.inr (Or.inr rfl)
    · rw [hcalls2, expected_calls_length]
      simp
    · intro i e hie
      have hmem : e ∈ pre ++ [l] := List.getElem?_mem hie
      refine ⟨painter_of_tag (map_element_get_type e),
        (switch_of_drawable _ (hdef e hmem)).1, ?_⟩
      rw [hcalls2, expected_calls_get env.rotation 0 (pre ++ [l]) i e hie]
      simp

theorem dispatch_paints_each_element_witness :
    (painter_calls (sub_68B3FB sample_painters
        (sample_env [sample_element 1 2 false, sample_element 6 3 true]) 64 64
        zero_state).trace).length = 2 :=
  (dispatch_paints_each_element sample_painters
    (sample_env [sample_element 1 2 false, sample_element 6 3 true]) 64 64 zero_state
    [sample_element 1 2 false] (sample_element 6 3 true) [] rfl (by decide) (by decide)
    (by decide) (by decide) (by decide)).2.1

/-- C8: when the dispatch loop reaches a Corrupt element that carries the last-for-tile
flag, `sub_68B3FB` returns there: the events of the whole run are exactly those emitted
before the element was reached (so nothing is painted or drawn for it or after it, marker
sprites included, and what was emitted earlier is kept), and every painter invocation in
them is for an element below it. -/
theorem corrupt_terminator_stops (P : Painters) (env : PaintEnv) (x y : Int)
    (g : PaintState) (s0 s : LoopState) (n : Nat) (e : rct_map_element)
    (h0 : sub_68B3FB_entry env x y g = .loop s0)
    (hn : dispatch_after P env.rotation (env.map_get_first_element_at (x >>> 5) (y >>> 5))
      n s0 = some s)
    (he : (env.map_get_first_element_at (x >>> 5) (y >>> 5))[s.i]? = some e)
    (hc : map_element_get_type e = MAP_ELEMENT_TYPE_CORRUPT)
    (hl : map_element_is_last_for_tile e = true) :
    sub_68B3FB P env x y g
      = ⟨{ s.g with ptr_9DE578 := s.i }, s.trace, .corrupt_terminator⟩ ∧
    (sub_68B3FB P env x y g).trace = s.trace ∧
    (∀ c ∈ painter_calls (sub_68B3FB P env x y g).trace, c.2.2.2 < s.i) := by
  obtain ⟨hbelow, k, hres⟩ := sub_68B3FB_of_reached P env x y g s0 s n e h0 hn he
  have hfull : sub_68B3FB P env x y g
      = ⟨{ s.g with ptr_9DE578 := s.i }, s.trace, .corrupt_terminator⟩ := by
    rw [hres, dispatch_loop_succ,
      dispatch_step_corrupt_last P env.rotation _ s e he (switch_of_corrupt _ hc) hl]
    rfl
  refine ⟨hfull, ?_, ?_⟩
  · rw [hfull]
  · rw [hfull]
    exact hbelow

theorem corrupt_terminator_stops_witness :
    (sub_68B3FB sample_painters
        (sample_env [sample_element 0 2 false, sample_element 0x20 3 true]) 64 64
        zero_state).exit = .corrupt_terminator ∧
    painter_calls (sub_68B3FB sample_painters
        (sample_env [sample_element 0 2 false, sample_element 0x20 3 true]) 64 64
        zero_state).trace = [(.surface_paint, 0, 16, 0)] := by
  have h := corrupt_terminator_stops sample_painters
    (sample_env [sample_element 0 2 false, sample_element 0x20 3 true]) 64 64 zero_state
    (sample_entry [sample_element 0 2 false, sample_element 0x20 3 true])
    (paint_element sample_painters 0
      (sample_entry [sample_element 0 2 false, sample_element 0x20 3 true])
      (sample_element 0 2 false) .surface_paint)
    1 (sample_element 0x20 3 true) rfl rfl rfl (by decide) (by decide)
  refine ⟨?_, ?_⟩
  · rw [h.1]
  · rw [h.2.1]
    decide

/-- C9: when the dispatch loop reaches, at index `i`, a Corrupt element without the
last-for-tile flag, the element at index `i + 1` is stepped over whatever its type: if it is
not last for the tile the loop continues at index `i + 2` with no event added, if it is the
loop ends and the marker block runs as after any other last element; and in the whole run no
painter is invoked for the element at index `i + 1`. -/
theorem corrupt_skips_next_element (P : Painters) (env : PaintEnv) (x y : Int)
    (g : PaintState) (s0 s : LoopState) (n : Nat) (e e1 : rct_map_element)
    (h0 : sub_68B3FB_entry env x y g = .loop s0)
    (hn : dispatch_after P env.rotation (env.map_get_first_element_at (x >>> 5) (y >>> 5))
      n s0 = some s)
    (he : (env.map_get_first_element_at (x >>> 5) (y >>> 5))[s.i]? = some e)
    (hc : map_element_get_type e = MAP_ELEMENT_TYPE_CORRUPT)
    (hl : map_element_is_last_for_tile e = false)
    (he1 : (env.map_get_first_element_at (x >>> 5) (y >>> 5))[s.i + 1]? = some e1) :
    (map_element_is_last_for_tile e1 = false →
      dispatch_after P env.rotation (env.map_get_first_element_at (x >>> 5) (y >>> 5))
        (n + 1) s0 = some ⟨s.i + 2, { s.g with ptr_9DE578 := s.i }, s.trace⟩) ∧
    (map_element_is_last_for_tile e1 = true →
      sub_68B3FB P env x y g
        = sub_68B3FB_finish env (env.map_get_first_element_at (x >>> 5) (y >>> 5))
            ⟨s.i + 2, { s.g with ptr_9DE578 := s.i }, s.trace⟩) ∧
    (∀ c ∈ painter_calls (sub_68B3FB P env x y g).trace, c.2.2.2 ≠ s.i + 1) := by
  obtain ⟨hbelow, k, hres⟩ := sub_68B3FB_of_reached P env x y g s0 s n e h0 hn he
  have hstep := dispatch_step_corrupt_skip P env.rotation _ s e e1 he
    (switch_of_corrupt _ hc) hl he1
  refine ⟨?_, ?_, ?_⟩
  · intro hl1
    simp only [hl1] at hstep
    exact dispatch_after_succ P env.rotation _ n s0 s _ hn hstep
  · intro hl1
    simp only [hl1, if_true] at hstep
    rw [hres, dispatch_loop_succ, hstep]
    rfl
  · have havoid : ∀ c ∈ painter_calls (skip_element s).trace, c.2.2.2 ≠ s.i + 1 := by
      intro c hmem
      have hlt := hbelow c hmem
      omega
    rw [hres, dispatch_loop_succ, hstep]
    by_cases hl1 : map_element_is_last_for_tile e1 = true
    · simp only [hl1, if_true]
      intro c hmem
      simp only [sub_68B3FB_exit, sub_68B3FB_finish_calls] at hmem
      exact havoid c hmem
    · simp only [hl1]
      exact dispatch_loop_calls_avoid P env _ (s.i + 1) k (skip_element s) havoid
        (by simp [skip_element_index])

theorem corrupt_skips_next_element_witness :
    (dispatch_after sample_painters 0
        [sample_element 0 2 false, sample_element 0x20 3 false, sample_element 4 3 false,
          sample_element 8 4 true] 2
        (sample_entry [sample_element 0 2 false, sample_element 0x20 3 false,
          sample_element 4 3 false, sample_element 8 4 true])).map (fun s => s.i) = some 3 ∧
    (painter_calls (sub_68B3FB sample_painters
        (sample_env [sample_element 0 2 false, sample_element 0x20 3 false,
          sample_element 4 3 false, sample_element 8 4 true]) 64 64 zero_state).trace).all
      (fun c => decide (c.2.2.2 ≠ 2)) = true := by
  have h := corrupt_skips_next_element sample_painters
    (sample_env [sample_element 0 2 false, sample_element 0x20 3 false,
      sample_element 4 3 false, sample_element 8 4 true]) 64 64 zero_state
    (sample_entry [sample_element 0 2 false, sample_element 0x20 3 false,
      sample_element 4 3 false, sample_element 8 4 true])
    (paint_element sample_painters 0
      (sample_entry [sample_element 0 2 false, sample_element 0x20 3 false,
        sample_element 4 3 false, sample_element 8 4 true])
      (sample_element 0 2 false) .surface_paint)
    1 (sample_element 0x20 3 false) (sample_element 4 3 false) rfl rfl rfl (by decide)
    (by decide) rfl
  refine ⟨(congrArg (Option.map fun s => s.i) (h.1 (by decide))).trans rfl, ?_⟩
  rw [List.all_eq_true]
  intro c hc
  exact decide_eq_true (h.2.2 c hc)

/-- C10: when the dispatch loop reaches an element whose type tag is none of the nine
defined ones, `sub_68B3FB` returns there: the events of the whole run are exactly those
emitted before the element was reached (what was painted for the elements dispatched
earlier is kept, nothing is painted or drawn for this element or any element above it), and
every painter invocation in them is for an element below it. -/
theorem undefined_element_stops (P : Painters) (env : PaintEnv) (x y : Int)
    (g : PaintState) (s0 s : LoopState) (n : Nat) (e : rct_map_element)
    (h0 : sub_68B3FB_entry env x y g = .loop s0)
    (hn : dispatch_after P env.rotation (env.map_get_first_element_at (x >>> 5) (y >>> 5))
      n s0 = some s)
    (he : (env.map_get_first_element_at (x >>> 5) (y >>> 5))[s.i]? = some e)
    (hu : map_element_get_type e ∉ defined_type_tags) :
    sub_68B3FB P env x y g
      = ⟨{ s.g with ptr_9DE578 := s.i }, s.trace, .undefined_element⟩ ∧
    (sub_68B3FB P env x y g).trace = s.trace ∧
    (∀ c ∈ painter_calls (sub_68B3FB P env x y g).trace, c.2.2.2 < s.i) := by
  obtain ⟨hbelow, k, hres⟩ := sub_68B3FB_of_reached P env x y g s0 s n e h0 hn he
  have hfull : sub_68B3FB P env x y g
      = ⟨{ s.g with ptr_9DE578 := s.i }, s.trace, .undefined_element⟩ := by
    rw [hres, dispatch_loop_succ,
      dispatch_step_undefined P env.rotation _ s e he (switch_of_undefined _ hu)]
    rfl
  refine ⟨hfull, ?_, ?_⟩
  · rw [hfull]
  · rw [hfull]
    exact hbelow

theorem undefined_element_stops_witness :
    (sub_68B3FB sample_painters
        (sample_env [sample_element 0 2 false, sample_element 0x24 3 false,
          sample_element 4 3 true]) 64 64 zero_state).exit = .undefined_element ∧
    painter_calls (sub_68B3FB sample_painters
        (sample_env [sample_element 0 2 false, sample_element 0x24 3 false,
          sample_element 4 3 true]) 64 64 zero_state).trace = [(.surface_paint, 0, 16, 0)] := by
  have h := undefined_element_stops sample_painters
    (sample_env [sample_element 0 2 false, sample_element 0x24 3 false,
      sample_element 4 3 true]) 64 64 zero_state
    (sample_entry [sample_element 0 2 false, sample_element 0x24 3 false,
      sample_element 4 3 true])
    (paint_element sample_painters 0
      (sample_entry [sample_element 0 2 false, sample_element 0x24 3 false,
        sample_element 4 3 true])
      (sample_element 0 2 false) .surface_paint)
    1 (sample_element 0x24 3 false) rfl rfl rfl (by decide)
  refine ⟨?_, ?_⟩
  · rw [h.1]
  · rw [h.2.1]
    decide

/-! ## Lemmas on the tile entry points -/

theorem blank_tiles_paint_shape (env : PaintEnv) (x y : Int) (g : PaintState) :
    (blank_tiles_paint env x y g).g.segments = g.segments ∧
    (blank_tiles_paint env x y g).g.max_height = g.max_height ∧
    (blank_tiles_paint env x y g).g.slope = g.slope ∧
    ((blank_tiles_paint env x y g).trace = [] ∨
      (blank_tiles_paint env x y g).trace = [Event.draw (blank_tile_command env.rotation)]) := by
  unfold blank_tiles_paint
  split
  · exact ⟨rfl, rfl, rfl, Or.inl rfl⟩
  · simp only []
    split
    · exact ⟨rfl, rfl, rfl, Or.inl rfl⟩
    · split
      · exact ⟨rfl, rfl, rfl, Or.inl rfl⟩
      · exact ⟨rfl, rfl, rfl, Or.inr rfl⟩

theorem out_of_bounds_not_in_bounds (size x y : Int)
    (hout : x < 32 ∨ y < 32 ∨ x ≥ size ∨ y ≥ size) :
    ¬ (x < size ∧ y < size ∧ x ≥ 32 ∧ y ≥ 32) := by
  omega

/-- The events of the head of `sub_68B3FB`: nothing, or the selection arrow alone, whose
image id is above `0x20900C27`. -/
theorem sub_68B3FB_begin_trace (env : PaintEnv) (x y : Int) (g : PaintState) :
    (env.arrow_enabled = false → (sub_68B3FB_begin env x y g).2 = []) ∧
    (draw_commands (sub_68B3FB_begin env x y g).2).length ≤ 1 ∧
    (∀ d ∈ draw_commands (sub_68B3FB_begin env x y g).2,
      d.sink = DrawSink.sub_98197C ∧ 0x20900C27 ≤ d.image_id) := by
  unfold sub_68B3FB_begin
  simp only []
  split
  · rename_i h
    refine ⟨fun hd => ?_, by simp [draw_commands], ?_⟩
    · rw [hd] at h
      exact absurd h.1 (by simp)
    · intro d hd
      simp only [draw_commands, List.filterMap_cons, List.filterMap_nil,
        List.mem_singleton] at hd
      subst hd
      exact ⟨rfl, by simp⟩
  · refine ⟨fun _ => rfl, by simp [draw_commands], ?_⟩
    intro d hd
    simp [draw_commands] at hd

/-- A tile that fails one of the two viewport tests: `sub_68B3FB` returns with the state and
the events of its head. -/
theorem sub_68B3FB_culled (P : Painters) (env : PaintEnv) (x y : Int) (g : PaintState)
    (hcull : ((sub_68B3FB_project env.rotation x y).2.2 >>> 1) + 52 ≤ env.dpi_y ∨
      ∃ m, max_clearance_scan (env.map_get_first_element_at (x >>> 5) (y >>> 5)) 0 = some m ∧
        ((sub_68B3FB_project env.rotation x y).2.2 >>> 1) - (sub_68B3FB_max_height m + 32)
          - env.dpi_height ≥ env.dpi_y) :
    (sub_68B3FB P env x y g).g = (sub_68B3FB_begin env x y g).1 ∧
    (sub_68B3FB P env x y g).trace = (sub_68B3FB_begin env x y g).2 ∧
    ((sub_68B3FB P env x y g).exit = .culled_above ∨
      (sub_68B3FB P env x y g).exit = .culled_below) := by
  unfold sub_68B3FB sub_68B3FB_entry
  simp only []
  by_cases h1 : ((sub_68B3FB_project env.rotation x y).2.2 >>> 1) + 52 ≤ env.dpi_y
  · simp [h1]
  · rcases hcull with h | ⟨m, hm, h2⟩
    · exact absurd h h1
    · simp [h1, hm, h2]

theorem sub_68B3FB_begin_congr (P : Painters) (env : PaintEnv) (x y : Int)
    (g1 g2 : PaintState)
    (h : sub_68B3FB_begin env x y g1 = sub_68B3FB_begin env x y g2) :
    sub_68B3FB P env x y g1 = sub_68B3FB P env x y g2 := by
  unfold sub_68B3FB sub_68B3FB_entry
  simp only [h]

theorem sub_68B3FB_entry_state (env : PaintEnv) (x y : Int) (g : PaintState) (s0 : LoopState)
    (h : sub_68B3FB_entry env x y g = .loop s0) :
    s0.g.segments = g.segments ∧ s0.g.max_height = g.max_height ∧ s0.g.slope = g.slope ∧
    s0.g.tunnel_left_count = 0 ∧ s0.g.tunnel_right_count = 0 := by
  unfold sub_68B3FB_entry at h
  simp only [] at h
  split at h
  · exact Entry.noConfusion h
  · split at h
    · exact Entry.noConfusion h
    · split at h
      · exact Entry.noConfusion h
      · injection h with h
        subst h
        unfold sub_68B3FB_begin
        simp only []
        split <;> exact ⟨rfl, rfl, rfl, rfl, rfl⟩

/-! ## Claims on the tile entry points -/

/-- C11: for coordinates outside the map (`x < 32`, `y < 32`, `x >= gMapSizeUnits` or
`y >= gMapSizeUnits`), `map_element_paint_setup` and `sub_68B2B7` both do what
`blank_tiles_paint` does: no painter is invoked, the segment table and the general support
height and slope are unchanged, and the events are either none or the single blank
placeholder, sprite 3123 with a 32 by 32 box. -/
theorem out_of_bounds_paints_blank_only (P : Painters) (env : PaintEnv) (x y : Int)
    (g : PaintState)
    (hout : x < 32 ∨ y < 32 ∨ x ≥ env.gMapSizeUnits ∨ y ≥ env.gMapSizeUnits) :
    map_element_paint_setup P env x y g = blank_tiles_paint env x y g ∧
    sub_68B2B7 P env x y g = blank_tiles_paint env x y g ∧
    painter_calls (blank_tiles_paint env x y g).trace = [] ∧
    (blank_tiles_paint env x y g).g.segments = g.segments ∧
    (blank_tiles_paint env x y g).g.max_height = g.max_height ∧
    (blank_tiles_paint env x y g).g.slope = g.slope ∧
    ((blank_tiles_paint env x y g).trace = [] ∨
      (blank_tiles_paint env x y g).trace = [Event.draw (blank_tile_command env.rotation)]) ∧
    (blank_tile_command env.rotation).sink = DrawSink.sub_98196C ∧
    (blank_tile_command env.rotation).image_id = 3123 ∧
    (blank_tile_command env.rotation).bound_box_length_x = 32 ∧
    (blank_tile_command env.rotation).bound_box_length_y = 32 := by
  have hn := out_of_bounds_not_in_bounds env.gMapSizeUnits x y hout
  obtain ⟨h1, h2, h3, h4⟩ := blank_tiles_paint_shape env x y g
  refine ⟨?_, ?_, ?_, h1, h2, h3, h4, rfl, rfl, rfl, rfl⟩
  · unfold map_element_paint_setup
    simp only [hn, if_false]
  · unfold sub_68B2B7
    simp only [hn, if_false]
  · rcases h4 with h | h <;> rw [h] <;> rfl

theorem out_of_bounds_paints_blank_only_witness :
    (map_element_paint_setup sample_painters
        (sample_env [sample_element 0 2 true]) 0 64 zero_state).trace
      = [Event.draw (blank_tile_command 0)] :=
  (out_of_bounds_paints_blank_only sample_painters (sample_env [sample_element 0 2 true]) 0 64
    zero_state (Or.inl (by decide))).1 ▸ rfl

/-- C12, as stated, fails: a tile inside the map whose band lies wholly above the viewport
(`projected y + 52 <= dpi.y`) is painted with no draw command at all, not with one blank
placeholder; `sub_68B3FB` returns from its viewport test without calling
`blank_tiles_paint`. -/
theorem culled_tile_has_no_blank :
    ((sub_68B3FB_project 0 64 64).2.2 >>> 1) + 52 ≤ (1000 : Int) ∧
    (map_element_paint_setup sample_painters
        (sample_env_offscreen [sample_element 0 2 true]) 64 64 zero_state).exit
      = Exit.culled_above ∧
    (draw_commands (map_element_paint_setup sample_painters
        (sample_env_offscreen [sample_element 0 2 true]) 64 64 zero_state).trace).length = 0 ∧
    (draw_commands (sub_68B2B7 sample_painters
        (sample_env_offscreen [sample_element 0 2 true]) 64 64 zero_state).trace).length
      = 0 := by
  decide

/-- C12, amended: for a tile inside the map whose band lies wholly above the viewport
(`projected y + 52 <= dpi.y`) or wholly below it
(`projected y - (8 * max_height + 32) - dpi.height >= dpi.y`), `map_element_paint_setup` and
`sub_68B2B7` invoke no element painter and draw no blank placeholder: the events are those
of the head of `sub_68B3FB`, at most the selection arrow (never sprite 3123), and nothing
at all when the arrow is disabled. -/
theorem culled_tile_paints_nothing (P : Painters) (env : PaintEnv) (x y : Int)
    (g : PaintState)
    (hin : x < env.gMapSizeUnits ∧ y < env.gMapSizeUnits ∧ x ≥ 32 ∧ y ≥ 32)
    (hcull : ((sub_68B3FB_project env.rotation x y).2.2 >>> 1) + 52 ≤ env.dpi_y ∨
      ∃ m, max_clearance_scan (env.map_get_first_element_at (x >>> 5) (y >>> 5)) 0 = some m ∧
        ((sub_68B3FB_project env.rotation x y).2.2 >>> 1) - (sub_68B3FB_max_height m + 32)
          - env.dpi_height ≥ env.dpi_y) :
    painter_calls (map_element_paint_setup P env x y g).trace = [] ∧
    painter_calls (sub_68B2B7 P env x y g).trace = [] ∧
    (draw_commands (map_element_paint_setup P env x y g).trace).length ≤ 1 ∧
    (draw_commands (sub_68B2B7 P env x y g).trace).length ≤ 1 ∧
    (∀ d ∈ draw_commands (map_element_paint_setup P env x y g).trace,
      d.sink = DrawSink.sub_98197C ∧ d.image_id ≠ 3123) ∧
    (∀ d ∈ draw_commands (sub_68B2B7 P env x y g).trace,
      d.sink = DrawSink.sub_98197C ∧ d.image_id ≠ 3123) ∧
    (env.arrow_enabled = false →
      (map_element_paint_setup P env x y g).trace = [] ∧
      (sub_68B2B7 P env x y g).trace = []) := by
  have e1 : map_element_paint_setup P env x y g
      = sub_68B3FB P env x y (map_element_paint_setup_reset g) := by
    unfold map_element_paint_setup
    simp only [hin, and_self, if_true]
  have e2 : sub_68B2B7 P env x y g = sub_68B3FB P env x y (sub_68B2B7_reset g) := by
    unfold sub_68B2B7
    simp only [hin, and_self, if_true]
  obtain ⟨_, t1, _⟩ := sub_68B3FB_culled P env x y (map_element_paint_setup_reset g) hcull
  obtain ⟨_, t2, _⟩ := sub_68B3FB_culled P env x y (sub_68B2B7_reset g) hcull
  obtain ⟨a1, b1, c1⟩ := sub_68B3FB_begin_trace env x y (map_element_paint_setup_reset g)
  obtain ⟨a2, b2, c2⟩ := sub_68B3FB_begin_trace env x y (sub_68B2B7_reset g)
  rw [e1, e2, t1, t2]
  refine ⟨sub_68B3FB_begin_calls _ _ _ _, sub_68B3FB_begin_calls _ _ _ _, b1, b2, ?_, ?_, ?_⟩
  · intro d hd
    obtain ⟨h1, h2⟩ := c1 d hd
    exact ⟨h1, by omega⟩
  · intro d hd
    obtain ⟨h1, h2⟩ := c2 d hd
    exact ⟨h1, by omega⟩
  · intro hd
    exact ⟨a1 hd, a2 hd⟩

theorem culled_tile_paints_nothing_witness :
    (map_element_paint_setup sample_painters
        (sample_env_offscreen [sample_element 0 2 true]) 64 64 zero_state).trace = [] :=
  ((culled_tile_paints_nothing sample_painters
    (sample_env_offscreen [sample_element 0 2 true]) 64 64 zero_state (by decide)
    (Or.inl (by decide))).2.2.2.2.2.2 rfl).1

theorem map_element_paint_setup_reset_invalid (g : PaintState) (s : Fin 9) :
    segment_height ((map_element_paint_setup_reset g).segments s) = 0xFFFF :=
  (by decide : segment_height 0xFFFFFFFF = 0xFFFF)

theorem sub_68B2B7_reset_invalid (g : PaintState) (s : Fin 9) :
    segment_height ((sub_68B2B7_reset g).segments s) = 0xFFFF :=
  (by decide : segment_height 0xFFFFFFFF = 0xFFFF)

/-- C16: for a tile inside the map, `map_element_paint_setup` and `sub_68B2B7` call
`sub_68B3FB` on a state whose nine segments are invalid (`0xFFFF`) and whose general support
height is -1 with slope 0, whatever the earlier tile left; when `sub_68B3FB` enters the
dispatch loop no painter has been invoked, the segment state is still the reset one and
both tunnel counters are zero; and the whole run does not depend on the segment table,
general support height, slope and tunnel counters left by the earlier tile. -/
theorem tile_support_state_is_reset (P : Painters) (env : PaintEnv) (x y : Int)
    (g : PaintState)
    (hin : x < env.gMapSizeUnits ∧ y < env.gMapSizeUnits ∧ x ≥ 32 ∧ y ≥ 32) :
    map_element_paint_setup P env x y g
      = sub_68B3FB P env x y (map_element_paint_setup_reset g) ∧
    sub_68B2B7 P env x y g = sub_68B3FB P env x y (sub_68B2B7_reset g) ∧
    (∀ s : Fin 9, segment_height ((map_element_paint_setup_reset g).segments s) = 0xFFFF ∧
      segment_height ((sub_68B2B7_reset g).segments s) = 0xFFFF) ∧
    (map_element_paint_setup_reset g).max_height = -1 ∧
    (map_element_paint_setup_reset g).slope = 0 ∧
    (sub_68B2B7_reset g).max_height = -1 ∧
    (sub_68B2B7_reset g).slope = 0 ∧
    (∀ s0, (sub_68B3FB_entry env x y (map_element_paint_setup_reset g) = .loop s0 ∨
          sub_68B3FB_entry env x y (sub_68B2B7_reset g) = .loop s0) →
      painter_calls s0.trace = [] ∧
      (∀ s : Fin 9, segment_height (s0.g.segments s) = 0xFFFF) ∧
      s0.g.max_height = -1 ∧ s0.g.slope = 0 ∧
      s0.g.tunnel_left_count = 0 ∧ s0.g.tunnel_right_count = 0) ∧
    (∀ (segs : Fin 9 → Nat) (mh : Int) (sl tl tr : Nat),
      map_element_paint_setup P env x y
          { g with segments := segs, max_height := mh, slope := sl,
                   tunnel_left_count := tl, tunnel_right_count := tr }
        = map_element_paint_setup P env x y g ∧
      sub_68B2B7 P env x y
          { g with segments := segs, max_height := mh, slope := sl,
                   tunnel_left_count := tl, tunnel_right_count := tr }
        = sub_68B2B7 P env x y g) := by
  have e1 : ∀ g1, map_element_paint_setup P env x y g1
      = sub_68B3FB P env x y (map_element_paint_setup_reset g1) := by
    intro g1
    unfold map_element_paint_setup
    simp only [hin, and_self, if_true]
  have e2 : ∀ g1, sub_68B2B7 P env x y g1 = sub_68B3FB P env x y (sub_68B2B7_reset g1) := by
    intro g1
    unfold sub_68B2B7
    simp only [hin, and_self, if_true]
  refine ⟨e1 g, e2 g,
    fun s => ⟨map_element_paint_setup_reset_invalid g s, sub_68B2B7_reset_invalid g s⟩,
    rfl, rfl, rfl, rfl, ?_, ?_⟩
  · intro s0 h
    rcases h with h | h
    · obtain ⟨h1, h2, h3, h4, h5⟩ := sub_68B3FB_entry_state env x y _ s0 h
      refine ⟨(sub_68B3FB_entry_loop env x y _ s0 h).2, ?_, ?_, ?_, h4, h5⟩
      · intro s
        rw [h1]
        exact map_element_paint_setup_reset_invalid g s
      · rw [h2]
        rfl
      · rw [h3]
        rfl
    · obtain ⟨h1, h2, h3, h4, h5⟩ := sub_68B3FB_entry_state env x y _ s0 h
      refine ⟨(sub_68B3FB_entry_loop env x y _ s0 h).2, ?_, ?_, ?_, h4, h5⟩
      · intro s
        rw [h1]
        exact sub_68B2B7_reset_invalid g s
      · rw [h2]
        rfl
      · rw [h3]
        rfl
  · intro segs mh sl tl tr
    rw [e1, e1 g, e2, e2 g]
    exact ⟨sub_68B3FB_begin_congr P env x y _ _ rfl, sub_68B3FB_begin_congr P env x y _ _ rfl⟩

theorem tile_support_state_is_reset_witness :
    map_element_paint_setup sample_painters (sample_env [sample_element 0 2 true]) 64 64
        { zero_state with segments := fun _ => 7, max_height := 99, slope := 1,
                          tunnel_left_count := 3, tunnel_right_count := 4 }
      = map_element_paint_setup sample_painters (sample_env [sample_element 0 2 true]) 64 64
          zero_state :=
  ((tile_support_state_is_reset sample_painters (sample_env [sample_element 0 2 true]) 64 64
    zero_state (by decide)).2.2.2.2.2.2.2.2 (fun _ => 7) 99 1 3 4).1

/-! ## Claims on the lookup table, the overwrite of segments and the two rotations -/

set_option maxRecDepth 100000 in
theorem byte_98D6E0_rotation_table :
    ∀ p < 256, ∀ r < 4, byte_98D6E0.getD p 0 < 16 →
      byte_98D6E0.getD (path_rotate_perimeter p r) 0 = rotl4 (byte_98D6E0.getD p 0) r := by
  decide

/-- C14: for every perimeter byte `p` whose table entry is an edge pattern (below 16) and
every rotation `r` in 0..3, the table entry of the rotated perimeter is the entry of `p`
rotated left by `r` within its four bits. -/
theorem byte_98D6E0_commutes_with_rotation (p r : Nat) (hp : p < 256) (hr : r < 4)
    (hedge : byte_98D6E0.getD p 0 < 16) :
    byte_98D6E0.getD (path_rotate_perimeter p r) 0 = rotl4 (byte_98D6E0.getD p 0) r :=
  byte_98D6E0_rotation_table p hp r hr hedge

theorem byte_98D6E0_commutes_with_rotation_witness :
    byte_98D6E0.getD 0x23 0 < 16 ∧
      byte_98D6E0.getD (path_rotate_perimeter 0x23 1) 0 = rotl4 (byte_98D6E0.getD 0x23 0) 1 :=
  ⟨by decide,
    byte_98D6E0_commutes_with_rotation 0x23 1 (by decide) (by decide) (by decide)⟩

/-- C15, as stated, fails: a segment whose stored height is 100 holds 50 after
`paint_util_set_segment_support_height(SEGMENT_B4, 50, 0)`; the setter overwrites, it does
not compare. -/
theorem set_segment_support_height_can_lower :
    segment_height ({ zero_state with segments := fun _ => 100 }.segments 0) = 100 ∧
    segment_height ((paint_util_set_segment_support_height SEGMENT_B4 50 0
        { zero_state with segments := fun _ => 100 }).segments 0) = 50 := by
  decide

/-- C15, amended: after `paint_util_set_segment_support_height(mask, height, slope)` with
`height` other than `0xFFFF`, the stored height of every segment the mask does not name is
what it was, and the stored height of every segment it names is `height`, whether that is
above or below what was stored; so a segment's stored height has not decreased exactly when
the mask does not name it or `height` is at least the height stored before. -/
theorem set_segment_support_height_overwrites (g : PaintState) (mask height slope : Nat)
    (hv : height ≠ 0xFFFF) (hh : height < 65536) (s : Fin 9) :
    segment_height ((paint_util_set_segment_support_height mask height slope g).segments s)
      = (if mask &&& segment_offsets s ≠ 0 then height else segment_height (g.segments s)) ∧
    (segment_height (g.segments s)
        ≤ segment_height
            ((paint_util_set_segment_support_height mask height slope g).segments s)
      ↔ (mask &&& segment_offsets s = 0 ∨ segment_height (g.segments s) ≤ height)) := by
  have e : segment_height
      ((paint_util_set_segment_support_height mask height slope g).segments s)
      = (if mask &&& segment_offsets s ≠ 0 then height
          else segment_height (g.segments s)) := by
    unfold paint_util_set_segment_support_height
    simp only [hv, ne_eq, not_false_eq_true, if_true, store_named_segments_apply]
    by_cases hn : mask &&& segment_offsets s = 0
    · simp [hn]
    · simp [hn, segment_word_height height slope hh]
  refine ⟨e, ?_⟩
  rw [e]
  by_cases hn : mask &&& segment_offsets s = 0
  · simp [hn]
  · simp [hn]

theorem set_segment_support_height_overwrites_witness :
    segment_height ((paint_util_set_segment_support_height SEGMENT_B4 50 0
        { zero_state with segments := fun _ => 100 }).segments 0)
      = (if SEGMENT_B4 &&& segment_offsets 0 ≠ 0 then 50
          else segment_height ({ zero_state with segments := fun _ => 100 }.segments 0)) :=
  (set_segment_support_height_overwrites { zero_state with segments := fun _ => 100 }
    SEGMENT_B4 50 0 (by decide) (by decide) 0).1

set_option maxRecDepth 100000 in
theorem rol8_moves_bits :
    ∀ b < 256, ∀ r < 4, ∀ i < 8,
      (rol8 b (r * 2)).testBit ((i + 2 * r) % 8) = b.testBit i := by
  decide

theorem and_bit_eight (x : Nat) : x &&& 0x100 = ((x / 256 % 256) * 256) &&& 0x100 := by
  have h : (0x100 : Nat) = 0xFF00 &&& 0x100 := by decide
  rw [← and_high_byte]
  conv => lhs; rw [h]
  rw [Nat.land_assoc]

/-- C17: for every 16-bit mask `m` and rotation `r` in 0..3, `paint_util_rotate_segments`
gives `(m & 0xFF00) | rol8(m & 0xFF, 2 * r)`: bits 8..15 are unchanged, among them the
centre segment `SEGMENT_C4`, and bit `i` of the low byte moves to bit `(i + 2 * r) mod 8`. -/
theorem rotate_segments_low_byte (m r : Nat) (hm : m < 65536) (hr : r < 4) :
    paint_util_rotate_segments m r = (m &&& 0xFF00) ||| rol8 (m &&& 0xFF) (2 * r) ∧
    paint_util_rotate_segments m r / 256 = m / 256 ∧
    paint_util_rotate_segments m r &&& SEGMENT_C4 = m &&& SEGMENT_C4 ∧
    (∀ i, i < 8 →
      (paint_util_rotate_segments m r % 256).testBit ((i + 2 * r) % 8)
        = (m % 256).testBit i) := by
  have hlt := rol8_lt (m % 256) (r * 2)
  have e := paint_util_rotate_segments_eq m r
  have hq : paint_util_rotate_segments m r / 256 = m / 256 := by
    rw [e]
    omega
  have hmod : paint_util_rotate_segments m r % 256 = rol8 (m % 256) (r * 2) := by
    rw [e]
    omega
  refine ⟨?_, hq, ?_, ?_⟩
  · unfold paint_util_rotate_segments
    rw [Nat.mul_comm 2 r]
  · show paint_util_rotate_segments m r &&& 0x100 = m &&& 0x100
    rw [and_bit_eight (paint_util_rotate_segments m r), and_bit_eight m, hq]
  · intro i hi
    rw [hmod]
    exact rol8_moves_bits (m % 256) (Nat.mod_lt _ (by decide)) r hr i hi

theorem rotate_segments_low_byte_witness :
    paint_util_rotate_segments 0x181 1 = (0x181 &&& 0xFF00) ||| rol8 (0x181 &&& 0xFF) (2 * 1) ∧
    paint_util_rotate_segments 0x181 1 = 0x106 :=
  ⟨(rotate_segments_low_byte 0x181 1 (by decide) (by decide)).1, by decide⟩

set_option maxRecDepth 100000 in
theorem path_rotate_perimeter_nibble_table :
    ∀ p < 256, ∀ r < 4,
      path_rotate_perimeter p r = rotl4 (p &&& 0xF) r ||| (rotl4 (p >>> 4) r <<< 4) := by
  decide

/-- C18: for every perimeter byte `p` and rotation `r` in 0..3, `path_rotate_perimeter`
rotates the low nibble (edges) and the high nibble (corners) each left by `r` bits within
its own four bits. -/
theorem path_rotate_perimeter_nibbles (p r : Nat) (hp : p < 256) (hr : r < 4) :
    path_rotate_perimeter p r = rotl4 (p &&& 0xF) r ||| (rotl4 (p >>> 4) r <<< 4) :=
  path_rotate_perimeter_nibble_table p hp r hr

theorem path_rotate_perimeter_nibbles_witness :
    path_rotate_perimeter 0x81 1 = rotl4 (0x81 &&& 0xF) 1 ||| (rotl4 (0x81 >>> 4) 1 <<< 4) ∧
    path_rotate_perimeter 0x81 1 = 0x12 :=
  ⟨path_rotate_perimeter_nibbles 0x81 1 (by decide) (by decide), by decide⟩

/-! ## Claims on the path painter -/

theorem loc_6A37C9_segments_max_height (env : PathEnv) (mapElement : rct_map_element)
    (hasFences : Bool) (g : PaintState) :
    (loc_6A37C9_segments env mapElement hasFences g).max_height = g.max_height := by
  unfold loc_6A37C9_segments
  simp only []
  split
  · rfl
  · split <;> rfl

theorem set_general_support_height_ge (height : Int) (slope : Nat) (g : PaintState) :
    height ≤ (paint_util_set_general_support_height height slope g).max_height := by
  unfold paint_util_set_general_support_height paint_util_force_set_general_support_height
  split
  · assumption
  · exact Int.le_refl _

/-- C13: for a flat path element whose edges byte is `0x0F`, painted at rotation 0, the
rotated perimeter is `0x0F`, the table gives `byte_98D6E0[15] = 15`, and the image
`loc_6A37C9` selects is the style's base image plus 15, plus 51 for a queue (in `uint32`
arithmetic), for every footpath entry; without railings it is the image of the first draw
command. -/
theorem flat_cross_junction_image (e : rct_map_element) (entry : rct_footpath_entry)
    (hedges : e.path_edges = 0x0F) (hflat : footpath_element_is_sloped e = false) :
    path_rotate_perimeter e.path_edges 0 = 0x0F ∧
    byte_98D6E0.getD 15 0 = 15 ∧
    loc_6A37C9_imageId 0 e entry
      = (entry.image + 15 + (if footpath_element_is_queue e then 51 else 0)) % 4294967296 ∧
    (entry.image + 66 < 4294967296 →
      loc_6A37C9_imageId 0 e entry
        = entry.image + 15 + (if footpath_element_is_queue e then 51 else 0)) ∧
    (∀ (env : PathEnv) (height : Int) (imageFlags sceneryImageFlags : Nat) (g : PaintState),
      env.rotation = 0 →
      ((loc_6A37C9 env e height entry false imageFlags sceneryImageFlags g).2.head?).map
          (fun d => d.image_id)
        = some (loc_6A37C9_imageId 0 e entry ||| imageFlags)) := by
  have hp : path_rotate_perimeter e.path_edges 0 = 0x0F := by
    rw [hedges]
    decide
  have himg : loc_6A37C9_imageId 0 e entry
      = (entry.image + 15 + (if footpath_element_is_queue e then 51 else 0))
          % 4294967296 := by
    unfold loc_6A37C9_imageId
    simp only [hp, hflat, Bool.false_eq_true, if_false]
    have h15 : byte_98D6E0.getD 15 0 = 15 := by decide
    simp only [h15, to_uint32]
    cases hqb : footpath_element_is_queue e with
    | false =>
      have hn : ¬ (e.type &&& 1 ≠ 0) := by
        unfold footpath_element_is_queue at hqb
        exact of_decide_eq_false hqb
      rw [if_neg hn]
      simp only [Bool.false_eq_true, if_false]
      omega
    | true =>
      have hy : e.type &&& 1 ≠ 0 := by
        unfold footpath_element_is_queue at hqb
        exact of_decide_eq_true hqb
      rw [if_pos hy]
      simp only [if_true]
      omega
  refine ⟨hp, by decide, himg, ?_, ?_⟩
  · intro hlt
    rw [himg]
    apply Nat.mod_eq_of_lt
    split <;> omega
  · intro env height imageFlags sceneryImageFlags g hrot
    unfold loc_6A37C9 loc_6A37C9_supported loc_6A37C9_posts loc_6A37C9_surface
    simp [hrot]

theorem flat_cross_junction_image_witness :
    loc_6A37C9_imageId 0 (sample_path 0x0F) { image := 1000 } = 1015 :=
  (flat_cross_junction_image (sample_path 0x0F) { image := 1000 } rfl
    (by decide)).2.2.1.trans (by decide)

/-- C20, as stated, fails: a path with railings that is not a queue and whose perimeter is
`0xFF` leaves the corner segment B4 (slot 0) with the valid height it had; only the four
edge segments are invalidated. -/
theorem railed_path_can_keep_segments :
    footpath_element_is_queue (sample_path 0xFF) = false ∧
    segment_height ((loc_6A37C9 sample_path_env (sample_path 0xFF) 16 {} true 0 0
        zero_state).1.segments 0) = 0 ∧
    segment_height ((loc_6A37C9 sample_path_env (sample_path 0xFF) 16 {} true 0 0
        zero_state).1.segments 5) = 0xFFFF := by
  decide

/-- C20, amended: for a path element that is a queue lane, or that has railings and a
rotated perimeter other than `0xFF`, all nine segments are invalid (`0xFFFF`) after
`loc_6A37C9` returns, whatever the segment table held before. -/
theorem queue_or_railed_path_invalidates_all (env : PathEnv) (e : rct_map_element)
    (height : Int) (entry : rct_footpath_entry) (hasFences : Bool)
    (imageFlags sceneryImageFlags : Nat) (g : PaintState)
    (hq : footpath_element_is_queue e = true ∨
      (hasFences = true ∧ path_rotate_perimeter e.path_edges env.rotation ≠ 0xFF)) :
    ∀ s : Fin 9,
      segment_height
        ((loc_6A37C9 env e height entry hasFences imageFlags sceneryImageFlags g).1.segments s)
        = 0xFFFF := by
  intro s
  unfold loc_6A37C9 loc_6A37C9_segments
  simp only []
  rw [if_pos hq]
  exact (by decide : segment_height 0xFFFFFFFF = 0xFFFF)

theorem queue_or_railed_path_invalidates_all_witness :
    segment_height ((loc_6A37C9 sample_path_env (sample_path 0x0F) 16 {} true 0 0
        zero_state).1.segments 0) = 0xFFFF :=
  queue_or_railed_path_invalidates_all sample_path_env (sample_path 0x0F) 16 {} true 0 0
    zero_state (Or.inr ⟨rfl, by decide⟩) 0

/-! ## Claims on path additions, tunnels and the lookup table -/

theorem filterMap_unless {α : Type} (c : Nat → Prop) [DecidablePred c] (f : Nat → α)
    (l : List Nat) :
    l.filterMap (fun i => if c i then none else some (f i))
      = (l.filter (fun i => ¬ c i)).map f := by
  induction l with
  | nil => rfl
  | cons a l ih =>
    by_cases h : c a
    · simp [List.filterMap_cons, List.filter_cons, h, ih]
    · simp [List.filterMap_cons, List.filter_cons, h, ih]

theorem clear_edges_eq (edges : Nat) :
    clear_edges edges = (List.range 4).filter (fun i => ¬ (edges &&& (1 <<< i) ≠ 0)) := by
  unfold clear_edges
  congr 1
  funext i
  simp

theorem filter_length_split (c : Nat → Prop) [DecidablePred c] (l : List Nat) :
    (l.filter (fun i => decide (c i))).length + (l.filter (fun i => decide (¬ c i))).length
      = l.length := by
  induction l with
  | nil => rfl
  | cons a l ih =>
    rw [List.filter_cons, List.filter_cons]
    by_cases h : c a
    · have h1 : decide (c a) = true := decide_eq_true h
      have h2 : decide (¬ c a) = false := decide_eq_false (not_not.2 h)
      rw [h1, h2]
      simp only [if_true, Bool.false_eq_true, if_false, List.length_cons]
      omega
    · have h1 : decide (c a) = false := decide_eq_false h
      have h2 : decide (¬ c a) = true := decide_eq_true h
      rw [h1, h2]
      simp only [if_true, Bool.false_eq_true, if_false, List.length_cons]
      omega

theorem clear_edges_length (edges : Nat) :
    (clear_edges edges).length = 4 - popcount4 edges := by
  have h := filter_length_split (fun i => edges &&& (1 <<< i) = 0) (List.range 4)
  have h4 : (List.range 4).length = 4 := rfl
  rw [h4] at h
  show (List.filter (fun i => decide (edges &&& (1 <<< i) = 0)) (List.range 4)).length
    = 4 - (List.filter (fun i => decide (¬ edges &&& (1 <<< i) = 0)) (List.range 4)).length
  omega

theorem clear_edges_lt (edges i : Nat) (h : i ∈ clear_edges edges) : i < 4 := by
  unfold clear_edges at h
  exact List.mem_range.1 (List.mem_filter.1 h).1

theorem map_congr_clear_edges {α : Type} (edges : Nat) (f g : Nat → α)
    (h : ∀ i, i < 4 → f i = g i) : (clear_edges edges).map f = (clear_edges edges).map g :=
  List.map_congr_left (fun i hi => h i (clear_edges_lt edges i hi))

theorem path_bit_lights_offsets (env : PathEnv) (entry : rct_scenery_entry)
    (e : rct_map_element) (height : Int) (edges flags : Nat) :
    (path_bit_lights_paint env entry e height edges flags).map
        (fun d => (d.x_offset, d.y_offset))
      = (clear_edges edges).map
          (fun i => ([(2, 16), (16, 30), (30, 16), (16, 2)] : List (Int × Int)).getD i (0, 0)) := by
  unfold path_bit_lights_paint
  simp only []
  rw [filterMap_unless, ← clear_edges_eq, List.map_map]
  exact List.map_congr_left (fun i _ => rfl)

theorem path_bit_bins_offsets (env : PathEnv) (entry : rct_scenery_entry)
    (e : rct_map_element) (height : Int) (edges flags : Nat) :
    (path_bit_bins_paint env entry e height edges flags).map
        (fun d => (d.x_offset, d.y_offset))
      = (clear_edges edges).map
          (fun i => ([(7, 16), (16, 25), (25, 16), (16, 7)] : List (Int × Int)).getD i (0, 0)) := by
  unfold path_bit_bins_paint
  simp only []
  rw [filterMap_unless, ← clear_edges_eq, List.map_map]
  exact List.map_congr_left (fun i _ => rfl)

theorem path_bit_benches_offsets (env : PathEnv) (entry : rct_scenery_entry)
    (e : rct_map_element) (height : Int) (edges flags : Nat) :
    (path_bit_benches_paint env entry e height edges flags).map
        (fun d => (d.x_offset, d.y_offset))
      = (clear_edges edges).map
          (fun i => ([(7, 16), (16, 25), (25, 16), (16, 7)] : List (Int × Int)).getD i (0, 0)) := by
  unfold path_bit_benches_paint
  simp only []
  rw [filterMap_unless, ← clear_edges_eq, List.map_map]
  exact List.map_congr_left (fun i _ => rfl)

theorem length_of_map_eq {α β γ : Type} (l : List α) (m : List β) (f : α → γ) (g : β → γ)
    (h : l.map f = m.map g) : l.length = m.length := by
  have h1 := congrArg List.length h
  simpa using h1

/-- C27: for every edges byte `e`, `path_bit_lights_paint`, `path_bit_bins_paint` and
`path_bit_benches_paint` each emit one draw command for every cardinal edge `i` in 0..3
whose bit `i` of `e` is clear, in increasing `i` (each at the screen offset of its edge),
and none for an edge whose bit is set: `4 - popcount(e & 0xF)` draws, none on a fully
connected path. -/
theorem path_bits_skip_connected_edges (env : PathEnv) (entry : rct_scenery_entry)
    (e : rct_map_element) (height : Int) (edges flags : Nat) :
    (path_bit_lights_paint env entry e height edges flags).length = 4 - popcount4 edges ∧
    (path_bit_bins_paint env entry e height edges flags).length = 4 - popcount4 edges ∧
    (path_bit_benches_paint env entry e height edges flags).length = 4 - popcount4 edges ∧
    (path_bit_lights_paint env entry e height edges flags).map
        (fun d => (d.x_offset, d.y_offset))
      = (clear_edges edges).map
          (fun i => ([(2, 16), (16, 30), (30, 16), (16, 2)] : List (Int × Int)).getD i (0, 0)) ∧
    (path_bit_bins_paint env entry e height edges flags).map
        (fun d => (d.x_offset, d.y_offset))
      = (clear_edges edges).map
          (fun i => ([(7, 16), (16, 25), (25, 16), (16, 7)] : List (Int × Int)).getD i (0, 0)) ∧
    (path_bit_benches_paint env entry e height edges flags).map
        (fun d => (d.x_offset, d.y_offset))
      = (clear_edges edges).map
          (fun i => ([(7, 16), (16, 25), (25, 16), (16, 7)] : List (Int × Int)).getD i (0, 0)) ∧
    (popcount4 edges = 4 →
      path_bit_lights_paint env entry e height edges flags = [] ∧
      path_bit_bins_paint env entry e height edges flags = [] ∧
      path_bit_benches_paint env entry e height edges flags = []) := by
  have hl := path_bit_lights_offsets env entry e height edges flags
  have hb := path_bit_bins_offsets env entry e height edges flags
  have hn := path_bit_benches_offsets env entry e height edges flags
  have hlen := clear_edges_length edges
  have ll := (length_of_map_eq _ _ _ _ hl).trans hlen
  have lb := (length_of_map_eq _ _ _ _ hb).trans hlen
  have ln := (length_of_map_eq _ _ _ _ hn).trans hlen
  refine ⟨ll, lb, ln, hl, hb, hn, ?_⟩
  intro h4
  rw [h4] at ll lb ln
  exact ⟨List.eq_nil_of_length_eq_zero ll, List.eq_nil_of_length_eq_zero lb,
    List.eq_nil_of_length_eq_zero ln⟩

theorem path_bits_skip_connected_edges_witness :
    (path_bit_lights_paint sample_path_env {} (sample_path 0x05) 16 0x05 0).length = 2 ∧
    (path_bit_benches_paint sample_path_env {} (sample_path 0x0F) 16 0x0F 0).length = 0 :=
  ⟨(path_bits_skip_connected_edges sample_path_env {} (sample_path 0x05) 16 0x05 0).1.trans
      (by decide),
    (path_bits_skip_connected_edges sample_path_env {} (sample_path 0x0F) 16 0x0F
      0).2.2.1.trans (by decide)⟩

set_option maxRecDepth 100000 in
theorem byte_98D6E0_value_table :
    ∀ p < 256, ∀ r < 4,
      path_rotate_perimeter p r < byte_98D6E0.length ∧
      (byte_98D6E0.getD (path_rotate_perimeter p r) 0 < 16 ∨
        (20 ≤ byte_98D6E0.getD (path_rotate_perimeter p r) 0 ∧
          byte_98D6E0.getD (path_rotate_perimeter p r) 0 ≤ 50)) := by
  decide

set_option maxRecDepth 100000 in
theorem byte_98D6E0_count_table :
    ∀ v < 51, 20 ≤ v → byte_98D6E0.count v = 1 := by
  decide

set_option maxRecDepth 100000 in
theorem byte_98D6E0_length : byte_98D6E0.length = 256 := by
  decide

/-- C28: for every stored edges byte and every rotation in 0..3, the flat-path lookup index
`path_rotate_perimeter(edges, rotation)` lies inside the 256-entry table `byte_98D6E0`, the
value read lies in 0..15 or in 20..50 (never 16..19, the offsets of the sloped sprites), and
each value 20..50 occurs at exactly one index of the table. -/
theorem byte_98D6E0_lookup_in_range (edges r : Nat) (he : edges < 256) (hr : r < 4) :
    byte_98D6E0.length = 256 ∧
    path_rotate_perimeter edges r < byte_98D6E0.length ∧
    (byte_98D6E0.getD (path_rotate_perimeter edges r) 0 < 16 ∨
      (20 ≤ byte_98D6E0.getD (path_rotate_perimeter edges r) 0 ∧
        byte_98D6E0.getD (path_rotate_perimeter edges r) 0 ≤ 50)) ∧
    (∀ v, 20 ≤ v → v ≤ 50 → byte_98D6E0.count v = 1) :=
  ⟨byte_98D6E0_length, (byte_98D6E0_value_table edges he r hr).1,
    (byte_98D6E0_value_table edges he r hr).2,
    fun v h20 h50 => byte_98D6E0_count_table v (by omega) h20⟩

theorem byte_98D6E0_lookup_in_range_witness :
    path_rotate_perimeter 0x3F 1 < byte_98D6E0.length ∧
    byte_98D6E0.count 20 = 1 :=
  ⟨(byte_98D6E0_lookup_in_range 0x3F 1 (by decide) (by decide)).2.1,
    (byte_98D6E0_lookup_in_range 0x3F 1 (by decide) (by decide)).2.2.2 20 (by decide)
      (by decide)⟩

/-- C29, as stated, fails: for the byte 1 (edge 0 alone) and rotation 1,
`path_rotate_perimeter` gives 2 (edge 1) while the low byte of
`paint_util_rotate_segments` is 4. -/
theorem perimeter_rotation_is_not_segment_rotation :
    path_rotate_perimeter 1 1 = 2 ∧ paint_util_rotate_segments 1 1 &&& 0xFF = 4 := by
  decide

set_option maxRecDepth 100000 in
theorem perimeter_to_segments_table :
    ∀ b < 256, ∀ r < 4,
      path_rotate_perimeter b 0 = paint_util_rotate_segments b 0 &&& 0xFF ∧
      paint_util_rotate_segments (perimeter_to_segments b) r &&& 0xFF
        = perimeter_to_segments (path_rotate_perimeter b r) := by
  decide

/-- C29, amended: for every byte `b`, `path_rotate_perimeter(b, 0)` equals the low byte of
`paint_util_rotate_segments(b, 0)`, and for every rotation `r` in 0..3 the two rotations
correspond under the relabelling of perimeter bits as segment bits: the low byte of
`paint_util_rotate_segments(perimeter_to_segments(b), r)` is
`perimeter_to_segments(path_rotate_perimeter(b, r))`. -/
theorem perimeter_rotation_matches_segments (b r : Nat) (hb : b < 256) (hr : r < 4) :
    path_rotate_perimeter b 0 = paint_util_rotate_segments b 0 &&& 0xFF ∧
    paint_util_rotate_segments (perimeter_to_segments b) r &&& 0xFF
      = perimeter_to_segments (path_rotate_perimeter b r) :=
  perimeter_to_segments_table b hb r hr

theorem perimeter_rotation_matches_segments_witness :
    paint_util_rotate_segments (perimeter_to_segments 1) 1 &&& 0xFF
      = perimeter_to_segments (path_rotate_perimeter 1 1) ∧
    perimeter_to_segments 1 = SEGMENT_CC ∧
    perimeter_to_segments (path_rotate_perimeter 1 1) = SEGMENT_D4 :=
  ⟨(perimeter_rotation_matches_segments 1 1 (by decide) (by decide)).2, by decide, by decide⟩

theorem and_four_cases (n : Nat) : n &&& 4 = 0 ∨ n &&& 4 = 4 := by
  have h7 : n % 8 = n &&& 7 := (Nat.and_pow_two_sub_one_eq_mod n 3).symm
  have h : n &&& 4 = (n % 8) &&& 4 := by
    have e : (7 &&& 4 : Nat) = 4 := by decide
    rw [h7, Nat.and_assoc, e]
  rw [h]
  have hlt : n % 8 < 8 := Nat.mod_lt _ (by decide)
  generalize n % 8 = m at hlt
  interval_cases m <;> decide

theorem slope_code_eq (pt rot k : Nat) (hk : k < 4) :
    ((pt + rot) &&& 0x03) ||| (pt &&& 0x04) = 4 + k
      ↔ (pt &&& 4 ≠ 0 ∧ (pt + rot) &&& 3 = k) := by
  have ha : (pt + rot) &&& 3 < 4 := Nat.lt_succ_of_le Nat.and_le_right
  generalize (pt + rot) &&& 3 = a at ha
  rcases and_four_cases pt with hb | hb
  · rw [hb]
    interval_cases a <;> interval_cases k <;> decide
  · rw [hb]
    interval_cases a <;> interval_cases k <;> decide

theorem tunnel_height_byte (x : Nat) : ((x % 65536) / 16) &&& 0xFF = (x / 16) &&& 0xFF := by
  rw [and_low_byte, and_low_byte]
  omega

theorem push_tunnel_right_mod (x t : Nat) (g : PaintState) :
    paint_util_push_tunnel_right (x % 65536) t g = paint_util_push_tunnel_right x t g := by
  unfold paint_util_push_tunnel_right
  simp only [tunnel_height_byte]

theorem push_tunnel_left_mod (x t : Nat) (g : PaintState) :
    paint_util_push_tunnel_left (x % 65536) t g = paint_util_push_tunnel_left x t g := by
  unfold paint_util_push_tunnel_left
  simp only [tunnel_height_byte]

theorem sub_6A4101_keeps (env : PathEnv) (map_element : rct_map_element) (height ebp : Nat)
    (word_F3F038 : Bool) (footpathEntry : rct_footpath_entry)
    (base_image_id imageFlags : Nat) (g : PaintState) :
    (sub_6A4101 env map_element height ebp word_F3F038 footpathEntry
        base_image_id imageFlags g).1.tunnel_right_count = g.tunnel_right_count ∧
    (sub_6A4101 env map_element height ebp word_F3F038 footpathEntry
        base_image_id imageFlags g).1.tunnel_left_count = g.tunnel_left_count ∧
    (sub_6A4101 env map_element height ebp word_F3F038 footpathEntry
        base_image_id imageFlags g).1.bytes_9E30B6 = g.bytes_9E30B6 ∧
    (sub_6A4101 env map_element height ebp word_F3F038 footpathEntry
        base_image_id imageFlags g).1.segments = g.segments ∧
    (sub_6A4101 env map_element height ebp word_F3F038 footpathEntry
        base_image_id imageFlags g).1.max_height = g.max_height ∧
    (sub_6A4101 env map_element height ebp word_F3F038 footpathEntry
        base_image_id imageFlags g).1.slope = g.slope := by
  unfold sub_6A4101
  simp only []
  split
  · split <;> exact ⟨rfl, rfl, rfl, rfl, rfl, rfl⟩
  · split
    · exact ⟨rfl, rfl, rfl, rfl, rfl, rfl⟩
    · split <;> exact ⟨rfl, rfl, rfl, rfl, rfl, rfl⟩

/-- The tunnel block of `sub_6A3F61` as its pushes: one onto the right queue when bit 1 of
`bp` is set, then one onto the left queue when bit 2 is set. -/
theorem sub_6A3F61_tunnels_pushes (env : PathEnv) (e : rct_map_element) (p h : Nat)
    (g : PaintState) :
    sub_6A3F61_tunnels env e p h g
      = (if p &&& 4 ≠ 0 then
          paint_util_push_tunnel_left
            (if footpath_element_is_sloped e ∧ (e.path_type + env.rotation) &&& 3 = 2 then
              (h + 16, TUNNEL_10)
            else if p &&& 8 ≠ 0 then (h, TUNNEL_11) else (h, TUNNEL_10)).1
            (if footpath_element_is_sloped e ∧ (e.path_type + env.rotation) &&& 3 = 2 then
              (h + 16, TUNNEL_10)
            else if p &&& 8 ≠ 0 then (h, TUNNEL_11) else (h, TUNNEL_10)).2
            (if p &&& 2 ≠ 0 then
              paint_util_push_tunnel_right
                (if footpath_element_is_sloped e ∧ (e.path_type + env.rotation) &&& 3 = 1 then
                  (h + 16, TUNNEL_10)
                else if p &&& 1 ≠ 0 then (h, TUNNEL_11) else (h, TUNNEL_10)).1
                (if footpath_element_is_sloped e ∧ (e.path_type + env.rotation) &&& 3 = 1 then
                  (h + 16, TUNNEL_10)
                else if p &&& 1 ≠ 0 then (h, TUNNEL_11) else (h, TUNNEL_10)).2 g
            else g)
        else
          (if p &&& 2 ≠ 0 then
            paint_util_push_tunnel_right
              (if footpath_element_is_sloped e ∧ (e.path_type + env.rotation) &&& 3 = 1 then
                (h + 16, TUNNEL_10)
              else if p &&& 1 ≠ 0 then (h, TUNNEL_11) else (h, TUNNEL_10)).1
              (if footpath_element_is_sloped e ∧ (e.path_type + env.rotation) &&& 3 = 1 then
                (h + 16, TUNNEL_10)
              else if p &&& 1 ≠ 0 then (h, TUNNEL_11) else (h, TUNNEL_10)).2 g
          else g)) := by
  have hs1 : (footpath_element_is_sloped e = true ∧ (e.path_type + env.rotation) &&& 3 = 1)
      ↔ ((e.path_type + env.rotation) &&& 0x03) ||| (e.path_type &&& 0x04) = 5 := by
    rw [slope_code_eq e.path_type env.rotation 1 (by decide)]
    unfold footpath_element_is_sloped
    simp
  have hs2 : (footpath_element_is_sloped e = true ∧ (e.path_type + env.rotation) &&& 3 = 2)
      ↔ ((e.path_type + env.rotation) &&& 0x03) ||| (e.path_type &&& 0x04) = 6 := by
    rw [slope_code_eq e.path_type env.rotation 2 (by decide)]
    unfold footpath_element_is_sloped
    simp
  have hright : (if p &&& 2 ≠ 0 then
        if ((e.path_type + env.rotation) &&& 0x03) ||| (e.path_type &&& 0x04) = 5 then
          paint_util_push_tunnel_right ((h + 16) % 65536) TUNNEL_10 g
        else if p &&& 1 ≠ 0 then paint_util_push_tunnel_right h TUNNEL_11 g
        else paint_util_push_tunnel_right h TUNNEL_10 g
      else g)
      = (if p &&& 2 ≠ 0 then
          paint_util_push_tunnel_right
            (if footpath_element_is_sloped e ∧ (e.path_type + env.rotation) &&& 3 = 1 then
              (h + 16, TUNNEL_10)
            else if p &&& 1 ≠ 0 then (h, TUNNEL_11) else (h, TUNNEL_10)).1
            (if footpath_element_is_sloped e ∧ (e.path_type + env.rotation) &&& 3 = 1 then
              (h + 16, TUNNEL_10)
            else if p &&& 1 ≠ 0 then (h, TUNNEL_11) else (h, TUNNEL_10)).2 g
        else g) := by
    by_cases h2 : p &&& 2 ≠ 0
    · rw [if_pos h2, if_pos h2]
      by_cases h5 : ((e.path_type + env.rotation) &&& 0x03) ||| (e.path_type &&& 0x04) = 5
      · rw [if_pos h5, if_pos (hs1.2 h5), push_tunnel_right_mod]
      · rw [if_neg h5, if_neg (fun hc => h5 (hs1.1 hc))]
        by_cases h1 : p &&& 1 ≠ 0
        · rw [if_pos h1, if_pos h1]
        · rw [if_neg h1, if_neg h1]
    · rw [if_neg h2, if_neg h2]
  unfold sub_6A3F61_tunnels
  simp only []
  rw [hright]
  by_cases h4 : p &&& 4 = 0
  · rw [if_pos h4, if_neg (not_not.2 h4)]
  · rw [if_neg h4, if_pos h4]
    by_cases h6 : ((e.path_type + env.rotation) &&& 0x03) ||| (e.path_type &&& 0x04) = 6
    · rw [if_pos h6, if_pos (hs2.2 h6), push_tunnel_left_mod]
    · rw [if_neg h6, if_neg (fun hc => h6 (hs2.1 hc))]
      by_cases h8 : p &&& 8 ≠ 0
      · rw [if_pos h8, if_pos h8]
      · rw [if_neg h8, if_neg h8]

theorem sub_6A3F61_tunnels_keeps (env : PathEnv) (e : rct_map_element) (p h : Nat)
    (g : PaintState) :
    (sub_6A3F61_tunnels env e p h g).segments = g.segments ∧
    (sub_6A3F61_tunnels env e p h g).max_height = g.max_height ∧
    (sub_6A3F61_tunnels env e p h g).slope = g.slope := by
  rw [sub_6A3F61_tunnels_pushes]
  by_cases h4 : p &&& 4 ≠ 0
  · rw [if_pos h4]
    by_cases h2 : p &&& 2 ≠ 0
    · rw [if_pos h2]
      exact ⟨rfl, rfl, rfl⟩
    · rw [if_neg h2]
      exact ⟨rfl, rfl, rfl⟩
  · rw [if_neg h4]
    by_cases h2 : p &&& 2 ≠ 0
    · rw [if_pos h2]
      exact ⟨rfl, rfl, rfl⟩
    · rw [if_neg h2]
      exact ⟨rfl, rfl, rfl⟩

theorem sub_6A3F61_state (env : PathEnv) (e : rct_map_element) (p h : Nat)
    (entry : rct_footpath_entry) (imageFlags sceneryImageFlags : Nat) (fences : Bool)
    (g : PaintState) :
    ∃ g1, (sub_6A3F61 env e p h entry imageFlags sceneryImageFlags fences g).1
        = sub_6A3F61_tunnels env e p h g1 ∧
      g1.tunnel_right_count = g.tunnel_right_count ∧
      g1.tunnel_left_count = g.tunnel_left_count ∧
      g1.bytes_9E30B6 = g.bytes_9E30B6 ∧
      g1.segments = g.segments ∧ g1.max_height = g.max_height ∧ g1.slope = g.slope := by
  refine ⟨_, rfl, ?_⟩
  by_cases hz : env.zoom_level ≤ 1
  · rw [if_pos hz]
    simp only []
    have k := fun g0 => sub_6A4101_keeps env e h p fences entry (entry.image ||| imageFlags)
      imageFlags g0
    refine ⟨(k _).1.trans ?_, (k _).2.1.trans ?_, (k _).2.2.1.trans ?_, (k _).2.2.2.1.trans ?_,
      (k _).2.2.2.2.1.trans ?_, (k _).2.2.2.2.2.trans ?_⟩ <;> (split <;> rfl)
  · rw [if_neg hz]
    exact ⟨rfl, rfl, rfl, rfl, rfl, rfl⟩

theorem sub_6A3F61_keeps (env : PathEnv) (e : rct_map_element) (p h : Nat)
    (entry : rct_footpath_entry) (imageFlags sceneryImageFlags : Nat) (fences : Bool)
    (g : PaintState) :
    (sub_6A3F61 env e p h entry imageFlags sceneryImageFlags fences g).1.segments
      = g.segments ∧
    (sub_6A3F61 env e p h entry imageFlags sceneryImageFlags fences g).1.max_height
      = g.max_height ∧
    (sub_6A3F61 env e p h entry imageFlags sceneryImageFlags fences g).1.slope = g.slope := by
  obtain ⟨g1, e1, _, _, _, hs, hm, hsl⟩ := sub_6A3F61_state env e p h entry imageFlags
    sceneryImageFlags fences g
  obtain ⟨k1, k2, k3⟩ := sub_6A3F61_tunnels_keeps env e p h g1
  rw [e1, k1, k2, k3]
  exact ⟨hs, hm, hsl⟩

set_option maxRecDepth 100000 in
theorem tunnel_word_bytes :
    ∀ b < 256,
      ((0xFFFF0000 ||| b ||| (TUNNEL_10 <<< 8)) % 256 = b ∧
        ((0xFFFF0000 ||| b ||| (TUNNEL_10 <<< 8)) >>> 8) % 256 = TUNNEL_10 ∧
        ((0xFFFF0000 ||| b ||| (TUNNEL_10 <<< 8)) >>> 16) % 256 = 0xFF ∧
        ((0xFFFF0000 ||| b ||| (TUNNEL_10 <<< 8)) >>> 24) % 256 = 0xFF) ∧
      ((0xFFFF0000 ||| b ||| (TUNNEL_11 <<< 8)) % 256 = b ∧
        ((0xFFFF0000 ||| b ||| (TUNNEL_11 <<< 8)) >>> 8) % 256 = TUNNEL_11 ∧
        ((0xFFFF0000 ||| b ||| (TUNNEL_11 <<< 8)) >>> 16) % 256 = 0xFF ∧
        ((0xFFFF0000 ||| b ||| (TUNNEL_11 <<< 8)) >>> 24) % 256 = 0xFF) := by
  decide

/-- The store of a push, byte by byte: the four bytes of the marker at the slot's offset,
every other byte as before. -/
theorem write_tunnel_entry (mem : Nat → Nat) (o : Nat) (m : Nat × Nat)
    (ht : m.2 = TUNNEL_10 ∨ m.2 = TUNNEL_11) (a : Nat) :
    write_uint32 mem o (0xFFFF0000 ||| ((m.1 / 16) &&& 0xFF) ||| (m.2 <<< 8)) a
      = if o ≤ a ∧ a < o + 4 then (tunnel_entry_bytes m).getD (a - o) 0 else mem a := by
  have hb : (m.1 / 16) &&& 0xFF < 256 := Nat.lt_succ_of_le Nat.and_le_right
  have hbyte : (m.1 / 16) &&& 0xFF = (m.1 / 16) % 256 := and_low_byte _
  have hw := tunnel_word_bytes _ hb
  unfold write_uint32 tunnel_entry_bytes
  rcases ht with ht | ht
  · rw [ht, hw.1.1, hw.1.2.1, hw.1.2.2.1, hw.1.2.2.2, hbyte]
    by_cases h0 : a = o
    · subst h0
      simp
    · by_cases h1 : a = o + 1
      · subst h1
        simp
      · by_cases h2 : a = o + 2
        · subst h2
          simp
        · by_cases h3 : a = o + 3
          · subst h3
            simp
          · have hn : ¬ (o ≤ a ∧ a < o + 4) := by omega
            simp only [h0, h1, h2, h3, if_false, hn]
  · rw [ht, hw.2.1, hw.2.2.1, hw.2.2.2.1, hw.2.2.2.2, hbyte]
    by_cases h0 : a = o
    · subst h0
      simp
    · by_cases h1 : a = o + 1
      · subst h1
        simp
      · by_cases h2 : a = o + 2
        · subst h2
          simp
        · by_cases h3 : a = o + 3
          · subst h3
            simp
          · have hn : ¬ (o ≤ a ∧ a < o + 4) := by omega
            simp only [h0, h1, h2, h3, if_false, hn]

theorem tunnel_marker_type (c d : Prop) [Decidable c] [Decidable d] (h : Nat) :
    (if c then (h + 16, TUNNEL_10) else if d then (h, TUNNEL_11) else (h, TUNNEL_10)).2
        = TUNNEL_10 ∨
    (if c then (h + 16, TUNNEL_10) else if d then (h, TUNNEL_11) else (h, TUNNEL_10)).2
        = TUNNEL_11 := by
  by_cases hc : c
  · rw [if_pos hc]
    exact Or.inl rfl
  · rw [if_neg hc]
    by_cases hd : d
    · rw [if_pos hd]
      exact Or.inr rfl
    · rw [if_neg hd]
      exact Or.inl rfl

theorem push_tunnel_right_effect (m : Nat × Nat) (ht : m.2 = TUNNEL_10 ∨ m.2 = TUNNEL_11)
    (g : PaintState) :
    (paint_util_push_tunnel_right m.1 m.2 g).tunnel_right_count
      = (g.tunnel_right_count + 1) % 256 ∧
    (paint_util_push_tunnel_right m.1 m.2 g).tunnel_left_count = g.tunnel_left_count ∧
    ∀ a, (paint_util_push_tunnel_right m.1 m.2 g).bytes_9E30B6 a
      = if 4 * (g.tunnel_right_count / 2) ≤ a ∧ a < 4 * (g.tunnel_right_count / 2) + 4 then
          (tunnel_entry_bytes m).getD (a - 4 * (g.tunnel_right_count / 2)) 0
        else g.bytes_9E30B6 a :=
  ⟨rfl, rfl, fun a => write_tunnel_entry g.bytes_9E30B6 _ m ht a⟩

theorem push_tunnel_left_effect (m : Nat × Nat) (ht : m.2 = TUNNEL_10 ∨ m.2 = TUNNEL_11)
    (g : PaintState) :
    (paint_util_push_tunnel_left m.1 m.2 g).tunnel_left_count
      = (g.tunnel_left_count + 1) % 256 ∧
    (paint_util_push_tunnel_left m.1 m.2 g).tunnel_right_count = g.tunnel_right_count ∧
    ∀ a, (paint_util_push_tunnel_left m.1 m.2 g).bytes_9E30B6 a
      = if 130 + 4 * (g.tunnel_left_count / 2) ≤ a ∧
            a < 130 + 4 * (g.tunnel_left_count / 2) + 4 then
          (tunnel_entry_bytes m).getD (a - (130 + 4 * (g.tunnel_left_count / 2))) 0
        else g.bytes_9E30B6 a :=
  ⟨rfl, rfl, fun a => write_tunnel_entry g.bytes_9E30B6 _ m ht a⟩

/-- C26: for every path element, height `h` and rotated perimeter `p`, `sub_6A3F61` makes
one push onto the right tunnel queue when bit 1 of `p` is set and none when it is not, then
one push onto the left tunnel queue when bit 2 of `p` is set and none when it is not, and
writes nothing else to the counters and the queue memory: the right counter is incremented
(as a `uint8`) exactly for bit 1 and the left counter exactly for bit 2, and every byte from
`0x9E30B6` on is as on entry except the four bytes of each pushed entry at its slot (right:
offset `4 * (counter / 2)`; left: offset `130 + 4 * (counter / 2)`, written last), which
hold the byte pair `((height / 16) & 0xFF, type)` of the marker and the terminator
`0xFFFF`.  The right marker is `(h + 16, TUNNEL_10)` for a path sloped towards rotated
direction 1, otherwise `(h, TUNNEL_11)` when bit 0 of `p` is set and `(h, TUNNEL_10)` when
not; the left marker is `(h + 16, TUNNEL_10)` for a path sloped towards rotated direction 2,
otherwise `(h, TUNNEL_11)` when bit 3 of `p` is set and `(h, TUNNEL_10)` when not. -/
theorem path_tunnel_markers (env : PathEnv) (e : rct_map_element) (p h : Nat)
    (entry : rct_footpath_entry) (imageFlags sceneryImageFlags : Nat) (fences : Bool)
    (g : PaintState) :
    (sub_6A3F61 env e p h entry imageFlags sceneryImageFlags fences g).1.tunnel_right_count
      = (if p &&& 2 ≠ 0 then (g.tunnel_right_count + 1) % 256 else g.tunnel_right_count) ∧
    (sub_6A3F61 env e p h entry imageFlags sceneryImageFlags fences g).1.tunnel_left_count
      = (if p &&& 4 ≠ 0 then (g.tunnel_left_count + 1) % 256 else g.tunnel_left_count) ∧
    ∀ a, (sub_6A3F61 env e p h entry imageFlags sceneryImageFlags fences g).1.bytes_9E30B6 a
      = if p &&& 4 ≠ 0 ∧ 130 + 4 * (g.tunnel_left_count / 2) ≤ a ∧
            a < 130 + 4 * (g.tunnel_left_count / 2) + 4 then
          (tunnel_entry_bytes
            (if footpath_element_is_sloped e ∧ (e.path_type + env.rotation) &&& 3 = 2 then
              (h + 16, TUNNEL_10)
            else if p &&& 8 ≠ 0 then (h, TUNNEL_11) else (h, TUNNEL_10))).getD
            (a - (130 + 4 * (g.tunnel_left_count / 2))) 0
        else if p &&& 2 ≠ 0 ∧ 4 * (g.tunnel_right_count / 2) ≤ a ∧
            a < 4 * (g.tunnel_right_count / 2) + 4 then
          (tunnel_entry_bytes
            (if footpath_element_is_sloped e ∧ (e.path_type + env.rotation) &&& 3 = 1 then
              (h + 16, TUNNEL_10)
            else if p &&& 1 ≠ 0 then (h, TUNNEL_11) else (h, TUNNEL_10))).getD
            (a - 4 * (g.tunnel_right_count / 2)) 0
        else g.bytes_9E30B6 a := by
  obtain ⟨g1, e1, hrc, hlc, hb, _, _, _⟩ := sub_6A3F61_state env e p h entry imageFlags
    sceneryImageFlags fences g
  rw [e1, sub_6A3F61_tunnels_pushes]
  have htr := tunnel_marker_type
    (footpath_element_is_sloped e = true ∧ (e.path_type + env.rotation) &&& 3 = 1)
    (p &&& 1 ≠ 0) h
  have htl := tunnel_marker_type
    (footpath_element_is_sloped e = true ∧ (e.path_type + env.rotation) &&& 3 = 2)
    (p &&& 8 ≠ 0) h
  generalize (if footpath_element_is_sloped e = true ∧ (e.path_type + env.rotation) &&& 3 = 1
    then (h + 16, TUNNEL_10) else if p &&& 1 ≠ 0 then (h, TUNNEL_11) else (h, TUNNEL_10))
    = mr at htr ⊢
  generalize (if footpath_element_is_sloped e = true ∧ (e.path_type + env.rotation) &&& 3 = 2
    then (h + 16, TUNNEL_10) else if p &&& 8 ≠ 0 then (h, TUNNEL_11) else (h, TUNNEL_10))
    = ml at htl ⊢
  obtain ⟨r1, r2, r3⟩ := push_tunnel_right_effect mr htr g1
  by_cases h4 : p &&& 4 ≠ 0
  · by_cases h2 : p &&& 2 ≠ 0
    · obtain ⟨l1, l2, l3⟩ := push_tunnel_left_effect ml htl
        (paint_util_push_tunnel_right mr.1 mr.2 g1)
      rw [if_pos h4, if_pos h2, if_pos h4, if_pos h2, l1, l2, r1, r2, hrc, hlc]
      refine ⟨rfl, rfl, fun a => ?_⟩
      rw [l3 a, r2, r3 a, hrc, hlc, hb]
      simp [h4, h2]
    · obtain ⟨l1, l2, l3⟩ := push_tunnel_left_effect ml htl g1
      rw [if_pos h4, if_neg h2, if_pos h4, if_neg h2, l1, l2, hrc, hlc]
      refine ⟨rfl, rfl, fun a => ?_⟩
      rw [l3 a, hlc, hb]
      simp [h4, h2]
  · by_cases h2 : p &&& 2 ≠ 0
    · rw [if_neg h4, if_pos h2, if_neg h4, if_pos h2, r1, r2, hrc, hlc]
      refine ⟨rfl, rfl, fun a => ?_⟩
      rw [r3 a, hrc, hb]
      simp [h4, h2]
    · rw [if_neg h4, if_neg h2, if_neg h4, if_neg h2, hrc, hlc, hb]
      refine ⟨rfl, rfl, fun a => ?_⟩
      simp [h4, h2]

theorem path_tunnel_markers_witness :
    (sub_6A3F61 sample_path_env (sample_path 0x0E) 0x0E 32 {} 0 0 false
      zero_state).1.tunnel_right_count = 1 ∧
    (sub_6A3F61 sample_path_env (sample_path 0x0E) 0x0E 32 {} 0 0 false
      zero_state).1.tunnel_left_count = 1 ∧
    (sub_6A3F61 sample_path_env (sample_path 0x0E) 0x0E 32 {} 0 0 false
      zero_state).1.bytes_9E30B6 0 = 2 ∧
    (sub_6A3F61 sample_path_env (sample_path 0x0E) 0x0E 32 {} 0 0 false
      zero_state).1.bytes_9E30B6 1 = TUNNEL_10 ∧
    (sub_6A3F61 sample_path_env (sample_path 0x0E) 0x0E 32 {} 0 0 false
      zero_state).1.bytes_9E30B6 130 = 2 ∧
    (sub_6A3F61 sample_path_env (sample_path 0x0E) 0x0E 32 {} 0 0 false
      zero_state).1.bytes_9E30B6 131 = TUNNEL_11 ∧
    (sub_6A3F61 sample_path_env (sample_sloped_path 0x04) 0x04 32 {} 0 0 false
      zero_state).1.bytes_9E30B6 130 = 3 ∧
    (sub_6A3F61 sample_path_env (sample_sloped_path 0x04) 0x04 32 {} 0 0 false
      zero_state).1.bytes_9E30B6 131 = TUNNEL_10 ∧
    (sub_6A3F61 sample_path_env (sample_sloped_path 0x04) 0x04 32 {} 0 0 false
      zero_state).1.tunnel_right_count = 0 := by
  have h := path_tunnel_markers sample_path_env (sample_path 0x0E) 0x0E 32 {} 0 0 false
    zero_state
  have k := path_tunnel_markers sample_path_env (sample_sloped_path 0x04) 0x04 32 {} 0 0 false
    zero_state
  exact ⟨h.1.trans (by decide), h.2.1.trans (by decide), (h.2.2 0).trans (by decide),
    (h.2.2 1).trans (by decide), (h.2.2 130).trans (by decide), (h.2.2 131).trans (by decide),
    (k.2.2 130).trans (by decide), (k.2.2 131).trans (by decide), k.1.trans (by decide)⟩

theorem set_general_support_height_effect (height : Int) (slope : Nat) (g : PaintState) :
    (paint_util_set_general_support_height height slope g).max_height
      = max g.max_height height ∧
    (paint_util_set_general_support_height height slope g).slope
      = (if g.max_height ≥ height then g.slope else slope) := by
  unfold paint_util_set_general_support_height paint_util_force_set_general_support_height
  by_cases hc : g.max_height ≥ height
  · rw [if_pos hc, if_pos hc]
    exact ⟨(max_eq_left hc).symm, rfl⟩
  · rw [if_neg hc, if_neg hc]
    exact ⟨(max_eq_right (le_of_lt (lt_of_not_ge hc))).symm, rfl⟩

theorem loc_6A37C9_segments_slope (env : PathEnv) (mapElement : rct_map_element)
    (hasFences : Bool) (g : PaintState) :
    (loc_6A37C9_segments env mapElement hasFences g).slope = g.slope := by
  unfold loc_6A37C9_segments
  simp only []
  split
  · rfl
  · split <;> rfl

theorem loc_6A37C9_supports_general (env : PathEnv) (e : rct_map_element) (height : Int)
    (entry : rct_footpath_entry) (imageFlags : Nat) (g : PaintState)
    (ha : ∀ a b c d f g1,
      (env.path_a_supports_paint_setup a b c d f g1).1.max_height = g1.max_height ∧
      (env.path_a_supports_paint_setup a b c d f g1).1.slope = g1.slope)
    (hb : ∀ a b c d g1,
      (env.path_b_supports_paint_setup a b c d g1).1.max_height = g1.max_height ∧
      (env.path_b_supports_paint_setup a b c d g1).1.slope = g1.slope) :
    (entry.var_0A = 0 →
      (loc_6A37C9_supports env e height entry imageFlags g).1.max_height
        = max g.max_height (loc_6A37C9_support_height e height) ∧
      (loc_6A37C9_supports env e height entry imageFlags g).1.slope
        = (if g.max_height ≥ loc_6A37C9_support_height e height then g.slope else 0x20)) ∧
    (entry.var_0A ≠ 0 →
      (loc_6A37C9_supports env e height entry imageFlags g).1.max_height = g.max_height ∧
      (loc_6A37C9_supports env e height entry imageFlags g).1.slope = g.slope) := by
  unfold loc_6A37C9_supports
  simp only []
  refine ⟨fun h0 => ?_, fun h0 => ?_⟩
  · rw [if_pos h0]
    obtain ⟨k1, k2⟩ := set_general_support_height_effect (loc_6A37C9_support_height e height)
      0x20 (env.path_a_supports_paint_setup
        (byte_98D8A4.getD (path_rotate_perimeter e.path_edges env.rotation &&& 0xF) 0)
        (if footpath_element_is_sloped e then
          (if entry.var_0A = 0 then ((e.path_type + env.rotation) &&& 3) + 1 else 8)
        else 0)
        height imageFlags entry g).1
    rw [(ha _ _ _ _ _ _).1] at k1 k2
    rw [(ha _ _ _ _ _ _).2] at k2
    exact ⟨k1, k2⟩
  · rw [if_neg h0]
    have step : ∀ (l : List Nat) (acc : PaintState × List DrawCommand)
        (f : PaintState × List DrawCommand → Nat → PaintState × List DrawCommand),
        (∀ a i, (f a i).1.max_height = a.1.max_height ∧ (f a i).1.slope = a.1.slope) →
        (l.foldl f acc).1.max_height = acc.1.max_height ∧
        (l.foldl f acc).1.slope = acc.1.slope := by
      intro l
      induction l with
      | nil => intro acc f _; exact ⟨rfl, rfl⟩
      | cons i l ih =>
        intro acc f hf
        rw [List.foldl_cons, (ih _ f hf).1, (ih _ f hf).2]
        exact hf acc i
    apply step
    intro a i
    split
    · exact hb _ _ _ _ _
    · exact ⟨rfl, rfl⟩

/-- C19: for a path element painted by `loc_6A37C9` at height `h` (a height as `path_paint`
passes it, with `h + 48` within `sint16`), the last call of
`paint_util_set_general_support_height` is made with the candidate `h + 32` for a flat path
and `h + 48` for a sloped one and with slope code `0x20`, on the state the support posts
leave; the general support height after `loc_6A37C9` is the larger of that state's height
and the candidate, so at least the candidate, and the slope code is `0x20` when the
candidate was the larger and that state's slope otherwise; the sloped candidate is 16 above
the flat one; and when the support post painters leave the general support height and its
slope alone, the height after `loc_6A37C9` is the larger of the height on entry and the
candidate, with slope code `0x20` exactly when the candidate was the larger. -/
theorem path_raises_general_support_height (env : PathEnv) (e : rct_map_element) (h : Nat)
    (entry : rct_footpath_entry) (hasFences : Bool) (imageFlags sceneryImageFlags : Nat)
    (g : PaintState) (hh : (h : Int) + 48 ≤ 32767) :
    loc_6A37C9_supported env e h entry hasFences imageFlags sceneryImageFlags g
      = (paint_util_set_general_support_height
          (if footpath_element_is_sloped e then (h : Int) + 48 else (h : Int) + 32) 0x20
          (loc_6A37C9_posts env e h entry hasFences imageFlags sceneryImageFlags g).1,
        (loc_6A37C9_posts env e h entry hasFences imageFlags sceneryImageFlags g).2) ∧
    (loc_6A37C9 env e h entry hasFences imageFlags sceneryImageFlags g).1.max_height
      = max (loc_6A37C9_posts env e h entry hasFences imageFlags sceneryImageFlags
          g).1.max_height
        (if footpath_element_is_sloped e then (h : Int) + 48 else (h : Int) + 32) ∧
    (loc_6A37C9 env e h entry hasFences imageFlags sceneryImageFlags g).1.slope
      = (if (loc_6A37C9_posts env e h entry hasFences imageFlags sceneryImageFlags
            g).1.max_height
          ≥ (if footpath_element_is_sloped e then (h : Int) + 48 else (h : Int) + 32)
        then (loc_6A37C9_posts env e h entry hasFences imageFlags sceneryImageFlags g).1.slope
        else 0x20) ∧
    (if footpath_element_is_sloped e then (h : Int) + 48 else (h : Int) + 32)
      ≤ (loc_6A37C9 env e h entry hasFences imageFlags sceneryImageFlags g).1.max_height ∧
    (∀ e1 e2 : rct_map_element, footpath_element_is_sloped e1 = true →
      footpath_element_is_sloped e2 = false →
      loc_6A37C9_support_height e1 h = loc_6A37C9_support_height e2 h + 16) ∧
    ((∀ a b c d f g1,
        (env.path_a_supports_paint_setup a b c d f g1).1.max_height = g1.max_height ∧
        (env.path_a_supports_paint_setup a b c d f g1).1.slope = g1.slope) →
      (∀ a b c d g1,
        (env.path_b_supports_paint_setup a b c d g1).1.max_height = g1.max_height ∧
        (env.path_b_supports_paint_setup a b c d g1).1.slope = g1.slope) →
      (loc_6A37C9 env e h entry hasFences imageFlags sceneryImageFlags g).1.max_height
        = max g.max_height
          (if footpath_element_is_sloped e then (h : Int) + 48 else (h : Int) + 32) ∧
      (loc_6A37C9 env e h entry hasFences imageFlags sceneryImageFlags g).1.slope
        = (if g.max_height
            ≥ (if footpath_element_is_sloped e then (h : Int) + 48 else (h : Int) + 32)
          then g.slope else 0x20)) := by
  have hcand : ∀ e0 : rct_map_element, loc_6A37C9_support_height e0 h
      = (if footpath_element_is_sloped e0 then (h : Int) + 48 else (h : Int) + 32) := by
    intro e0
    unfold loc_6A37C9_support_height to_sint16
    simp only []
    split <;> omega
  have hcall : loc_6A37C9_supported env e h entry hasFences imageFlags sceneryImageFlags g
      = (paint_util_set_general_support_height
          (if footpath_element_is_sloped e then (h : Int) + 48 else (h : Int) + 32) 0x20
          (loc_6A37C9_posts env e h entry hasFences imageFlags sceneryImageFlags g).1,
        (loc_6A37C9_posts env e h entry hasFences imageFlags sceneryImageFlags g).2) := by
    rw [← hcand e]
    rfl
  obtain ⟨k1, k2⟩ := set_general_support_height_effect
    (if footpath_element_is_sloped e then (h : Int) + 48 else (h : Int) + 32) 0x20
    (loc_6A37C9_posts env e h entry hasFences imageFlags sceneryImageFlags g).1
  have hmax : (loc_6A37C9 env e h entry hasFences imageFlags sceneryImageFlags g).1.max_height
      = max (loc_6A37C9_posts env e h entry hasFences imageFlags sceneryImageFlags
          g).1.max_height
        (if footpath_element_is_sloped e then (h : Int) + 48 else (h : Int) + 32) := by
    unfold loc_6A37C9
    rw [loc_6A37C9_segments_max_height, hcall]
    exact k1
  have hslope : (loc_6A37C9 env e h entry hasFences imageFlags sceneryImageFlags g).1.slope
      = (if (loc_6A37C9_posts env e h entry hasFences imageFlags sceneryImageFlags
            g).1.max_height
          ≥ (if footpath_element_is_sloped e then (h : Int) + 48 else (h : Int) + 32)
        then (loc_6A37C9_posts env e h entry hasFences imageFlags sceneryImageFlags g).1.slope
        else 0x20) := by
    unfold loc_6A37C9
    rw [loc_6A37C9_segments_slope, hcall]
    exact k2
  refine ⟨hcall, hmax, hslope, ?_, ?_, ?_⟩
  · rw [hmax]
    exact le_max_right _ _
  · intro e1 e2 h1 h2
    rw [hcand e1, hcand e2, h1, h2]
    simp only [if_true, Bool.false_eq_true, if_false]
    omega
  · intro ha hb
    have hkeep := sub_6A3F61_keeps env e (path_rotate_perimeter e.path_edges env.rotation)
      (to_uint16 (h : Int)).toNat entry imageFlags sceneryImageFlags hasFences g
    have hposts : (entry.var_0A = 0 →
          (loc_6A37C9_posts env e h entry hasFences imageFlags sceneryImageFlags
              g).1.max_height
            = max g.max_height
              (if footpath_element_is_sloped e then (h : Int) + 48 else (h : Int) + 32) ∧
          (loc_6A37C9_posts env e h entry hasFences imageFlags sceneryImageFlags g).1.slope
            = (if g.max_height
                ≥ (if footpath_element_is_sloped e then (h : Int) + 48 else (h : Int) + 32)
              then g.slope else 0x20)) ∧
        (entry.var_0A ≠ 0 →
          (loc_6A37C9_posts env e h entry hasFences imageFlags sceneryImageFlags
              g).1.max_height = g.max_height ∧
          (loc_6A37C9_posts env e h entry hasFences imageFlags sceneryImageFlags g).1.slope
            = g.slope) := by
      unfold loc_6A37C9_posts
      simp only []
      refine ⟨fun h0 => ?_, fun h0 => ?_⟩
      · have hs := (loc_6A37C9_supports_general env e h entry imageFlags
          (if entry.var_0A ≠ 0 then
            { (sub_6A3F61 env e (path_rotate_perimeter e.path_edges env.rotation)
                (to_uint16 (h : Int)).toNat entry imageFlags sceneryImageFlags hasFences
                g).1 with ptr_F3EF6C := some entry }
          else (sub_6A3F61 env e (path_rotate_perimeter e.path_edges env.rotation)
            (to_uint16 (h : Int)).toNat entry imageFlags sceneryImageFlags hasFences g).1)
          ha hb).1 h0
        rw [hcand e] at hs
        rw [hs.1, hs.2, if_neg (not_not.2 h0), hkeep.2.1, hkeep.2.2]
        exact ⟨rfl, rfl⟩
      · have hs := (loc_6A37C9_supports_general env e h entry imageFlags
          (if entry.var_0A ≠ 0 then
            { (sub_6A3F61 env e (path_rotate_perimeter e.path_edges env.rotation)
                (to_uint16 (h : Int)).toNat entry imageFlags sceneryImageFlags hasFences
                g).1 with ptr_F3EF6C := some entry }
          else (sub_6A3F61 env e (path_rotate_perimeter e.path_edges env.rotation)
            (to_uint16 (h : Int)).toNat entry imageFlags sceneryImageFlags hasFences g).1)
          ha hb).2 h0
        rw [hs.1, hs.2, if_pos h0]
        exact ⟨hkeep.2.1, hkeep.2.2⟩
    rw [hmax, hslope]
    by_cases h0 : entry.var_0A = 0
    · rw [(hposts.1 h0).1, (hposts.1 h0).2]
      refine ⟨by simp, ?_⟩
      rw [if_pos (le_max_right _ _)]
    · rw [(hposts.2 h0).1, (hposts.2 h0).2]
      exact ⟨rfl, rfl⟩

theorem path_raises_general_support_height_witness :
    (loc_6A37C9 sample_path_env (sample_path 0x0F) (16 : Nat) {} false 0 0
      zero_state).1.max_height = 48 ∧
    (loc_6A37C9 sample_path_env (sample_path 0x0F) (16 : Nat) {} false 0 0
      zero_state).1.slope = 0x20 ∧
    (loc_6A37C9 sample_path_env (sample_sloped_path 0x0F) (16 : Nat) {} false 0 0
      zero_state).1.max_height = 64 := by
  have h := path_raises_general_support_height sample_path_env (sample_path 0x0F) 16 {}
    false 0 0 zero_state (by decide)
  have k := path_raises_general_support_height sample_path_env (sample_sloped_path 0x0F) 16 {}
    false 0 0 zero_state (by decide)
  exact ⟨h.2.1.trans (by decide), h.2.2.1.trans (by decide), k.2.1.trans (by decide)⟩

/-! ## Claims on the tunnel queues, the marker block and the viewport test -/

/-- C21 fails on the code at two pushes: from the state the head of `sub_68B3FB` leaves, one
push of `(16, TUNNEL_10)` gives the queue bytes `1, 10, 0xFF, 0xFF` and counter 1 as the
claim says, but a second push of `(32, TUNNEL_11)` is stored into the same `uint32` slot
(index `1 / 2 = 0`): the queue then holds `2, 11, 0xFF, 0xFF`, the first marker is lost,
and the counter is 2, where the claim asks for `1, 10, 2, 11, 0xFF, 0xFF`; the right queue
behaves the same. -/
theorem tunnel_push_overwrites_previous :
    tile_reset_state.tunnel_left_count = 0 ∧ tile_reset_state.tunnel_right_count = 0 ∧
    (List.range 4).map (push_tunnels_left [(16, TUNNEL_10)] tile_reset_state).tunnels_left
      = tunnel_queue_bytes [(16, TUNNEL_10)] ∧
    (push_tunnels_left [(16, TUNNEL_10), (32, TUNNEL_11)] tile_reset_state).tunnel_left_count
      = 2 ∧
    (List.range 6).map
        (push_tunnels_left [(16, TUNNEL_10), (32, TUNNEL_11)] tile_reset_state).tunnels_left
      = [2, 11, 0xFF, 0xFF, 0, 0] ∧
    tunnel_queue_bytes [(16, TUNNEL_10), (32, TUNNEL_11)] = [1, 10, 2, 11, 0xFF, 0xFF] ∧
    (List.range 6).map
        (push_tunnels_right [(16, TUNNEL_10), (32, TUNNEL_11)] tile_reset_state).tunnels_right
      = [2, 11, 0xFF, 0xFF, 0, 0] := by
  decide

theorem max_clearance_scan_max (pre : List rct_map_element) (l : rct_map_element)
    (post : List rct_map_element) (m : Int)
    (hpre : ∀ e ∈ pre, map_element_is_last_for_tile e = false)
    (hl : map_element_is_last_for_tile l = true) :
    ∃ M, max_clearance_scan (pre ++ l :: post) m = some (M, l) ∧ m ≤ M ∧
      (∀ e ∈ pre ++ [l], (e.clearance_height : Int) ≤ M) ∧
      (M = m ∨ ∃ e ∈ pre ++ [l], M = (e.clearance_height : Int)) := by
  induction pre generalizing m with
  | nil =>
    simp only [List.nil_append, max_clearance_scan, hl, if_true]
    refine ⟨_, rfl, le_max_left _ _, ?_, ?_⟩
    · intro e he
      rw [List.mem_singleton] at he
      subst he
      exact le_max_right _ _
    · rcases max_choice m (l.clearance_height : Int) with h | h
      · exact Or.inl h
      · exact Or.inr ⟨l, List.mem_singleton_self _, h⟩
  | cons a pre ih =>
    have ha : map_element_is_last_for_tile a = false := hpre a (List.mem_cons_self _ _)
    simp only [List.cons_append, max_clearance_scan, ha]
    obtain ⟨M, h1, h2, h3, h4⟩ := ih (max m (a.clearance_height : Int))
      (fun e he => hpre e (List.mem_cons_of_mem _ he))
    refine ⟨M, h1, le_trans (le_max_left _ _) h2, ?_, ?_⟩
    · intro e he
      rcases List.mem_cons.1 he with he | he
      · subst he
        exact le_trans (le_max_right _ _) h2
      · exact h3 e he
    · rcases h4 with h4 | ⟨e, he, h4⟩
      · rcases max_choice m (a.clearance_height : Int) with h | h
        · exact Or.inl (h4.trans h)
        · exact Or.inr ⟨a, List.mem_cons_self _ _, h4.trans h⟩
      · exact Or.inr ⟨e, List.mem_cons_of_mem _ he, h4⟩

/-- C23, as stated, fails: on a tile whose only element is a Surface with clearance height
20 and water height field 1, the height subtracted in the below-viewport test is
`8 * (1 << 1) = 16`, less than `8 * 20`, and `sub_68B3FB` culls the tile as below a viewport
that the band of an element of clearance 20 would reach. -/
theorem water_height_replaces_clearance :
    (max_clearance_scan [sample_water_surface] 0).map sub_68B3FB_max_height = some 16 ∧
    (16 : Int) < 8 * (sample_water_surface.clearance_height : Int) ∧
    (sub_68B3FB sample_painters (sample_env_low [sample_water_surface]) 64 64
      zero_state).exit = Exit.culled_below ∧
    decide ((64 : Int) - (8 * (sample_water_surface.clearance_height : Int) + 32) - 0 < 0)
      = true := by
  decide

/-- C23, amended: for a tile stack with a last-for-tile element, the clearance scan of
`sub_68B3FB` ends at the first such element `l` with the largest clearance height `M` of
the elements up to `l`; the height subtracted in the below-viewport test is `8 * M`, unless
`l` is a Surface with a non-zero water height field, in which case it is
`8 * ((terrain & 0x1F) << 1)` whatever the clearances are.  It is therefore at least
`8 * clearance_height` of every element up to `l` when `l` is not such a Surface, or when
the doubled water height is at least `M`. -/
theorem below_viewport_height (pre : List rct_map_element) (l : rct_map_element)
    (post : List rct_map_element)
    (hpre : ∀ e ∈ pre, map_element_is_last_for_tile e = false)
    (hl : map_element_is_last_for_tile l = true) :
    ∃ M : Int, max_clearance_scan (pre ++ l :: post) 0 = some (M, l) ∧
      (∀ e ∈ pre ++ [l], (e.clearance_height : Int) ≤ M) ∧
      (M = 0 ∨ ∃ e ∈ pre ++ [l], M = (e.clearance_height : Int)) ∧
      sub_68B3FB_max_height (M, l)
        = (if map_element_get_type l = MAP_ELEMENT_TYPE_SURFACE ∧
              l.surface_terrain &&& MAP_ELEMENT_WATER_HEIGHT_MASK ≠ 0 then
            8 * (((l.surface_terrain &&& MAP_ELEMENT_WATER_HEIGHT_MASK) <<< 1 : Nat) : Int)
          else 8 * M) ∧
      ((¬ (map_element_get_type l = MAP_ELEMENT_TYPE_SURFACE ∧
            l.surface_terrain &&& MAP_ELEMENT_WATER_HEIGHT_MASK ≠ 0) ∨
          M ≤ (((l.surface_terrain &&& MAP_ELEMENT_WATER_HEIGHT_MASK) <<< 1 : Nat) : Int)) →
        ∀ e ∈ pre ++ [l],
          8 * (e.clearance_height : Int) ≤ sub_68B3FB_max_height (M, l)) := by
  obtain ⟨M, h1, _, h3, h4⟩ := max_clearance_scan_max pre l post 0 hpre hl
  have hmax : sub_68B3FB_max_height (M, l)
      = (if map_element_get_type l = MAP_ELEMENT_TYPE_SURFACE ∧
            l.surface_terrain &&& MAP_ELEMENT_WATER_HEIGHT_MASK ≠ 0 then
          8 * (((l.surface_terrain &&& MAP_ELEMENT_WATER_HEIGHT_MASK) <<< 1 : Nat) : Int)
        else 8 * M) := by
    unfold sub_68B3FB_max_height
    simp only []
    split <;> omega
  refine ⟨M, h1, h3, h4, hmax, ?_⟩
  intro hw e he
  have hle := h3 e he
  rw [hmax]
  split
  · rename_i hc
    rcases hw with hw | hw
    · exact absurd hc hw
    · omega
  · omega

theorem below_viewport_height_witness :
    (max_clearance_scan [sample_element MAP_ELEMENT_TYPE_PATH 2 false,
      sample_element MAP_ELEMENT_TYPE_TRACK 4 true] 0).map sub_68B3FB_max_height
      = some 64 := by
  obtain ⟨M, h1, h2, _, h4, _⟩ := below_viewport_height
    [sample_element MAP_ELEMENT_TYPE_PATH 2 false] (sample_element MAP_ELEMENT_TYPE_TRACK 4 true)
    [] (by decide) (by decide)
  decide

theorem dispatch_step_finished_last (P : Painters) (rotation : Nat)
    (stack : List rct_map_element) (s s1 : LoopState)
    (h : dispatch_step P rotation stack s = .finished s1) :
    ∃ e, stack[s1.i - 1]? = some e ∧ map_element_is_last_for_tile e = true := by
  cases he : stack[s.i]? with
  | none =>
    unfold dispatch_step at h
    simp only [he] at h
    exact StepResult.noConfusion h
  | some e =>
    cases hk : sub_68B3FB_switch (map_element_get_type e) with
    | painter k =>
      rw [dispatch_step_painter P rotation stack s e k he hk] at h
      by_cases hl : map_element_is_last_for_tile e = true
      · simp only [hl, if_true] at h
        injection h with h
        subst h
        exact ⟨e, he, hl⟩
      · simp only [hl] at h
        exact StepResult.noConfusion h
    | corrupt =>
      by_cases hl : map_element_is_last_for_tile e = true
      · rw [dispatch_step_corrupt_last P rotation stack s e he hk hl] at h
        exact StepResult.noConfusion h
      · unfold dispatch_step at h
        simp only [he, hk, hl] at h
        cases he1 : stack[s.i + 1]? with
        | none =>
          simp only [he1] at h
          exact StepResult.noConfusion h
        | some e1 =>
          simp only [he1] at h
          by_cases hl1 : map_element_is_last_for_tile e1 = true
          · simp only [hl1, if_true] at h
            injection h with h
            subst h
            exact ⟨e1, he1, hl1⟩
          · simp only [hl1] at h
            exact StepResult.noConfusion h
    | undefined =>
      rw [dispatch_step_undefined P rotation stack s e he hk] at h
      exact StepResult.noConfusion h

theorem dispatch_loop_finished_last (P : Painters) (rotation : Nat)
    (stack : List rct_map_element) (fuel : Nat) (s0 s : LoopState)
    (h : dispatch_loop P rotation stack fuel s0 = .finished s) :
    ∃ e, stack[s.i - 1]? = some e ∧ map_element_is_last_for_tile e = true := by
  induction fuel generalizing s0 with
  | zero => exact LoopExit.noConfusion h
  | succ fuel ih =>
    rw [dispatch_loop_succ] at h
    cases hs : dispatch_step P rotation stack s0 with
    | next s1 =>
      rw [hs] at h
      exact ih s1 h
    | finished s1 =>
      rw [hs] at h
      injection h with h
      subst h
      exact dispatch_step_finished_last P rotation stack s0 s1 hs
    | returned r =>
      rw [hs] at h
      exact LoopExit.noConfusion h

theorem support_height_markers_list (env : PaintEnv) (g : PaintState) :
    support_height_markers env g
      = [support_height_marker env g 0 0, support_height_marker env g 0 1,
         support_height_marker env g 0 2, support_height_marker env g 1 0,
         support_height_marker env g 1 1, support_height_marker env g 1 2,
         support_height_marker env g 2 0, support_height_marker env g 2 1,
         support_height_marker env g 2 2] := rfl

theorem marker_slot_table :
    ∀ y < 3, ∀ x < 3, marker_slot y x < 9 ∧
      ((segmentOffsets.getD y []).getD x 0 - 0xB4) / 4 = marker_slot y x ∧
      (segmentOffsets.getD y []).getD x 0 = 0xB4 + 4 * marker_slot y x := by
  decide

theorem marker_slot_once :
    ∀ s < 9, (((List.range 3).flatMap fun y => (List.range 3).map fun x => marker_slot y x).count
      s) = 1 := by
  decide

theorem read_segment_height_at_slot (g : PaintState) (y x : Nat) (hy : y < 3) (hx : x < 3)
    (h : marker_slot y x < 9) :
    read_segment_height_at g ((segmentOffsets.getD y []).getD x 0)
      = segment_height (g.segments ⟨marker_slot y x, h⟩) := by
  obtain ⟨_, e, _⟩ := marker_slot_table y hy x hx
  unfold read_segment_height_at
  simp only [e, h, dif_pos]

/-- C22: when the dispatch loop of `sub_68B3FB` runs to the last-for-tile element, the element
below `map_element` is that element, and the marker block appends exactly the nine marker
draw commands when `gShowSupportSegmentHeights` is set and that element is not a Surface,
and nothing otherwise; the table `segmentOffsets` names each of the nine slots of the segment
table exactly once; and the marker of a segment whose stored height is `0xFFFF` is drawn at
the general support height with colour `0b111011`, that of any other segment at the
segment's own height with colour `0b101111`. -/
theorem marker_block_spec (P : Painters) (env : PaintEnv) (stack : List rct_map_element)
    (fuel : Nat) (s0 s : LoopState)
    (hrun : dispatch_loop P env.rotation stack fuel s0 = .finished s) :
    (∃ e, stack[s.i - 1]? = some e ∧ map_element_is_last_for_tile e = true ∧
      (sub_68B3FB_finish env stack s).g = s.g ∧
      (sub_68B3FB_finish env stack s).trace
        = s.trace ++
          (if env.gShowSupportSegmentHeights = true ∧
              map_element_get_type e ≠ MAP_ELEMENT_TYPE_SURFACE then
            (support_height_markers env s.g).map Event.draw
          else [])) ∧
    (support_height_markers env s.g).length = 9 ∧
    (∀ slot < 9,
      (((List.range 3).flatMap fun y => (List.range 3).map fun x => marker_slot y x).count
        slot) = 1) ∧
    (∀ y < 3, ∀ x < 3, ∃ h : marker_slot y x < 9,
      (segmentOffsets.getD y []).getD x 0 = 0xB4 + 4 * marker_slot y x ∧
      (support_height_markers env s.g)[3 * y + x]? = some (support_height_marker env s.g y x) ∧
      (segment_height (s.g.segments ⟨marker_slot y x, h⟩) = 0xFFFF →
        (support_height_marker env s.g y x).z_offset = to_uint16 s.g.max_height ∧
        (support_height_marker env s.g y x).image_id
          = 5504 ||| ((0b111011 <<< 19) ||| 0x40000000)) ∧
      (segment_height (s.g.segments ⟨marker_slot y x, h⟩) ≠ 0xFFFF →
        (support_height_marker env s.g y x).z_offset
          = segment_height (s.g.segments ⟨marker_slot y x, h⟩) ∧
        (support_height_marker env s.g y x).image_id
          = 5504 ||| ((0b101111 <<< 19) ||| 0x40000000))) := by
  obtain ⟨e, he, hl⟩ := dispatch_loop_finished_last P env.rotation stack fuel s0 s hrun
  refine ⟨⟨e, he, hl, ?_, ?_⟩, ?_, marker_slot_once, ?_⟩
  · unfold sub_68B3FB_finish
    simp only [he]
    split
    · rfl
    · split <;> rfl
  · unfold sub_68B3FB_finish
    simp only [he]
    by_cases hshow : env.gShowSupportSegmentHeights = true
    · by_cases hsurf : map_element_get_type e = MAP_ELEMENT_TYPE_SURFACE
      · simp [hshow, hsurf]
      · simp [hshow, hsurf]
    · simp [hshow]
  · rw [support_height_markers_list]
    rfl
  · intro y hy x hx
    obtain ⟨h, _, e2⟩ := marker_slot_table y hy x hx
    have hread := read_segment_height_at_slot s.g y x hy hx h
    refine ⟨h, e2, ?_, ?_, ?_⟩
    · rw [support_height_markers_list]
      interval_cases y <;> interval_cases x <;> rfl
    · intro hf
      unfold support_height_marker
      simp only [hread, hf, if_true]
      exact ⟨trivial, trivial⟩
    · intro hf
      unfold support_height_marker
      simp only [hread, hf, if_false]
      exact ⟨trivial, trivial⟩

theorem marker_block_spec_witness :
    (support_height_markers (sample_env [sample_element 8 4 true])
      (paint_element sample_painters 0 (sample_entry [sample_element 8 4 true])
        (sample_element 8 4 true) .track_paint).g).length = 9 ∧
    ((sub_68B3FB sample_painters (sample_env [sample_element 8 4 true]) 64 64
      zero_state).trace).length = 11 :=
  ⟨(marker_block_spec sample_painters (sample_env [sample_element 8 4 true])
    [sample_element 8 4 true] 1 (sample_entry [sample_element 8 4 true])
    (paint_element sample_painters 0 (sample_entry [sample_element 8 4 true])
      (sample_element 8 4 true) .track_paint) rfl).2.1, by decide⟩

/-! ## Claims on the two entry points and on termination -/

theorem get_below_terminator (pre : List rct_map_element) (l : rct_map_element)
    (q : List rct_map_element) (i : Nat) (hi : i < pre.length)
    (hpre : ∀ e ∈ pre, map_element_is_last_for_tile e = false) :
    (pre ++ l :: q)[i]? = some (pre.get ⟨i, hi⟩) ∧
    map_element_is_last_for_tile (pre.get ⟨i, hi⟩) = false := by
  refine ⟨?_, hpre _ (List.get_mem _ _ _)⟩
  rw [List.getElem?_append_left hi, List.getElem?_eq_getElem hi]
  rfl

theorem max_clearance_scan_prefix (pre : List rct_map_element) (l : rct_map_element)
    (post post1 : List rct_map_element) (m : Int)
    (hpre : ∀ e ∈ pre, map_element_is_last_for_tile e = false)
    (hl : map_element_is_last_for_tile l = true) :
    max_clearance_scan (pre ++ l :: post) m = max_clearance_scan (pre ++ l :: post1) m := by
  induction pre generalizing m with
  | nil => simp only [List.nil_append, max_clearance_scan, hl, if_true]
  | cons a pre ih =>
    have ha : map_element_is_last_for_tile a = false := hpre a (List.mem_cons_self _ _)
    simp only [List.cons_append, max_clearance_scan, ha]
    exact ih _ (fun e he => hpre e (List.mem_cons_of_mem _ he))

/-- An iteration of the dispatch loop that starts at or below the first last-for-tile element
reads nothing above that element: it is the same whatever follows the element, it stays at
or below the element when the loop goes on, and it is no read past the end. -/
theorem dispatch_step_stops (P : Painters) (rotation : Nat) (pre : List rct_map_element)
    (l : rct_map_element) (post post1 : List rct_map_element)
    (hpre : ∀ e ∈ pre, map_element_is_last_for_tile e = false)
    (hl : map_element_is_last_for_tile l = true) (s : LoopState) (hs : s.i ≤ pre.length) :
    dispatch_step P rotation (pre ++ l :: post) s
      = dispatch_step P rotation (pre ++ l :: post1) s ∧
    (match dispatch_step P rotation (pre ++ l :: post) s with
      | .next s1 => s.i < s1.i ∧ s1.i ≤ pre.length
      | .finished s1 => s1.i = pre.length + 1
      | .returned r => r.exit ≠ .fault ∧ r.exit ≠ .out_of_fuel) := by
  rcases Nat.lt_or_eq_of_le hs with hlt | heq
  · have he : ∀ q, (pre ++ l :: q)[s.i]? = some (pre.get ⟨s.i, hlt⟩) :=
      fun q => (get_below_terminator pre l q s.i hlt hpre).1
    have hnl := (get_below_terminator pre l post s.i hlt hpre).2
    cases hk : sub_68B3FB_switch (map_element_get_type (pre.get ⟨s.i, hlt⟩)) with
    | painter k =>
      have hstep : ∀ q, dispatch_step P rotation (pre ++ l :: q) s
          = .next (paint_element P rotation s (pre.get ⟨s.i, hlt⟩) k) := by
        intro q
        rw [dispatch_step_painter P rotation _ s _ k (he q) hk]
        simp only [hnl, Bool.false_eq_true, if_false]
      rw [hstep post, hstep post1]
      exact ⟨rfl, Nat.lt_succ_self _, hlt⟩
    | corrupt =>
      rcases Nat.lt_or_eq_of_le (Nat.succ_le_of_lt hlt) with hlt1 | heq1
      · have he1 : ∀ q, (pre ++ l :: q)[s.i + 1]? = some (pre.get ⟨s.i + 1, hlt1⟩) :=
          fun q => (get_below_terminator pre l q (s.i + 1) hlt1 hpre).1
        have hnl1 := (get_below_terminator pre l post (s.i + 1) hlt1 hpre).2
        have hstep : ∀ q, dispatch_step P rotation (pre ++ l :: q) s
            = .next (skip_element s) := by
          intro q
          rw [dispatch_step_corrupt_skip P rotation _ s _ _ (he q) hk hnl (he1 q)]
          simp only [hnl1, Bool.false_eq_true, if_false]
        rw [hstep post, hstep post1]
        refine ⟨rfl, ?_, ?_⟩
        · rw [skip_element_index]
          omega
        · rw [skip_element_index]
          omega
      · have he1 : ∀ q, (pre ++ l :: q)[s.i + 1]? = some l := by
          intro q
          have h := get_append_cons pre l q
          rw [← heq1] at h
          exact h
        have hstep : ∀ q, dispatch_step P rotation (pre ++ l :: q) s
            = .finished (skip_element s) := by
          intro q
          rw [dispatch_step_corrupt_skip P rotation _ s _ _ (he q) hk hnl (he1 q)]
          simp only [hl, if_true]
        rw [hstep post, hstep post1]
        refine ⟨rfl, ?_⟩
        show (skip_element s).i = pre.length + 1
        rw [skip_element_index]
        omega
    | undefined =>
      rw [dispatch_step_undefined P rotation _ s _ (he post) hk,
        dispatch_step_undefined P rotation _ s _ (he post1) hk]
      exact ⟨rfl, by simp, by simp⟩
  · have he : ∀ q, (pre ++ l :: q)[s.i]? = some l := by
      intro q
      have h := get_append_cons pre l q
      rw [← heq] at h
      exact h
    cases hk : sub_68B3FB_switch (map_element_get_type l) with
    | painter k =>
      have hstep : ∀ q, dispatch_step P rotation (pre ++ l :: q) s
          = .finished (paint_element P rotation s l k) := by
        intro q
        rw [dispatch_step_painter P rotation _ s _ k (he q) hk]
        simp only [hl, if_true]
      rw [hstep post, hstep post1]
      refine ⟨rfl, ?_⟩
      show (paint_element P rotation s l k).i = pre.length + 1
      rw [paint_element_index]
      omega
    | corrupt =>
      rw [dispatch_step_corrupt_last P rotation _ s _ (he post) hk hl,
        dispatch_step_corrupt_last P rotation _ s _ (he post1) hk hl]
      exact ⟨rfl, by simp, by simp⟩
    | undefined =>
      rw [dispatch_step_undefined P rotation _ s _ (he post) hk,
        dispatch_step_undefined P rotation _ s _ (he post1) hk]
      exact ⟨rfl, by simp, by simp⟩

/-- From a state at or below the first last-for-tile element, the dispatch loop leaves with
any fuel that covers the elements up to it: it is the same whatever follows the element and
however much fuel is left over, and it ends past the element or by a `return`. -/
theorem dispatch_loop_stops (P : Painters) (rotation : Nat) (pre : List rct_map_element)
    (l : rct_map_element) (post post1 : List rct_map_element)
    (hpre : ∀ e ∈ pre, map_element_is_last_for_tile e = false)
    (hl : map_element_is_last_for_tile l = true) (fuel fuel1 : Nat) (s : LoopState)
    (hs : s.i ≤ pre.length) (hf : pre.length + 1 ≤ fuel + s.i)
    (hf1 : pre.length + 1 ≤ fuel1 + s.i) :
    dispatch_loop P rotation (pre ++ l :: post) fuel s
      = dispatch_loop P rotation (pre ++ l :: post1) fuel1 s ∧
    (match dispatch_loop P rotation (pre ++ l :: post) fuel s with
      | .finished s1 => s1.i = pre.length + 1
      | .returned r => r.exit ≠ .fault ∧ r.exit ≠ .out_of_fuel
      | .stalled _ => False) := by
  induction fuel generalizing fuel1 s with
  | zero => omega
  | succ fuel ih =>
    cases fuel1 with
    | zero => omega
    | succ fuel1 =>
      obtain ⟨hsame, hshape⟩ := dispatch_step_stops P rotation pre l post post1 hpre hl s hs
      rw [dispatch_loop_succ, dispatch_loop_succ, ← hsame]
      cases hstep : dispatch_step P rotation (pre ++ l :: post) s with
      | next s1 =>
        rw [hstep] at hshape
        exact ih fuel1 s1 hshape.2 (by omega) (by omega)
      | finished s1 =>
        rw [hstep] at hshape
        exact ⟨rfl, hshape⟩
      | returned r =>
        rw [hstep] at hshape
        exact ⟨rfl, hshape⟩

theorem dispatch_after_within (P : Painters) (rotation : Nat) (pre : List rct_map_element)
    (l : rct_map_element) (post : List rct_map_element)
    (hpre : ∀ e ∈ pre, map_element_is_last_for_tile e = false)
    (hl : map_element_is_last_for_tile l = true) (n : Nat) (s0 s : LoopState)
    (hs0 : s0.i ≤ pre.length)
    (h : dispatch_after P rotation (pre ++ l :: post) n s0 = some s) :
    s.i ≤ pre.length := by
  induction n generalizing s0 with
  | zero =>
    simp only [dispatch_after, Option.some.injEq] at h
    subst h
    exact hs0
  | succ n ih =>
    have hshape := (dispatch_step_stops P rotation pre l post post hpre hl s0 hs0).2
    unfold dispatch_after at h
    cases hstep : dispatch_step P rotation (pre ++ l :: post) s0 with
    | next s1 =>
      rw [hstep] at h hshape
      exact ih s1 hshape.2 h
    | finished s1 =>
      rw [hstep] at h
      exact Option.noConfusion h
    | returned r =>
      rw [hstep] at h
      exact Option.noConfusion h

theorem sub_68B3FB_entry_congr (env env1 : PaintEnv) (x y : Int) (g : PaintState)
    (h1 : env1.rotation = env.rotation) (h2 : env1.dpi_y = env.dpi_y)
    (h3 : env1.dpi_height = env.dpi_height) (h4 : env1.arrow_enabled = env.arrow_enabled)
    (h5 : env1.gMapSelectArrowPosition_x = env.gMapSelectArrowPosition_x)
    (h6 : env1.gMapSelectArrowPosition_y = env.gMapSelectArrowPosition_y)
    (h7 : env1.gMapSelectArrowPosition_z = env.gMapSelectArrowPosition_z)
    (h8 : env1.gMapSelectArrowDirection = env.gMapSelectArrowDirection)
    (hscan : max_clearance_scan (env1.map_get_first_element_at (x >>> 5) (y >>> 5)) 0
      = max_clearance_scan (env.map_get_first_element_at (x >>> 5) (y >>> 5)) 0) :
    sub_68B3FB_entry env1 x y g = sub_68B3FB_entry env x y g := by
  unfold sub_68B3FB_entry sub_68B3FB_begin
  simp only [h1, h2, h3, h4, h5, h6, h7, h8, hscan]

theorem sub_68B3FB_finish_at_terminator (env env1 : PaintEnv) (pre : List rct_map_element)
    (l : rct_map_element) (post post1 : List rct_map_element) (s : LoopState)
    (h1 : env1.rotation = env.rotation)
    (h2 : env1.gShowSupportSegmentHeights = env.gShowSupportSegmentHeights)
    (hs : s.i = pre.length + 1) :
    sub_68B3FB_finish env1 (pre ++ l :: post1) s = sub_68B3FB_finish env (pre ++ l :: post) s ∧
    (sub_68B3FB_finish env (pre ++ l :: post) s).exit ≠ .fault ∧
    (sub_68B3FB_finish env (pre ++ l :: post) s).exit ≠ .out_of_fuel := by
  have hi : s.i - 1 = pre.length := by omega
  have hm : support_height_markers env1 s.g = support_height_markers env s.g := by
    unfold support_height_markers support_height_marker
    simp only [h1]
  unfold sub_68B3FB_finish
  simp only [hi, get_append_cons, h2, hm]
  refine ⟨trivial, ?_, ?_⟩
  · split
    · simp
    · split <;> simp
  · split
    · simp
    · split <;> simp

/-- C30: on a tile stack in which some element carries the last-for-tile flag (`l`, the
first one, after the elements `pre`), the clearance scan ends at `l`; every state the
dispatch loop reaches has `map_element` at or below `l`, the iteration from it is the same
on the stack cut off after `l` (where any read above `l` would be a fault) and is no fault,
and a step that goes on, the Corrupt skip included, stays at or below `l`; the whole of
`sub_68B3FB` is the same on the stack cut off after `l`, and it ends neither by a read past
the end nor by running out of iterations. -/
theorem loops_stop_at_terminator (P : Painters) (env : PaintEnv) (x y : Int)
    (g : PaintState) (pre : List rct_map_element) (l : rct_map_element)
    (post : List rct_map_element)
    (hstack : env.map_get_first_element_at (x >>> 5) (y >>> 5) = pre ++ l :: post)
    (hpre : ∀ e ∈ pre, map_element_is_last_for_tile e = false)
    (hl : map_element_is_last_for_tile l = true) :
    (∃ M, max_clearance_scan (pre ++ l :: post) 0 = some (M, l) ∧
      max_clearance_scan (pre ++ [l]) 0 = some (M, l)) ∧
    (∀ (s0 : LoopState) (n : Nat) (s : LoopState), s0.i = 0 →
      dispatch_after P env.rotation (pre ++ l :: post) n s0 = some s →
      s.i ≤ pre.length ∧
      dispatch_step P env.rotation (pre ++ l :: post) s
        = dispatch_step P env.rotation (pre ++ [l]) s ∧
      (match dispatch_step P env.rotation (pre ++ l :: post) s with
        | .next s1 => s.i < s1.i ∧ s1.i ≤ pre.length
        | .finished s1 => s1.i = pre.length + 1
        | .returned r => r.exit ≠ .fault ∧ r.exit ≠ .out_of_fuel)) ∧
    sub_68B3FB P env x y g
      = sub_68B3FB P { env with map_get_first_element_at := fun _ _ => pre ++ [l] } x y g ∧
    (sub_68B3FB P env x y g).exit ≠ .fault ∧
    (sub_68B3FB P env x y g).exit ≠ .out_of_fuel := by
  obtain ⟨M, hM, _, _, _⟩ := max_clearance_scan_max pre l post 0 hpre hl
  have hscan := max_clearance_scan_prefix pre l post [] 0 hpre hl
  refine ⟨⟨M, hM, hscan ▸ hM⟩, ?_, ?_⟩
  · intro s0 n s hs0 hn
    have hle := dispatch_after_within P env.rotation pre l post hpre hl n s0 s (by omega) hn
    have hstep := dispatch_step_stops P env.rotation pre l post [] hpre hl s hle
    exact ⟨hle, hstep.1, hstep.2⟩
  · have hentry : sub_68B3FB_entry
        { env with map_get_first_element_at := fun _ _ => pre ++ [l] } x y g
        = sub_68B3FB_entry env x y g := by
      refine sub_68B3FB_entry_congr env
        { env with map_get_first_element_at := fun _ _ => pre ++ [l] } x y g rfl rfl rfl rfl
        rfl rfl rfl rfl ?_
      show max_clearance_scan (pre ++ [l]) 0
        = max_clearance_scan (env.map_get_first_element_at (x >>> 5) (y >>> 5)) 0
      rw [hstack]
      exact hscan.symm
    unfold sub_68B3FB
    simp only [hentry, hstack]
    cases h0 : sub_68B3FB_entry env x y g with
    | returned r =>
      refine ⟨rfl, ?_⟩
      rcases sub_68B3FB_entry_cases env x y g (M, l) (hstack ▸ hM) with ⟨r1, hr1, hex⟩ | ⟨s1, hs1⟩
      · rw [h0] at hr1
        injection hr1 with hr1
        subst hr1
        rcases hex with hex | hex <;> simp [hex]
      · rw [h0] at hs1
        exact Entry.noConfusion hs1
    | loop s0 =>
      have hi0 := (sub_68B3FB_entry_loop env x y g s0 h0).1
      have hlen : (pre ++ l :: post).length = pre.length + 1 + post.length := by
        simp only [List.length_append, List.length_cons]
        omega
      have hlen1 : (pre ++ [l]).length = pre.length + 1 := by
        simp only [List.length_append, List.length_cons, List.length_nil]
      obtain ⟨hsame, hshape⟩ := dispatch_loop_stops P env.rotation pre l post [] hpre hl
        ((pre ++ l :: post).length + 1) ((pre ++ [l]).length + 1) s0 (by omega) (by omega)
        (by omega)
      simp only []
      rw [← hsame]
      cases hloop : dispatch_loop P env.rotation (pre ++ l :: post)
          ((pre ++ l :: post).length + 1) s0 with
      | finished s1 =>
        rw [hloop] at hshape
        have hfin := sub_68B3FB_finish_at_terminator env
          { env with map_get_first_element_at := fun _ _ => pre ++ [l] } pre l post [] s1 rfl
          rfl hshape
        exact ⟨hfin.1.symm, hfin.2.1, hfin.2.2⟩
      | returned r =>
        rw [hloop] at hshape
        exact ⟨rfl, hshape.1, hshape.2⟩
      | stalled s1 =>
        rw [hloop] at hshape
        exact False.elim hshape

theorem loops_stop_at_terminator_witness :
    (sub_68B3FB sample_painters
      (sample_env [sample_element 0x20 2 false, sample_element 8 4 true,
        sample_element 4 6 false]) 64 64 zero_state).exit = Exit.markers_drawn :=
  (congrArg PaintResult.exit
    (loops_stop_at_terminator sample_painters
      (sample_env [sample_element 0x20 2 false, sample_element 8 4 true,
        sample_element 4 6 false]) 64 64 zero_state
      [sample_element 0x20 2 false] (sample_element 8 4 true) [sample_element 4 6 false]
      rfl (by decide) (by decide)).2.2.1).trans (by decide)

end OpenRCT2
